import Mathlib

/-!
# Language-portal backend (`lang-portal/backend-go`): store, handlers and their contracts

A shallow embedding of the HTTP handlers of `internal/api` over an explicit model of the
SQLite store they query.

* A table is the list of its rows, in row order.  A handler is a function of the store, of
  the environment of the request and of the request itself; a handler that writes also
  returns the store it leaves behind.
* SQL `NULL` is `none`.  `LEFT JOIN`, `COUNT(expr)`, `AVG`, `COALESCE` and the `CASE`
  expressions of the queries are modelled with their SQL meaning, so a word without reviews
  contributes one NULL-extended row to a `LEFT JOIN`.
* The `correct` column is the stored integer (Go writes `true` as 1 and `false` as 0).  The
  queries test it in three different ways (`= 1`, `= 0` and as a bare condition, which is
  true for every non-zero value); the three tests are kept apart.
* `float64` values (`response_time`, mastery levels) are modelled by the rationals they
  denote.  A JSON number is decoded into a `float64` by rounding its exact value
  (`float64OfRat`); an average of zeros and ones is the exact quotient that the double
  rounds.
* Go `int` values are unbounded integers here where the arithmetic of the handlers is a
  row count times one hundred, far inside the 64-bit range.  The one product of request
  values, the `offset` of `GetWords`, is wrapped to 64 bits (`wrapInt64`).  `strconv.Atoi`
  does check the 64-bit range and so do `Atoi` and `AtoiGo` below.
* Timestamps are nanoseconds since the Go zero time, so the zero `time.Time` is `0`.  The
  `created_at` column of `study_sessions` holds text, which is what `ORDER BY` compares; a
  session row carries that text next to the instant the driver reads from it.
* Every database call of a handler may report a store failure; the environment decides
  which ones do (`Env.fails`).  `db.InitDB` opens the database with the driver defaults (no
  foreign-key pragma anywhere in the sources), so the store itself checks no reference and
  a call that the environment lets through succeeds.
* Primary keys are not built into `Store`: a statement that needs the ids of a table to be
  unique has it as a hypothesis.
-/

namespace LangPortal

/-! ## Rows and store -/

/-- Nanoseconds since the Go zero time. -/
abbrev Time := Int

/-- The Go constant `time.Minute`, in nanoseconds. -/
def Minute : Int := 60 * 1000000000

/-- Row of `words` (`models.Word`). -/
structure Word where
  id : Int
  english : String
  spanish : String
  level : String
  created_at : Time
  updated_at : Time
deriving DecidableEq, Repr

/-- Row of `groups` (`models.Group`). -/
structure Group where
  id : Int
  name : String
  created_at : Time
  updated_at : Time
deriving DecidableEq, Repr

/-- Row of the link table `word_groups`. -/
structure WordGroup where
  word_id : Int
  group_id : Int
deriving DecidableEq, Repr

/-- Row of `study_activities` (`models.StudyActivity`). -/
structure StudyActivity where
  id : Int
  name : String
  description : String
  created_at : Time
  updated_at : Time
deriving DecidableEq, Repr

/-- Row of the link table `study_activity_groups`. -/
structure StudyActivityGroup where
  study_activity_id : Int
  group_id : Int
deriving DecidableEq, Repr

/-- Row of `study_sessions` (`models.StudySession`).  The column `created_at` holds the
text that was written (`created_at_text`); `created_at` is the instant that the driver
reads from that text when a row is scanned into a `time.Time`. -/
structure StudySession where
  id : Int
  group_id : Int
  study_activity_id : Int
  created_at : Time
  created_at_text : String
deriving DecidableEq, Repr

/-- Row of `word_review_items`; `correct` is the stored integer flag. -/
structure WordReviewItem where
  id : Int
  word_id : Int
  study_activity_id : Int
  correct : Int
  response_time : ℚ
  created_at : Time
deriving DecidableEq, Repr

/-- The database: the seven tables and SQLite's `sqlite_sequence` bookkeeping table, which
holds for a table the largest row id it has handed out. -/
structure Store where
  words : List Word
  groups : List Group
  word_groups : List WordGroup
  study_activities : List StudyActivity
  study_activity_groups : List StudyActivityGroup
  study_sessions : List StudySession
  word_review_items : List WordReviewItem
  sqlite_sequence : List (String × Nat)
deriving DecidableEq, Repr

/-- The environment of one request. -/
structure Env where
  /-- Whether the `k`-th database call of the request (counted from 0) reports a failure. -/
  fails : Nat → Bool
  /-- The value of `CURRENT_TIMESTAMP` during the request. -/
  now : Time

/-- An environment whose database calls all go through. -/
def Env.healthy (now : Time) : Env := ⟨fun _ => false, now⟩

/-- What a handler hands to `c.JSON`: a status with a body, or a status with
`gin.H{"error": msg}`. -/
inductive Resp (α : Type) where
  | ok (status : Nat) (body : α)
  | error (status : Nat) (msg : String)
deriving DecidableEq, Repr

/-- The HTTP status of a response. -/
def Resp.status {α : Type} : Resp α → Nat
  | .ok st _ => st
  | .error st _ => st

/-! ## Library functions used by the handlers -/

/-- Value of a string of decimal digits. -/
def digitsValue (cs : List Char) : Nat :=
  cs.foldl (fun acc c => acc * 10 + (c.toNat - 48)) 0

/-- Go's `strconv.Atoi`: an optional sign, then one or more decimal digits, and the value
must fit a 64-bit integer; `none` is the error result. -/
def Atoi (str : String) : Option Int :=
  let cs := str.toList
  let neg := cs.head? == some '-'
  let ds := match cs with
    | '-' :: r => r
    | '+' :: r => r
    | r => r
  if ds.isEmpty || !ds.all Char.isDigit then none
  else
    let v : Int := if neg then -(digitsValue ds : Int) else (digitsValue ds : Int)
    if -(2 : Int) ^ 63 ≤ v ∧ v ≤ 2 ^ 63 - 1 then some v else none

/-- SQLite compares text byte by byte (collation `BINARY`), which on UTF-8 is the
comparison of the code points. -/
def textLe : List Char → List Char → Bool
  | [], _ => true
  | _ :: _, [] => false
  | a :: as, b :: bs => a.toNat < b.toNat || (a == b && textLe as bs)

/-- The number of binary digits of `n` (0 for 0), found with at most `fuel` halvings. -/
def bitLength : Nat → Nat → Nat
  | 0, _ => 0
  | fuel + 1, n => if n = 0 then 0 else bitLength fuel (n / 2) + 1

/-- The binade of the positive rational `a / b`: the `e` with `2 ^ e ≤ a / b < 2 ^ (e + 1)`,
which is the difference of the bit lengths or one less. -/
def binadeOf (a b : Nat) : Int :=
  let e0 : Int := (bitLength a a : Int) - (bitLength b b : Int)
  if b <<< e0.toNat ≤ a <<< (-e0).toNat then e0 else e0 - 1

/-- The integer nearest to `n / d`, the even one when two are nearest. -/
def roundHalfEven (n d : Nat) : Nat :=
  let q := n / d
  let r := n % d
  if 2 * r < d then q else if d < 2 * r then q + 1 else if q % 2 = 0 then q else q + 1

/-- Go's `strconv.ParseFloat(s, 64)`, by which `encoding/json` decodes a number into a
`float64`, on the exact value `x` of the number literal: the nearest double (IEEE 754,
ties to even), with a 53-bit significand in the binade of `x` and the fixed spacing
`2 ^ -1074` below `2 ^ -1022`, so a value below half that spacing becomes 0 without an
error; `none` is the range error of a value that rounds to `2 ^ 1024` or beyond. -/
def float64OfRat (x : ℚ) : Option ℚ :=
  if x.num = 0 then some 0
  else
    let a := x.num.natAbs
    let b := x.den
    let e := binadeOf a b
    let t : Int := max e (-1022) - 52
    let m := roundHalfEven (a <<< (-t).toNat) (b <<< t.toNat)
    if 1024 ≤ e ∨ (e = 1023 ∧ m = 2 ^ 53) then none
    else
      some (mkRat
        (if x.num < 0 then -((m <<< t.toNat : Nat) : Int) else ((m <<< t.toNat : Nat) : Int))
        (1 <<< (-t).toNat))

/-- SQL `A LEFT JOIN B ON cond`: every row of `A` with each matching row of `B`, or once
with NULL when no row of `B` matches. -/
def leftJoin {α β : Type} (xs : List α) (ys : List β) (cond : α → β → Bool) :
    List (α × Option β) :=
  xs.flatMap fun x =>
    match ys.filter (cond x) with
    | [] => [(x, none)]
    | m :: ms => (m :: ms).map fun y => (x, some y)

/-- SQL `COUNT(expr)`: the number of rows on which the expression is not NULL. -/
def COUNT {α : Type} (vals : List (Option α)) : Int :=
  ((vals.filter Option.isSome).length : Int)

/-- SQL `AVG(expr)`: the mean of the non-NULL values, NULL when there is none. -/
def AVG (vals : List (Option ℚ)) : Option ℚ :=
  let ys := vals.filterMap id
  if ys.isEmpty then none else some (ys.sum / (ys.length : ℚ))

/-- SQL `COALESCE(x, d)`. -/
def COALESCE (x : Option ℚ) (d : ℚ) : ℚ := x.getD d

/-- The SQL expression `CASE WHEN wri.correct = v THEN 1 END` on a possibly NULL-extended
review row: NULL unless the row is there and its flag equals `v`. -/
def caseCorrectEq (v : Int) (wri : Option WordReviewItem) : Option Int :=
  match wri with
  | some r => if r.correct = v then some 1 else none
  | none => none

/-- The SQL expression `CASE WHEN wri.correct THEN 1.0 ELSE 0.0 END`: 1 when the row is
there with a non-zero flag, 0 otherwise (also on a NULL-extended row); never NULL. -/
def caseCorrect (wri : Option WordReviewItem) : Option ℚ :=
  match wri with
  | some r => if r.correct ≠ 0 then some 1 else some 0
  | none => some 0

/-- SQLite's choice of the row id of an inserted row in an `AUTOINCREMENT` table: one more
than the largest id in the table (1 in an empty table), and more than the id recorded in
`sqlite_sequence`. -/
def nextRowId (ids : List Int) (seq : Nat) : Int :=
  let v : Int := match ids with
    | [] => 1
    | i :: is => is.foldl max i + 1
  max v ((seq : Int) + 1)

/-- The counter `sqlite_sequence` holds for a table, 0 when it has no row for it. -/
def seqOf (seqs : List (String × Nat)) (table : String) : Nat :=
  match seqs.find? (fun p => p.1 == table) with
  | some p => p.2
  | none => 0

/-- Record in `sqlite_sequence` that `table` handed out the row id `id`. -/
def seqSet (seqs : List (String × Nat)) (table : String) (id : Int) : List (String × Nat) :=
  (table, id.toNat) :: seqs.filter (fun p => p.1 != table)

/-- The review rows of a word: `word_review_items` restricted by `word_id = ?`. -/
def reviewsOfWord (s : Store) (wordID : Int) : List WordReviewItem :=
  s.word_review_items.filter fun r => r.word_id == wordID

/-! ## `words.go` -/

/-- Go `models.WordWithStats`. -/
structure WordWithStats where
  word : Word
  correct_count : Int
  incorrect_count : Int
  mastery_level : ℚ
deriving DecidableEq, Repr

/-- The joined rows of `FROM words w LEFT JOIN word_review_items wri ON w.id = wri.word_id
WHERE w.id = ?`. -/
def wordReviewRows (s : Store) (wordID : Int) : List (Word × Option WordReviewItem) :=
  (leftJoin s.words s.word_review_items (fun w wri => w.id == wri.word_id)).filter
    (fun p => p.1.id == wordID)

/-- The select list of the word queries evaluated on one `GROUP BY w.id` group; the bare
columns are taken from the first row of the group. -/
def wordStatsOfGroup (rows : List (Word × Option WordReviewItem)) : Option WordWithStats :=
  match rows with
  | [] => none
  | (w, _) :: _ =>
    some { word := w
           correct_count := COUNT (rows.map fun p => caseCorrectEq 1 p.2)
           incorrect_count := COUNT (rows.map fun p => caseCorrectEq 0 p.2)
           mastery_level := COALESCE (AVG (rows.map fun p => caseCorrect p.2)) 0 }

/-- Handler `GetWord` (`GET /api/words/:id`). -/
def GetWord (s : Store) (env : Env) (idParam : String) : Resp WordWithStats :=
  match Atoi idParam with
  | none => .error 400 "Invalid word ID"
  | some wordID =>
    if env.fails 0 then .error 500 "Failed to fetch word"
    else
      -- all joined rows satisfy `w.id = ?`, so `GROUP BY w.id` forms at most one group
      match wordStatsOfGroup (wordReviewRows s wordID) with
      | none => .error 404 "Word not found"
      | some word => .ok 200 word

/-! ## Study sessions with statistics (`study_sessions.go`, `dashboard.go`, `groups.go`,
`study_activities.go`) -/

/-- Go `models.StudySessionWithStats`.  The first four fields are the embedded
`models.StudySession`, of which the queries fill `id` only. -/
structure StudySessionWithStats where
  id : Int
  group_id : Int
  study_activity_id : Int
  created_at : Time
  activity_name : String
  group_name : String
  start_time : Time
  end_time : Time
  review_items_count : Int
  score : Int
  correct_count : Int
  incorrect_count : Int
deriving DecidableEq, Repr

/-- The rows of `FROM study_sessions ss JOIN study_activities sa ON ss.study_activity_id =
sa.id JOIN groups g ON ss.group_id = g.id`. -/
def sessionJoin (s : Store) : List (StudySession × StudyActivity × Group) :=
  s.study_sessions.flatMap fun ss =>
    (s.study_activities.filter fun sa => ss.study_activity_id == sa.id).flatMap fun sa =>
      (s.groups.filter fun g => ss.group_id == g.id).map fun g => (ss, sa, g)

/-- `ORDER BY ss.created_at DESC`: the column holds text, which SQLite orders byte by byte,
so the rows are ordered by their stored text, greatest first (rows with equal texts keep
their order). -/
def orderByCreatedAtDesc (rows : List (StudySession × StudyActivity × Group)) :
    List (StudySession × StudyActivity × Group) :=
  rows.insertionSort fun a b =>
    textLe b.1.created_at_text.toList a.1.created_at_text.toList = true

/-- The select list shared by the five session queries, scanned into a zero-valued
`StudySessionWithStats`: the three counts are correlated subqueries over the review rows
of the session's study activity. -/
def scanSession (s : Store) (row : StudySession × StudyActivity × Group) :
    StudySessionWithStats :=
  let ss := row.1
  { id := ss.id
    group_id := 0
    study_activity_id := 0
    created_at := 0
    activity_name := row.2.1.name
    group_name := row.2.2.name
    start_time := ss.created_at
    end_time := 0
    review_items_count :=
      ((s.word_review_items.filter fun wri =>
        wri.study_activity_id == ss.study_activity_id).length : Int)
    score := 0
    correct_count :=
      ((s.word_review_items.filter fun wri =>
        wri.study_activity_id == ss.study_activity_id && wri.correct == 1).length : Int)
    incorrect_count :=
      ((s.word_review_items.filter fun wri =>
        wri.study_activity_id == ss.study_activity_id && wri.correct == 0).length : Int) }

/-- The statement `if session.ReviewItemsCount > 0 { session.Score = (session.CorrectCount
* 100) / session.ReviewItemsCount }`; Go's integer division truncates toward zero. -/
def setScore (x : StudySessionWithStats) : StudySessionWithStats :=
  if x.review_items_count > 0 then
    { x with score := Int.tdiv (x.correct_count * 100) x.review_items_count }
  else x

/-- The statement `session.EndTime = session.StartTime.Add(30 * time.Minute)`. -/
def setEndTime (x : StudySessionWithStats) : StudySessionWithStats :=
  { x with end_time := x.start_time + 30 * Minute }

/-- Handler `GetLastStudySession`: the first row of the ordered join; every error of the
row scan, the empty result included, is answered 500. -/
def GetLastStudySession (s : Store) (env : Env) : Resp StudySessionWithStats :=
  if env.fails 0 then .error 500 "Failed to fetch last study session"
  else
    match (orderByCreatedAtDesc (sessionJoin s)).take 1 with
    | [] => .error 500 "Failed to fetch last study session"
    | row :: _ => .ok 200 (setEndTime (setScore (scanSession s row)))

/-- The `limit` of `GetStudySessions` from the query string (`""` when absent). -/
def parseLimit (limitStr : String) : Int :=
  if limitStr != "" then
    match Atoi limitStr with
    | some parsedLimit => if parsedLimit > 0 then parsedLimit else 20
    | none => 20
  else 20

/-- The `offset` of `GetStudySessions` from the query string (`""` when absent). -/
def parseOffset (offsetStr : String) : Int :=
  if offsetStr != "" then
    match Atoi offsetStr with
    | some parsedOffset => if parsedOffset ≥ 0 then parsedOffset else 0
    | none => 0
  else 0

/-- Handler `GetStudySessions` (`GET /api/study_sessions?limit=&offset=`). -/
def GetStudySessions (s : Store) (env : Env) (limitStr offsetStr : String) :
    Resp (List StudySessionWithStats) :=
  let limit := parseLimit limitStr
  let offset := parseOffset offsetStr
  if env.fails 0 then .error 500 "Failed to fetch study sessions"
  else
    let rows := ((orderByCreatedAtDesc (sessionJoin s)).drop offset.toNat).take limit.toNat
    .ok 200 (rows.map fun row => setEndTime (setScore (scanSession s row)))

/-- Handler `GetStudySession` (`GET /api/study_sessions/:id`). -/
def GetStudySession (s : Store) (env : Env) (idParam : String) : Resp StudySessionWithStats :=
  match Atoi idParam with
  | none => .error 400 "Invalid session ID"
  | some sessionID =>
    if env.fails 0 then .error 500 "Failed to fetch study session"
    else
      match (sessionJoin s).filter fun row => row.1.id == sessionID with
      | [] => .error 404 "Study session not found"
      | row :: _ => .ok 200 (setEndTime (setScore (scanSession s row)))

/-- Handler `GetGroupStudySessions` (`GET /api/groups/:id/study_sessions`); it sets the
score of each session and leaves its end time at the zero value. -/
def GetGroupStudySessions (s : Store) (env : Env) (idParam : String) :
    Resp (List StudySessionWithStats) :=
  match Atoi idParam with
  | none => .error 400 "Invalid group ID"
  | some groupID =>
    if env.fails 0 then .error 500 "Failed to fetch group study sessions"
    else
      let rows := orderByCreatedAtDesc ((sessionJoin s).filter fun row => row.1.group_id == groupID)
      .ok 200 (rows.map fun row => setScore (scanSession s row))

/-- Handler `GetStudyActivitySessions` (`GET /api/study_activities/:id/study_sessions`); it
sets the score of each session and leaves its end time at the zero value. -/
def GetStudyActivitySessions (s : Store) (env : Env) (idParam : String) :
    Resp (List StudySessionWithStats) :=
  match Atoi idParam with
  | none => .error 400 "Invalid activity ID"
  | some activityID =>
    if env.fails 0 then .error 500 "Failed to fetch activity study sessions"
    else
      let rows := orderByCreatedAtDesc
        ((sessionJoin s).filter fun row => row.1.study_activity_id == activityID)
      .ok 200 (rows.map fun row => setScore (scanSession s row))

/-! ## Review recorder and session creation (`study_sessions.go`) -/

/-- The members of the JSON object posted to `CreateWordReview`; a member that is missing
(or `null`) is `none`, and `response_time` is the exact value of the number literal of the
body. -/
structure ReviewJSON where
  correct : Option Bool
  response_time : Option ℚ
deriving DecidableEq, Repr

/-- The anonymous request struct of `CreateWordReview` after `ShouldBindJSON`: members the
body does not set keep the Go zero value. -/
structure ReviewRequest where
  Correct : Bool
  ResponseTime : ℚ
deriving DecidableEq, Repr

/-- Decoding of a review body into the zero-valued request struct: the number of
`response_time` is decoded into the `float64` field, and its range error is an error of
`ShouldBindJSON` (`none`). -/
def bindReview (json : ReviewJSON) : Option ReviewRequest :=
  match json.response_time with
  | none => some { Correct := json.correct.getD false, ResponseTime := 0 }
  | some x =>
    match float64OfRat x with
    | none => none
    | some rt => some { Correct := json.correct.getD false, ResponseTime := rt }

/-- Go `models.WordReviewResult`. -/
structure WordReviewResult where
  word_id : Int
  session_id : Int
  correct : Bool
  response_time : ℚ
  new_mastery_level : ℚ
deriving DecidableEq, Repr

/-- The statement `INSERT INTO word_review_items (word_id, study_activity_id, correct,
response_time) VALUES (?, ?, ?, ?)`: the driver binds a Go `bool` as 1 or 0, the id is
generated and `created_at` takes its default `CURRENT_TIMESTAMP`. -/
def insertWordReview (s : Store) (now : Time) (wordID studyActivityID : Int) (correct : Bool)
    (responseTime : ℚ) : Store :=
  let id := nextRowId (s.word_review_items.map fun r => r.id)
    (seqOf s.sqlite_sequence "word_review_items")
  { s with
    word_review_items := s.word_review_items ++
      [{ id := id, word_id := wordID, study_activity_id := studyActivityID,
         correct := if correct then 1 else 0, response_time := responseTime,
         created_at := now }]
    sqlite_sequence := seqSet s.sqlite_sequence "word_review_items" id }

/-- The query `SELECT EXISTS(SELECT 1 FROM words w JOIN word_groups wg ON w.id = wg.word_id
WHERE w.id = ? AND wg.group_id = ?)`. -/
def wordInGroup (s : Store) (wordID groupID : Int) : Bool :=
  !((s.words.flatMap fun w =>
      (s.word_groups.filter fun wg => w.id == wg.word_id).map fun wg => (w, wg)).filter
    fun p => p.1.id == wordID && p.2.group_id == groupID).isEmpty

/-- The query `SELECT COALESCE(AVG(CASE WHEN correct THEN 1.0 ELSE 0.0 END), 0) FROM
word_review_items WHERE word_id = ?`. -/
def wordMastery (s : Store) (wordID : Int) : ℚ :=
  COALESCE (AVG ((reviewsOfWord s wordID).map fun r => caseCorrect (some r))) 0

/-- Handler `CreateWordReview` (`POST .../study_sessions/:id/words/:word_id/review`);
`body` is `none` when the body is not a JSON object with members of the right kinds, which
is an error of `ShouldBindJSON`, like the range error of `bindReview`.  The insert is not inside a
transaction.  `LastInsertId` of the SQLite driver cannot fail. -/
def CreateWordReview (s : Store) (env : Env) (idParam wordIdParam : String)
    (body : Option ReviewJSON) : Resp WordReviewResult × Store :=
  match Atoi idParam with
  | none => (.error 400 "Invalid session ID", s)
  | some sessionID =>
    match Atoi wordIdParam with
    | none => (.error 400 "Invalid word ID", s)
    | some wordID =>
      if env.fails 0 then (.error 500 "Failed to fetch study session", s)
      else
        match s.study_sessions.filter fun ss => ss.id == sessionID with
        | [] => (.error 404 "Study session not found", s)
        | ss :: _ =>
          let studyActivityID := ss.study_activity_id
          let groupID := ss.group_id
          if env.fails 1 then (.error 500 "Failed to check word existence", s)
          else if !wordInGroup s wordID groupID then
            (.error 404 "Word not found or does not belong to the group", s)
          else
            match body.bind bindReview with
            | none => (.error 400 "Invalid request body", s)
            | some review =>
              if review.ResponseTime ≤ 0 then
                (.error 400 "Response time must be positive", s)
              else if env.fails 2 then (.error 500 "Failed to create word review", s)
              else
                let s1 := insertWordReview s env.now wordID studyActivityID review.Correct
                  review.ResponseTime
                if env.fails 3 then (.error 500 "Failed to calculate mastery level", s1)
                else
                  (.ok 200 { word_id := wordID, session_id := sessionID
                             correct := review.Correct
                             response_time := review.ResponseTime
                             new_mastery_level := wordMastery s1 wordID }, s1)

/-- The query `SELECT group_id FROM study_activity_groups WHERE study_activity_id = ?`. -/
def activityGroupIDs (s : Store) (activityID : Int) : List Int :=
  (s.study_activity_groups.filter fun l => l.study_activity_id == activityID).map
    fun l => l.group_id

/-- A Go `time.Time` of a request: its instant, and the text that the SQLite driver writes
when the value is bound to a statement (the wall clock and the zone offset of the value in
the layout `2006-01-02 15:04:05.999999999-07:00`). -/
structure GoTime where
  instant : Time
  sqliteText : String
deriving DecidableEq, Repr

/-- The zero `time.Time`. -/
def GoTime.zero : GoTime := ⟨0, "0001-01-01 00:00:00+00:00"⟩

/-- The members of the JSON object posted to `CreateStudySession`. -/
structure SessionJSON where
  study_activity_id : Option Int
  start_time : Option GoTime
deriving DecidableEq, Repr

/-- The `gin.H` answered by `CreateStudySession`. -/
structure CreatedSession where
  id : Int
  study_activity_id : Int
  group_id : Int
  start_time : Time
deriving DecidableEq, Repr

/-- Modelled from the spec: the migration that declares `study_sessions` is not among the
sources; its `id` is an integer surrogate key with an auto-increment counter, like the `id`
of `word_review_items`.  The statement `INSERT INTO study_sessions (study_activity_id,
group_id, created_at) VALUES (?, ?, ?)`, with the
`LastInsertId` of its result. -/
def insertStudySession (s : Store) (studyActivityID groupID : Int) (startTime : GoTime) :
    Store × Int :=
  let id := nextRowId (s.study_sessions.map fun r => r.id)
    (seqOf s.sqlite_sequence "study_sessions")
  ({ s with
     study_sessions := s.study_sessions ++
       [{ id := id, group_id := groupID, study_activity_id := studyActivityID,
          created_at := startTime.instant, created_at_text := startTime.sqliteText }]
     sqlite_sequence := seqSet s.sqlite_sequence "study_sessions" id }, id)

/-- Handler `CreateStudySession` (`POST /api/study_sessions`). -/
def CreateStudySession (s : Store) (env : Env) (body : Option SessionJSON) :
    Resp CreatedSession × Store :=
  match body with
  | none => (.error 400 "Invalid request body", s)
  | some json =>
    let StudyActivityID := json.study_activity_id.getD 0
    let StartTime := json.start_time.getD GoTime.zero
    if env.fails 0 then (.error 500 "Failed to fetch study activity groups", s)
    else
      let groupIDs := activityGroupIDs s StudyActivityID
      match groupIDs with
      | [] => (.error 404 "Study activity not found or has no groups", s)
      | g0 :: _ =>
        if env.fails 1 then (.error 500 "Failed to create study session", s)
        else
          let result := insertStudySession s StudyActivityID g0 StartTime
          let sessionID := result.2
          (.ok 201 { id := sessionID, study_activity_id := StudyActivityID, group_id := g0
                     start_time := StartTime.instant }, result.1)

/-! ## Study activities (`study_activities.go`) -/

/-- The `gin.H` answered by `GetStudyActivity`. -/
structure StudyActivityDetail where
  id : Int
  name : String
  description : String
  created_at : Time
  updated_at : Time
  total_sessions : Int
  group_ids : List Int
deriving DecidableEq, Repr

/-- Handler `GetStudyActivity` (`GET /api/study_activities/:id`): the activity row with
`COUNT(DISTINCT ss.id)` over its left-joined sessions, then its group ids. -/
def GetStudyActivity (s : Store) (env : Env) (idParam : String) : Resp StudyActivityDetail :=
  match Atoi idParam with
  | none => .error 400 "Invalid activity ID"
  | some activityID =>
    if env.fails 0 then .error 500 "Failed to fetch study activity"
    else
      let rows := (leftJoin s.study_activities s.study_sessions
        (fun sa ss => sa.id == ss.study_activity_id)).filter fun p => p.1.id == activityID
      match rows with
      | [] => .error 404 "Study activity not found"
      | (sa, _) :: _ =>
        let totalSessions : Int :=
          (((rows.filterMap fun p => p.2.map fun ss => ss.id).dedup).length : Int)
        if env.fails 1 then .error 500 "Failed to fetch activity groups"
        else
          .ok 200 { id := sa.id, name := sa.name, description := sa.description
                    created_at := sa.created_at, updated_at := sa.updated_at
                    total_sessions := totalSessions
                    group_ids := activityGroupIDs s activityID }

/-- The members of the JSON object posted to `CreateStudyActivity`. -/
structure ActivityJSON where
  name : Option String
  description : Option String
  group_ids : Option (List Int)
deriving DecidableEq, Repr

/-- The `gin.H` answered by `CreateStudyActivity`; a `nil` slice of group ids is the empty
list. -/
structure CreatedActivity where
  id : Int
  name : String
  description : String
  group_ids : List Int
deriving DecidableEq, Repr

/-- Modelled from the spec: the migration that declares `study_activities` is not among the
sources; its `id` is an integer surrogate key with an auto-increment counter and its two
timestamps default to `CURRENT_TIMESTAMP`.  The statement `INSERT INTO study_activities
(name, description) VALUES (?, ?)`, with the `LastInsertId` of its result. -/
def insertStudyActivity (t : Store) (now : Time) (name description : String) : Store × Int :=
  let id := nextRowId (t.study_activities.map fun r => r.id)
    (seqOf t.sqlite_sequence "study_activities")
  ({ t with
     study_activities := t.study_activities ++
       [{ id := id, name := name, description := description, created_at := now,
          updated_at := now }]
     sqlite_sequence := seqSet t.sqlite_sequence "study_activities" id }, id)

/-- The loop `for _, groupID := range request.GroupIDs { tx.Exec(INSERT INTO
study_activity_groups ...) }` run on the transaction's store `t`; the `i`-th insert is
database call `k + i` of the request, and `none` is the first failing insert. -/
def linkGroups (env : Env) (activityID : Int) : Nat → List Int → Store → Option Store
  | _, [], t => some t
  | k, groupID :: rest, t =>
    if env.fails k then none
    else
      linkGroups env activityID (k + 1) rest
        { t with study_activity_groups := t.study_activity_groups ++
            [{ study_activity_id := activityID, group_id := groupID }] }

/-- Handler `CreateStudyActivity` (`POST /api/study_activities`).  The statements run in a
transaction: they work on a copy of the store, which replaces the store at `Commit` and is
dropped at `Rollback` (a failed `Commit` rolls back as well). -/
def CreateStudyActivity (s : Store) (env : Env) (body : Option ActivityJSON) :
    Resp CreatedActivity × Store :=
  match body with
  | none => (.error 400 "Invalid request body", s)
  | some json =>
    let Name := json.name.getD ""
    let Description := json.description.getD ""
    let GroupIDs := json.group_ids.getD []
    if env.fails 0 then (.error 500 "Failed to start transaction", s)
    else if env.fails 1 then (.error 500 "Failed to create study activity", s)
    else
      let result := insertStudyActivity s env.now Name Description
      let activityID := result.2
      match linkGroups env activityID 2 GroupIDs result.1 with
      | none => (.error 500 "Failed to link activity to group", s)
      | some t =>
        if env.fails (2 + GroupIDs.length) then (.error 500 "Failed to commit transaction", s)
        else
          (.ok 201 { id := activityID, name := Name, description := Description
                     group_ids := GroupIDs }, t)

/-! ## Reset operations (`system.go`) -/

/-- The `gin.H` answered by the reset handlers. -/
structure ResetMessage where
  message : String
  details : String
deriving DecidableEq, Repr

/-- Handler `ResetHistory` (`POST /api/reset_history`): both deletes run in one
transaction. -/
def ResetHistory (s : Store) (env : Env) : Resp ResetMessage × Store :=
  if env.fails 0 then (.error 500 "Failed to start transaction", s)
  else if env.fails 1 then (.error 500 "Failed to delete word review items", s)
  else
    let t1 := { s with word_review_items := [] }
    if env.fails 2 then (.error 500 "Failed to delete study sessions", s)
    else
      let t2 := { t1 with study_sessions := [] }
      if env.fails 3 then (.error 500 "Failed to commit transaction", s)
      else
        (.ok 200 { message := "Successfully reset study history"
                   details := "Deleted all study sessions and word review items" }, t2)

/-- The `tables` slice of `FullReset`. -/
def fullResetTables : List String :=
  ["word_review_items", "study_sessions", "word_groups", "words", "groups",
   "study_activities"]

/-- The statement `DELETE FROM <table>`. -/
def deleteFrom (t : Store) (table : String) : Store :=
  if table == "word_review_items" then { t with word_review_items := [] }
  else if table == "study_sessions" then { t with study_sessions := [] }
  else if table == "word_groups" then { t with word_groups := [] }
  else if table == "words" then { t with words := [] }
  else if table == "groups" then { t with groups := [] }
  else if table == "study_activities" then { t with study_activities := [] }
  else if table == "study_activity_groups" then { t with study_activity_groups := [] }
  else t

/-- The first loop of `FullReset`, `tx.Exec("DELETE FROM " + table)` for each table, run on
the transaction's store; the `i`-th delete is database call `k + i`, and the error result
names the table whose delete failed. -/
def deleteTables (env : Env) : Nat → List String → Store → Except String Store
  | _, [], t => .ok t
  | k, table :: rest, t =>
    if env.fails k then .error table
    else deleteTables env (k + 1) rest (deleteFrom t table)

/-- The second loop of `FullReset`, `tx.Exec("DELETE FROM sqlite_sequence WHERE name = ?",
table)` for each table. -/
def resetSequences (env : Env) : Nat → List String → Store → Except String Store
  | _, [], t => .ok t
  | k, table :: rest, t =>
    if env.fails k then .error table
    else
      resetSequences env (k + 1) rest
        { t with sqlite_sequence := t.sqlite_sequence.filter fun p => p.1 != table }

/-- Handler `FullReset` (`POST /api/full_reset`): all deletes run in one transaction. -/
def FullReset (s : Store) (env : Env) : Resp ResetMessage × Store :=
  if env.fails 0 then (.error 500 "Failed to start transaction", s)
  else
    match deleteTables env 1 fullResetTables s with
    | .error table => (.error 500 ("Failed to delete data from " ++ table), s)
    | .ok t1 =>
      match resetSequences env (1 + fullResetTables.length) fullResetTables t1 with
      | .error table => (.error 500 ("Failed to reset auto-increment for " ++ table), s)
      | .ok t2 =>
        if env.fails (1 + fullResetTables.length + fullResetTables.length) then
          (.error 500 "Failed to commit transaction", s)
        else
          (.ok 200 { message := "Successfully reset database"
                     details := "Database has been reset to initial state with seed data" },
           t2)

/-! ## Word lists (`words.go`, `groups.go`) -/

/-- The error of a `strconv` conversion. -/
inductive NumError where
  | ErrSyntax
  | ErrRange
deriving DecidableEq, Repr

/-- The digit loop of `strconv.ParseUint(s, 10, 64)`: the first character that is not a
decimal digit is a syntax error, and the first digit that takes the value beyond
`2 ^ 64 - 1` is a range error, whatever follows it. -/
def parseUintDigits : List Char → Nat → Except NumError Nat
  | [], n => .ok n
  | c :: cs, n =>
    if !c.isDigit then .error .ErrSyntax
    else if n * 10 + (c.toNat - 48) > 2 ^ 64 - 1 then .error .ErrRange
    else parseUintDigits cs (n * 10 + (c.toNat - 48))

/-- Both results of Go's `strconv.Atoi`: the error, and the value, which is 0 after a
syntax error and the nearest 64-bit integer after a range error.  A caller that drops the
error (`page, _ := strconv.Atoi(...)`) works with that value. -/
def AtoiGo (str : String) : Int × Option NumError :=
  let cs := str.toList
  let neg := cs.head? == some '-'
  let ds := match cs with
    | '-' :: r => r
    | '+' :: r => r
    | r => r
  if ds.isEmpty then (0, some .ErrSyntax)
  else
    match parseUintDigits ds 0 with
    | .error .ErrSyntax => (0, some .ErrSyntax)
    | .error .ErrRange => (if neg then -(2 : Int) ^ 63 else 2 ^ 63 - 1, some .ErrRange)
    | .ok un =>
      if !neg && un ≥ 2 ^ 63 then (2 ^ 63 - 1, some .ErrRange)
      else if neg && un > 2 ^ 63 then (-(2 : Int) ^ 63, some .ErrRange)
      else (if neg then -(un : Int) else (un : Int), none)

/-- Go's signed 64-bit arithmetic wraps around: the `int` that holds the exact result `x`. -/
def wrapInt64 (x : Int) : Int := (x + 2 ^ 63) % 2 ^ 64 - 2 ^ 63

/-- The clause `GROUP BY w.id` with the select list of the word queries: one result row for
each word id among the joined rows. -/
def groupByWordId (rows : List (Word × Option WordReviewItem)) : List WordWithStats :=
  ((rows.map fun p => p.1.id).dedup).filterMap fun i =>
    wordStatsOfGroup (rows.filter fun p => p.1.id == i)

/-- The `pagination` block answered by `GetWords`. -/
structure Pagination where
  current_page : Int
  total_pages : Int
  total_items : Int
  per_page : Int
deriving DecidableEq, Repr

/-- The `gin.H` answered by `GetWords`. -/
structure WordsPage where
  words : List WordWithStats
  pagination : Pagination
deriving DecidableEq, Repr

/-- Handler `GetWords` (`GET /api/words?page=&per_page=`); a query parameter that is not
given is `none`, and the errors of both `strconv.Atoi` calls are dropped.  SQLite reads a
negative `OFFSET` as 0. -/
def GetWords (s : Store) (env : Env) (pageQuery perPageQuery : Option String) :
    Resp WordsPage :=
  let page0 := (AtoiGo (pageQuery.getD "1")).1
  let perPage0 := (AtoiGo (perPageQuery.getD "100")).1
  let page := if page0 < 1 then 1 else page0
  let perPage := if perPage0 < 1 ∨ perPage0 > 100 then 100 else perPage0
  let offset := wrapInt64 ((page - 1) * perPage)
  if env.fails 0 then .error 500 "Failed to count words"
  else
    let totalItems : Int := (s.words.length : Int)
    if env.fails 1 then .error 500 "Failed to fetch words"
    else
      let groups := (groupByWordId (leftJoin s.words s.word_review_items
        (fun w wri => w.id == wri.word_id))).insertionSort
          fun a b => a.word.id ≤ b.word.id
      let words := (groups.drop offset.toNat).take perPage.toNat
      let totalPages := Int.tdiv (totalItems + perPage - 1) perPage
      .ok 200 { words := words
                pagination := { current_page := page, total_pages := totalPages
                                total_items := totalItems, per_page := perPage } }

/-- The joined rows of `FROM words w JOIN word_groups wg ON w.id = wg.word_id LEFT JOIN
word_review_items wri ON w.id = wri.word_id WHERE wg.group_id = ?`, projected on the word
and the review. -/
def groupWordRows (s : Store) (groupID : Int) : List (Word × Option WordReviewItem) :=
  ((leftJoin
      (s.words.flatMap fun w =>
        (s.word_groups.filter fun wg => w.id == wg.word_id).map fun wg => (w, wg))
      s.word_review_items (fun p wri => p.1.id == wri.word_id)).filter
    fun r => r.1.2.group_id == groupID).map fun r => (r.1.1, r.2)

/-- Handler `GetGroupWords` (`GET /api/groups/:id/words`). -/
def GetGroupWords (s : Store) (env : Env) (idParam : String) : Resp (List WordWithStats) :=
  match Atoi idParam with
  | none => .error 400 "Invalid group ID"
  | some groupID =>
    if env.fails 0 then .error 500 "Failed to check group existence"
    else if (s.groups.filter fun g => g.id == groupID).isEmpty then
      .error 404 "Group not found"
    else if env.fails 1 then .error 500 "Failed to fetch group words"
    else
      .ok 200 ((groupByWordId (groupWordRows s groupID)).insertionSort
        fun a b => textLe a.word.english.toList b.word.english.toList = true)

/-- The joined rows of `FROM words w JOIN word_groups wg ON w.id = wg.word_id LEFT JOIN
word_review_items wri ON w.id = wri.word_id AND wri.study_activity_id = ? WHERE wg.group_id
= ?` of `GetStudySessionWords`, projected on the word and the review. -/
def sessionWordRows (s : Store) (studyActivityID groupID : Int) :
    List (Word × Option WordReviewItem) :=
  ((leftJoin
      (s.words.flatMap fun w =>
        (s.word_groups.filter fun wg => w.id == wg.word_id).map fun wg => (w, wg))
      s.word_review_items
      (fun p wri => p.1.id == wri.word_id && wri.study_activity_id == studyActivityID)).filter
    fun r => r.1.2.group_id == groupID).map fun r => (r.1.1, r.2)

/-- Handler `GetStudySessionWords` (`GET /api/study_sessions/:id/words`): the session row
gives the study activity and the group, and the word query lists the words of that group
with the review rows of that activity. -/
def GetStudySessionWords (s : Store) (env : Env) (idParam : String) :
    Resp (List WordWithStats) :=
  match Atoi idParam with
  | none => .error 400 "Invalid session ID"
  | some sessionID =>
    if env.fails 0 then .error 500 "Failed to fetch session"
    else
      match s.study_sessions.filter fun ss => ss.id == sessionID with
      | [] => .error 404 "Study session not found"
      | ss :: _ =>
        if env.fails 1 then .error 500 "Failed to fetch session words"
        else
          .ok 200 ((groupByWordId (sessionWordRows s ss.study_activity_id
              ss.group_id)).insertionSort
            fun a b => textLe a.word.english.toList b.word.english.toList = true)

/-! ## Groups with statistics (`groups.go`) -/

/-- The anonymous `Statistics` struct of `models.GroupWithStats`. -/
structure GroupStatistics where
  total_word_count : Int
  mastered_words : Int
  in_progress_words : Int
  average_mastery : ℚ
deriving DecidableEq, Repr

/-- Go `models.GroupWithStats`. -/
structure GroupWithStats where
  group : Group
  statistics : GroupStatistics
deriving DecidableEq, Repr

/-- One row of the three-fold join of the group queries; the columns of `wg`, `w` and `wri`
are NULL where the left join found no match. -/
abbrev GroupRow := ((Group × Option WordGroup) × Option Word) × Option WordReviewItem

/-- The rows of `FROM groups g LEFT JOIN word_groups wg ON g.id = wg.group_id LEFT JOIN
words w ON wg.word_id = w.id LEFT JOIN word_review_items wri ON w.id = wri.word_id`; a
comparison with a NULL column is not true. -/
def groupJoin (s : Store) : List GroupRow :=
  leftJoin
    (leftJoin
      (leftJoin s.groups s.word_groups fun g wg => g.id == wg.group_id)
      s.words fun p w =>
        match p.2 with
        | some wg => wg.word_id == w.id
        | none => false)
    s.word_review_items fun p wri =>
      match p.2 with
      | some w => w.id == wri.word_id
      | none => false

/-- SQL `COUNT(DISTINCT expr)`: the number of different non-NULL values. -/
def COUNT_DISTINCT (vals : List (Option Int)) : Int :=
  (((vals.filterMap id).dedup).length : Int)

/-- The SQL expression `CASE WHEN wri.correct = v THEN w.id END` on a joined row. -/
def caseCorrectEqThenWordId (v : Int) (row : GroupRow) : Option Int :=
  match row.2 with
  | some r => if r.correct = v then row.1.2.map fun w => w.id else none
  | none => none

/-- The select list of the group queries evaluated on one `GROUP BY g.id` group; the bare
columns are taken from the first row of the group. -/
def groupStatsOfGroup (rows : List GroupRow) : Option GroupWithStats :=
  match rows with
  | [] => none
  | row :: _ =>
    some { group := row.1.1.1
           statistics :=
             { total_word_count :=
                 COUNT_DISTINCT (rows.map fun r => r.1.1.2.map fun wg => wg.word_id)
               mastered_words := COUNT_DISTINCT (rows.map (caseCorrectEqThenWordId 1))
               in_progress_words := COUNT_DISTINCT (rows.map (caseCorrectEqThenWordId 0))
               average_mastery := COALESCE (AVG (rows.map fun r => caseCorrect r.2)) 0 } }

/-- Handler `GetGroups` (`GET /api/groups`): one entry for each group id, ordered by
name. -/
def GetGroups (s : Store) (env : Env) : Resp (List GroupWithStats) :=
  if env.fails 0 then .error 500 "Failed to fetch groups"
  else
    .ok 200 ((((s.groups.map fun g => g.id).dedup).filterMap fun i =>
        groupStatsOfGroup ((groupJoin s).filter fun r => r.1.1.1.id == i)).insertionSort
      fun a b => textLe a.group.name.toList b.group.name.toList = true)

/-- Handler `GetGroup` (`GET /api/groups/:id`). -/
def GetGroup (s : Store) (env : Env) (idParam : String) : Resp GroupWithStats :=
  match Atoi idParam with
  | none => .error 400 "Invalid group ID"
  | some groupID =>
    if env.fails 0 then .error 500 "Failed to fetch group"
    else
      match groupStatsOfGroup ((groupJoin s).filter fun r => r.1.1.1.id == groupID) with
      | none => .error 404 "Group not found"
      | some group => .ok 200 group

/-! ## Dashboard (`dashboard.go`) -/

/-- The anonymous `progress` struct of `GetStudyProgress`. -/
structure StudyProgress where
  total_words : Int
  words_studied : Int
  average_mastery : ℚ
deriving DecidableEq, Repr

/-- The anonymous `stats` struct of `GetQuickStats`. -/
structure QuickStats where
  total_sessions : Int
  total_reviews : Int
  total_words : Int
  words_studied : Int
  average_mastery : ℚ
deriving DecidableEq, Repr

/-- The subquery `SELECT COUNT(DISTINCT word_id) FROM word_review_items`. -/
def wordsStudied (s : Store) : Int :=
  COUNT_DISTINCT (s.word_review_items.map fun r => some r.word_id)

/-- The subquery `SELECT COALESCE(AVG(CASE WHEN correct THEN 1.0 ELSE 0.0 END), 0) FROM
word_review_items`. -/
def overallMastery (s : Store) : ℚ :=
  COALESCE (AVG (s.word_review_items.map fun r => caseCorrect (some r))) 0

/-- Handler `GetStudyProgress` (`GET /api/dashboard/study_progress`). -/
def GetStudyProgress (s : Store) (env : Env) : Resp StudyProgress :=
  if env.fails 0 then .error 500 "Failed to fetch word statistics"
  else
    .ok 200 { total_words := (s.words.length : Int)
              words_studied := wordsStudied s
              average_mastery := overallMastery s }

/-- Handler `GetQuickStats` (`GET /api/dashboard/quick_stats`). -/
def GetQuickStats (s : Store) (env : Env) : Resp QuickStats :=
  if env.fails 0 then .error 500 "Failed to fetch quick statistics"
  else
    .ok 200 { total_sessions := (s.study_sessions.length : Int)
              total_reviews := (s.word_review_items.length : Int)
              total_words := (s.words.length : Int)
              words_studied := wordsStudied s
              average_mastery := overallMastery s }

/-! ## Route table (`main.go`) -/

/-- The handler functions that `internal/api` exports. -/
inductive HandlerFunc where
  | GetLastStudySession
  | GetStudyProgress
  | GetQuickStats
  | GetStudyActivity
  | GetStudyActivitySessions
  | CreateStudyActivity
  | GetWords
  | GetWord
  | GetGroups
  | GetGroup
  | GetGroupWords
  | GetGroupStudySessions
  | CreateGroup
  | GetStudySessions
  | GetStudySession
  | GetStudySessionWords
  | CreateStudySession
  | CreateWordReview
  | ResetHistory
  | FullReset
deriving DecidableEq, Repr

/-- One registration `r.GET(path, handler)` or `r.POST(path, handler)`. -/
structure Route where
  method : String
  path : String
  handler : HandlerFunc
deriving DecidableEq, Repr

/-- The registrations of `setupRoutes` in `main.go`, in source order. -/
def setupRoutes : List Route :=
  [⟨"GET", "/api/dashboard/last_study_session", .GetLastStudySession⟩,
   ⟨"GET", "/api/dashboard/study_progress", .GetStudyProgress⟩,
   ⟨"GET", "/api/dashboard/quick_stats", .GetQuickStats⟩,
   ⟨"GET", "/api/study_activities/:id", .GetStudyActivity⟩,
   ⟨"GET", "/api/study_activities/:id/study_sessions", .GetStudyActivitySessions⟩,
   ⟨"POST", "/api/study_activities", .CreateStudyActivity⟩,
   ⟨"GET", "/api/words", .GetWords⟩,
   ⟨"GET", "/api/words/:id", .GetWord⟩,
   ⟨"GET", "/api/groups", .GetGroups⟩,
   ⟨"GET", "/api/groups/:id", .GetGroup⟩,
   ⟨"GET", "/api/groups/:id/words", .GetGroupWords⟩,
   ⟨"GET", "/api/groups/:id/study_sessions", .GetGroupStudySessions⟩,
   ⟨"GET", "/api/study_sessions", .GetStudySessions⟩,
   ⟨"GET", "/api/study_sessions/:id", .GetStudySession⟩,
   ⟨"GET", "/api/study_sessions/:id/words", .GetStudySessionWords⟩,
   ⟨"POST", "/api/study_sessions/:id/words/:word_id/review", .CreateWordReview⟩,
   ⟨"POST", "/api/reset_history", .ResetHistory⟩,
   ⟨"POST", "/api/full_reset", .FullReset⟩]

/-! ## The test fixture -/

/-- The text `testutil.seedTestData` writes as `created_at` of its two sessions. -/
def seedSessionText : String := "2025-02-14T21:49:02-08:00"

/-- The instant of the seed's sessions (written 100) as a request value: the driver writes
it with a blank between date and time. -/
def goTime100 : GoTime := ⟨100, "2025-02-14 21:49:02-08:00"⟩

/-- The instant 100 nanoseconds after the seed's sessions, as a request value. -/
def goTime200 : GoTime := ⟨200, "2025-02-14 21:49:02.0000001-08:00"⟩

/-- The instant one hour after the seed's sessions, `2025-02-14T22:49:02-08:00`, as a
request value. -/
def hourLater : GoTime := ⟨100 + 60 * Minute, "2025-02-14 22:49:02-08:00"⟩

/-- The request value `2025-02-15T06:00:00Z`, 10 minutes 58 seconds after the seed's
sessions. -/
def zuluSix : GoTime := ⟨100 + 658 * 1000000000, "2025-02-15 06:00:00+00:00"⟩

/-- The request value `2025-02-14T23:00:00-08:00`, which is `2025-02-15T07:00:00Z`, one hour
after `zuluSix`. -/
def pacificEleven : GoTime := ⟨100 + 4258 * 1000000000, "2025-02-14 23:00:00-08:00"⟩

/-- The rows that `testutil.seedTestData` inserts into a fresh database; the defaulted
timestamps are written 0 and the common start time of the two sessions 100.  Inserting a
row with an explicit id also records that id in `sqlite_sequence`. -/
def seedStore : Store where
  words := [⟨1, "hello", "hola", "beginner", 0, 0⟩, ⟨2, "goodbye", "adios", "beginner", 0, 0⟩,
    ⟨3, "thank you", "gracias", "beginner", 0, 0⟩]
  groups := [⟨1, "Test Group 1", 0, 0⟩, ⟨2, "Test Group 2", 0, 0⟩]
  word_groups := [⟨1, 1⟩, ⟨2, 1⟩]
  study_activities := [⟨1, "Flashcards", "Practice with flashcards", 0, 0⟩,
    ⟨2, "Quiz", "Test your knowledge", 0, 0⟩]
  study_activity_groups := [⟨1, 1⟩, ⟨1, 2⟩, ⟨2, 1⟩, ⟨2, 2⟩]
  study_sessions := [⟨1, 1, 1, 100, seedSessionText⟩, ⟨2, 2, 2, 100, seedSessionText⟩]
  word_review_items := [⟨1, 1, 1, 1, 3 / 2, 0⟩, ⟨2, 2, 1, 0, 2, 0⟩, ⟨3, 3, 1, 1, 1, 0⟩]
  sqlite_sequence := [("word_review_items", 3), ("study_sessions", 2),
    ("study_activities", 2), ("words", 3), ("groups", 2)]

/-- The store that the handlers reach from the test fixture by `FullReset` followed by one
`CreateStudySession` for activity 1: the full reset leaves the four link rows of
`study_activity_groups` in place, so the session is created. -/
def staleStore : Store where
  words := []
  groups := []
  word_groups := []
  study_activities := []
  study_activity_groups := [⟨1, 1⟩, ⟨1, 2⟩, ⟨2, 1⟩, ⟨2, 2⟩]
  study_sessions := [⟨1, 1, 1, 100, "2025-02-14 21:49:02-08:00"⟩]
  word_review_items := []
  sqlite_sequence := [("study_sessions", 1)]

/-- The store that the handlers reach from the test fixture by `ResetHistory`, one
`CreateStudySession` for activity 1 at `goTime200` and one correct `CreateWordReview` of word 1
in that session: group 1 links word 1, reviewed once, and word 2, never reviewed. -/
def dilutedStore : Store where
  words := [⟨1, "hello", "hola", "beginner", 0, 0⟩, ⟨2, "goodbye", "adios", "beginner", 0, 0⟩,
    ⟨3, "thank you", "gracias", "beginner", 0, 0⟩]
  groups := [⟨1, "Test Group 1", 0, 0⟩, ⟨2, "Test Group 2", 0, 0⟩]
  word_groups := [⟨1, 1⟩, ⟨2, 1⟩]
  study_activities := [⟨1, "Flashcards", "Practice with flashcards", 0, 0⟩,
    ⟨2, "Quiz", "Test your knowledge", 0, 0⟩]
  study_activity_groups := [⟨1, 1⟩, ⟨1, 2⟩, ⟨2, 1⟩, ⟨2, 2⟩]
  study_sessions := [⟨3, 1, 1, 200, "2025-02-14 21:49:02.0000001-08:00"⟩]
  word_review_items := [⟨4, 1, 1, 1, 2, 7⟩]
  sqlite_sequence := [("word_review_items", 4), ("study_sessions", 3),
    ("study_activities", 2), ("words", 3), ("groups", 2)]

/-- The test fixture with thirty further sessions of activity 1 and group 1, more than the
default page of the session list. -/
def pagedStore : Store :=
  { seedStore with
    study_sessions := seedStore.study_sessions
      ++ (List.range 30).map fun i =>
        ⟨(i : Int) + 3, 1, 1, 200, "2025-02-14 21:49:02.0000001-08:00"⟩ }

/-! ## Spec-side statements -/

/-- Spec side of the score claim (spec 3 and 4.1, `sessionScore`), to be compared with what
`scanSession` and `setScore` compute: the session object `x` belongs to a stored session
`ss`, its counts range over all review rows of that session's study activity, and its score
is 0 without reviews and `floor (correct_count * 100 / review_items_count)` otherwise. -/
def SessionScoreSpec (s : Store) (x : StudySessionWithStats) : Prop :=
  ∃ ss ∈ s.study_sessions, ss.id = x.id ∧
    x.review_items_count = ((s.word_review_items.filter fun r =>
      r.study_activity_id == ss.study_activity_id).length : Int) ∧
    x.correct_count = ((s.word_review_items.filter fun r =>
      r.study_activity_id == ss.study_activity_id && r.correct == 1).length : Int) ∧
    x.score = if x.review_items_count = 0 then 0
      else Int.floor (((x.correct_count * 100 : Int) : ℚ) / ((x.review_items_count : Int) : ℚ))

/-- Spec side of the group counts: the words of a group (word rows with a link row to the
group) that have at least one review row whose flag equals `v` (1: a correct review, 0: an
incorrect review). -/
def wordsOfGroupReviewed (s : Store) (groupID : Int) (v : Int) : List Word :=
  s.words.filter fun w =>
    (s.word_groups.any fun l => l.group_id == groupID && l.word_id == w.id) &&
      s.word_review_items.any fun r => r.word_id == w.id && r.correct == v

/-- The review rows that the group average reads through one link row: the review rows of
the linked word, and none when no word row has the linked id. -/
def reviewsOfLink (s : Store) (l : WordGroup) : List WordReviewItem :=
  if s.words.any fun w => w.id == l.word_id then reviewsOfWord s l.word_id else []

/-- Spec side of the group counts (spec 4.1, `groupStatistics`), to be compared with what
`groupStatsOfGroup` computes over the joined rows: `total_word_count` is the number of
distinct word ids linked to the group, `mastered_words` the number of distinct words of
the group with at least one correct review and `in_progress_words` the number of distinct
words of the group with at least one incorrect review. -/
def GroupCountsSpec (s : Store) (groupID : Int) (st : GroupStatistics) : Prop :=
  st.total_word_count
    = ((((s.word_groups.filter fun l => l.group_id == groupID).map
        fun l => l.word_id).dedup.length : Nat) : Int) ∧
  st.mastered_words
    = ((((wordsOfGroupReviewed s groupID 1).map fun w => w.id).dedup.length : Nat) : Int) ∧
  st.in_progress_words
    = ((((wordsOfGroupReviewed s groupID 0).map fun w => w.id).dedup.length : Nat) : Int)

/-- The link rows of a group. -/
def linksOfGroup (s : Store) (groupID : Int) : List WordGroup :=
  s.word_groups.filter fun l => l.group_id == groupID

/-- The group average in closed form: over the link rows of the group, the number of review
rows with a set flag read through the links, divided by the number of review rows read
through the links plus the number of links that read no review row; 0 for a group without
link rows. -/
def GroupAverageSpec (s : Store) (groupID : Int) : ℚ :=
  if (linksOfGroup s groupID).isEmpty then 0
  else
    ((((linksOfGroup s groupID).map fun l =>
        ((reviewsOfLink s l).filter fun r => r.correct != 0).length).sum : Nat) : ℚ)
      / (((((linksOfGroup s groupID).map fun l => (reviewsOfLink s l).length).sum : Nat) : ℚ)
        + ((((linksOfGroup s groupID).filter fun l =>
            (reviewsOfLink s l).isEmpty).length : Nat) : ℚ))

/-- Spec side of the route claim (spec 5, interface): the endpoints the interface lists,
under the `/api` prefix, each with the handler that serves it. -/
def interfaceRoutes : List Route :=
  [⟨"GET", "/api/dashboard/last_study_session", .GetLastStudySession⟩,
   ⟨"GET", "/api/dashboard/study_progress", .GetStudyProgress⟩,
   ⟨"GET", "/api/dashboard/quick_stats", .GetQuickStats⟩,
   ⟨"GET", "/api/words", .GetWords⟩,
   ⟨"GET", "/api/words/:id", .GetWord⟩,
   ⟨"GET", "/api/groups", .GetGroups⟩,
   ⟨"GET", "/api/groups/:id", .GetGroup⟩,
   ⟨"GET", "/api/groups/:id/words", .GetGroupWords⟩,
   ⟨"GET", "/api/groups/:id/study_sessions", .GetGroupStudySessions⟩,
   ⟨"POST", "/api/groups", .CreateGroup⟩,
   ⟨"GET", "/api/study_activities/:id", .GetStudyActivity⟩,
   ⟨"GET", "/api/study_activities/:id/study_sessions", .GetStudyActivitySessions⟩,
   ⟨"POST", "/api/study_activities", .CreateStudyActivity⟩,
   ⟨"GET", "/api/study_sessions", .GetStudySessions⟩,
   ⟨"GET", "/api/study_sessions/:id", .GetStudySession⟩,
   ⟨"GET", "/api/study_sessions/:id/words", .GetStudySessionWords⟩,
   ⟨"POST", "/api/study_sessions", .CreateStudySession⟩,
   ⟨"POST", "/api/study_sessions/:id/words/:word_id/reviews", .CreateWordReview⟩,
   ⟨"POST", "/api/reset_history", .ResetHistory⟩,
   ⟨"POST", "/api/full_reset", .FullReset⟩]

/-- Spec side of the identifier claim: a base-10 integer is an optional sign followed by
one or more decimal digits. -/
def isBase10Integer (str : String) : Bool :=
  let ds := match str.toList with
    | '-' :: r => r
    | '+' :: r => r
    | r => r
  !ds.isEmpty && ds.all Char.isDigit

/-- Spec side of the session claims: `x` is a session object answered by one of the five
session reads on the store `s`, for some request and some environment. -/
def SessionRead (s : Store) (x : StudySessionWithStats) : Prop :=
  (∃ env idParam st, GetStudySession s env idParam = .ok st x) ∨
  (∃ env limitStr offsetStr st xs,
    GetStudySessions s env limitStr offsetStr = .ok st xs ∧ x ∈ xs) ∨
  (∃ env st, GetLastStudySession s env = .ok st x) ∨
  (∃ env idParam st xs, GetGroupStudySessions s env idParam = .ok st xs ∧ x ∈ xs) ∨
  (∃ env idParam st xs, GetStudyActivitySessions s env idParam = .ok st xs ∧ x ∈ xs)

/-- Spec side of the group invariants: the words of a group (word rows with a link row to
the group) that have at least one review row. -/
def reviewedWordsOfGroup (s : Store) (groupID : Int) : List Word :=
  s.words.filter fun w =>
    (s.word_groups.any fun l => l.group_id == groupID && l.word_id == w.id) &&
      s.word_review_items.any fun r => r.word_id == w.id

/-! ## Lemmas on the query operators -/

theorem leftJoin_filter_fst {α β : Type} (xs : List α) (ys : List β) (cond : α → β → Bool)
    (f : α → Bool) :
    (leftJoin xs ys cond).filter (fun p => f p.1) = leftJoin (xs.filter f) ys cond := by
  induction xs with
  | nil => rfl
  | cons x xs ih =>
    have hx : (leftJoin [x] ys cond).filter (fun p => f p.1)
        = if f x then leftJoin [x] ys cond else [] := by
      unfold leftJoin
      cases hm : ys.filter (cond x) with
      | nil => by_cases hf : f x <;> simp [hm, hf]
      | cons m ms =>
        by_cases hf : f x
        · simp [hm, hf, List.filter_eq_self]
        · simp [hm, hf, List.filter_eq_nil_iff]
    have hsplit : ∀ zs : List α, leftJoin (x :: zs) ys cond
        = leftJoin [x] ys cond ++ leftJoin zs ys cond := by
      intro zs
      unfold leftJoin
      rw [List.flatMap_cons, List.flatMap_cons, List.flatMap_nil, List.append_nil]
    rw [hsplit, List.filter_append, hx, ih]
    by_cases hf : f x
    · rw [if_pos hf, List.filter_cons, if_pos hf]
      exact (hsplit _).symm
    · rw [if_neg hf, List.filter_cons, if_neg hf, List.nil_append]

theorem filter_id_eq_singleton {α : Type} (key : α → Int) (xs : List α) (w : α)
    (hpk : (xs.map key).Nodup) (hw : w ∈ xs) :
    xs.filter (fun x => key x == key w) = [w] := by
  induction xs with
  | nil => cases hw
  | cons x xs ih =>
    simp only [List.map_cons, List.nodup_cons] at hpk
    rcases List.mem_cons.mp hw with rfl | hmem
    · have hnone : xs.filter (fun x => key x == key w) = [] := by
        rw [List.filter_eq_nil_iff]
        intro y hy hk
        apply hpk.1
        have : key y = key w := by simpa using hk
        rw [← this]
        exact List.mem_map_of_mem key hy
      simp [List.filter_cons, hnone]
    · have hne : key x ≠ key w := by
        intro h
        apply hpk.1
        rw [h]
        exact List.mem_map_of_mem key hmem
      simp [List.filter_cons, hne, ih hpk.2 hmem]

theorem sum_indicator (p : WordReviewItem → Bool) (R : List WordReviewItem) :
    (R.map fun r => if p r then (1 : ℚ) else 0).sum = ((R.filter p).length : ℚ) := by
  induction R with
  | nil => simp
  | cons r R ih =>
    by_cases h : p r
    · simp [List.filter_cons, h, ih]; ring
    · simp [List.filter_cons, h, ih]

theorem AVG_caseCorrect (R : List WordReviewItem) (hR : R ≠ []) :
    AVG (R.map fun r => caseCorrect (some r))
      = some (((R.filter fun r => r.correct != 0).length : ℚ) / (R.length : ℚ)) := by
  have hvals : (R.map fun r => caseCorrect (some r)).filterMap id
      = R.map fun r => if (r.correct != 0) then (1 : ℚ) else 0 := by
    induction R with
    | nil => rfl
    | cons r R ih =>
      cases R with
      | nil => by_cases h : r.correct = 0 <;> simp [caseCorrect, h]
      | cons r2 R2 =>
        have := ih (by simp)
        by_cases h : r.correct = 0 <;> simp [caseCorrect, h] at this ⊢ <;> exact this
  have hne : (R.map fun r => if (r.correct != 0) then (1 : ℚ) else 0).isEmpty = false := by
    cases R with
    | nil => exact absurd rfl hR
    | cons r R => rfl
  simp only [AVG, hvals, hne, Bool.false_eq_true, if_false, sum_indicator, List.length_map]

theorem wordReviewRows_of_mem (s : Store) (w : Word)
    (hpk : (s.words.map fun x => x.id).Nodup) (hw : w ∈ s.words) :
    wordReviewRows s w.id =
      match reviewsOfWord s w.id with
      | [] => [(w, none)]
      | m :: ms => (m :: ms).map fun y => (w, some y) := by
  unfold wordReviewRows
  rw [leftJoin_filter_fst s.words s.word_review_items _ (fun x => x.id == w.id),
    filter_id_eq_singleton (fun x : Word => x.id) s.words w hpk hw]
  have hf : s.word_review_items.filter (fun wri => w.id == wri.word_id)
      = reviewsOfWord s w.id := by
    unfold reviewsOfWord
    apply List.filter_congr
    intro r _
    by_cases h : w.id = r.word_id
    · simp [h]
    · have h2 : ¬ r.word_id = w.id := fun e => h e.symm
      simp [h, h2]
  unfold leftJoin
  rw [List.flatMap_cons, List.flatMap_nil, List.append_nil, hf]
  cases reviewsOfWord s w.id <;> rfl

theorem length_eq_of_flags (R : List WordReviewItem)
    (hall : ∀ r ∈ R, r.correct = 1 ∨ r.correct = 0) :
    R.length = (R.filter fun r => r.correct == 1).length
      + (R.filter fun r => r.correct == 0).length := by
  induction R with
  | nil => rfl
  | cons r R ih =>
    have ih2 := ih (fun x hx => hall x (List.mem_cons_of_mem _ hx))
    rcases hall r (List.mem_cons_self _ _) with h | h
    · simp [List.filter_cons, h, ih2]; omega
    · simp [List.filter_cons, h, ih2]; omega

theorem filter_truthy_of_flags (R : List WordReviewItem)
    (hall : ∀ r ∈ R, r.correct = 1 ∨ r.correct = 0) :
    (R.filter fun r => r.correct != 0) = R.filter fun r => r.correct == 1 := by
  apply List.filter_congr
  intro r hr
  rcases hall r hr with h | h <;> simp [h]

theorem COUNT_caseCorrectEq (v : Int) (w : Word) (R : List WordReviewItem) :
    COUNT ((R.map fun y => (w, some y)).map fun p => caseCorrectEq v p.2)
      = ((R.filter fun r => r.correct == v).length : Int) := by
  unfold COUNT
  congr 1
  induction R with
  | nil => rfl
  | cons r R ih =>
    by_cases h : r.correct = v
    · simp [caseCorrectEq, List.filter_cons, h] at ih ⊢; exact ih
    · simp [caseCorrectEq, List.filter_cons, h] at ih ⊢; exact ih

/-- C1: on a store whose `words` ids are unique (primary key), for an existing word `w`
whose review rows are `n` rows flagged correct (1) and `m` rows flagged incorrect (0),
over all activities, `GetWord` answers 200 with `correct_count = n`, `incorrect_count = m`
and `mastery_level = n / (n + m)`, which is 0 when `n + m = 0`. -/
theorem GetWord_counts_and_mastery (s : Store) (env : Env) (idParam : String) (w : Word)
    (n m : Nat)
    (hdb : env.fails 0 = false)
    (hpk : (s.words.map fun x => x.id).Nodup)
    (hw : w ∈ s.words)
    (hid : Atoi idParam = some w.id)
    (hall : ∀ r ∈ reviewsOfWord s w.id, r.correct = 1 ∨ r.correct = 0)
    (hn : ((reviewsOfWord s w.id).filter fun r => r.correct == 1).length = n)
    (hm : ((reviewsOfWord s w.id).filter fun r => r.correct == 0).length = m) :
    GetWord s env idParam = .ok 200
      { word := w, correct_count := n, incorrect_count := m
        mastery_level := if n + m = 0 then 0 else (n : ℚ) / ((n : ℚ) + (m : ℚ)) } := by
  unfold GetWord
  rw [hid]
  simp only [hdb, Bool.false_eq_true, if_false]
  rw [wordReviewRows_of_mem s w hpk hw]
  have hlen := length_eq_of_flags _ hall
  have htruthy := filter_truthy_of_flags _ hall
  rw [hn, hm] at hlen
  cases hR : reviewsOfWord s w.id with
  | nil =>
    rw [hR] at hn hm
    simp at hn hm
    subst hn hm
    simp [wordStatsOfGroup, COUNT, caseCorrectEq, caseCorrect, AVG, COALESCE]
  | cons r R =>
    rw [hR] at hlen hn hm htruthy
    have hne : n + m ≠ 0 := by
      intro h0
      rw [h0] at hlen
      simp at hlen
    have hc1 := COUNT_caseCorrectEq 1 w (r :: R)
    have hc0 := COUNT_caseCorrectEq 0 w (r :: R)
    have havg := AVG_caseCorrect (r :: R) (by simp)
    rw [htruthy, hn, hlen] at havg
    rw [hn] at hc1
    rw [hm] at hc0
    simp only [wordStatsOfGroup, List.map_cons, List.map_map] at hc1 hc0 havg ⊢
    simp only [Function.comp_def] at hc1 hc0 havg ⊢
    rw [hc1, hc0, havg]
    simp [COALESCE, hne]

theorem tdiv_eq_floor (c t : Int) (hc : 0 ≤ c) (ht : 0 < t) :
    Int.tdiv (c * 100) t = Int.floor (((c * 100 : Int) : ℚ) / ((t : Int) : ℚ)) := by
  rw [Int.tdiv_eq_ediv (by positivity) (le_of_lt ht)]
  obtain ⟨d, rfl⟩ := Int.eq_ofNat_of_zero_le (le_of_lt ht)
  have := Rat.floor_intCast_div_natCast (c * 100) d
  simpa using this.symm

theorem mem_sessionJoin (s : Store) (row : StudySession × StudyActivity × Group)
    (h : row ∈ sessionJoin s) : row.1 ∈ s.study_sessions := by
  unfold sessionJoin at h
  simp only [List.mem_flatMap, List.mem_map, List.mem_filter] at h
  obtain ⟨ss, hss, sa, _, g, _, rfl⟩ := h
  exact hss

theorem mem_orderByCreatedAtDesc (rows : List (StudySession × StudyActivity × Group))
    (row : StudySession × StudyActivity × Group) :
    row ∈ orderByCreatedAtDesc rows ↔ row ∈ rows :=
  (List.perm_insertionSort _ rows).mem_iff

theorem scoreSpec_setScore (s : Store) (row : StudySession × StudyActivity × Group)
    (h : row.1 ∈ s.study_sessions) : SessionScoreSpec s (setScore (scanSession s row)) := by
  refine ⟨row.1, h, ?_⟩
  unfold setScore
  by_cases hpos : (scanSession s row).review_items_count > 0
  · rw [if_pos hpos]
    refine ⟨rfl, rfl, rfl, ?_⟩
    have hne : (scanSession s row).review_items_count ≠ 0 := ne_of_gt hpos
    simp only [hne, if_false]
    exact tdiv_eq_floor _ _ (by simp [scanSession]) hpos
  · rw [if_neg hpos]
    refine ⟨rfl, rfl, rfl, ?_⟩
    have h0 : (scanSession s row).review_items_count = 0 := by
      have : 0 ≤ (scanSession s row).review_items_count := by simp [scanSession]
      omega
    simp only [h0, if_true]
    rfl

theorem scoreSpec_setEndTime (s : Store) (x : StudySessionWithStats)
    (h : SessionScoreSpec s x) : SessionScoreSpec s (setEndTime x) := h

/-- C2: every session object answered by `GetStudySession`, `GetStudySessions`,
`GetLastStudySession`, `GetGroupStudySessions` or `GetStudyActivitySessions` has score 0
when its `review_items_count` is 0 and `floor (correct_count * 100 / review_items_count)`
otherwise, the counts being taken over all review rows whose `study_activity_id` is that of
the stored session. -/
theorem session_reads_score (s : Store) (env : Env) (idParam limitStr offsetStr : String) :
    (∀ st x, GetStudySession s env idParam = .ok st x → SessionScoreSpec s x) ∧
    (∀ st xs, GetStudySessions s env limitStr offsetStr = .ok st xs →
      ∀ x ∈ xs, SessionScoreSpec s x) ∧
    (∀ st x, GetLastStudySession s env = .ok st x → SessionScoreSpec s x) ∧
    (∀ st xs, GetGroupStudySessions s env idParam = .ok st xs →
      ∀ x ∈ xs, SessionScoreSpec s x) ∧
    (∀ st xs, GetStudyActivitySessions s env idParam = .ok st xs →
      ∀ x ∈ xs, SessionScoreSpec s x) := by
  refine ⟨?_, ?_, ?_, ?_, ?_⟩
  · intro st x h
    unfold GetStudySession at h
    split at h
    · cases h
    · split at h
      · cases h
      · split at h
        · cases h
        · rename_i row rest hrows
          cases h
          have hmem : row ∈ (sessionJoin s).filter _ := hrows ▸ List.mem_cons_self _ _
          exact scoreSpec_setEndTime s _
            (scoreSpec_setScore s row (mem_sessionJoin s row (List.mem_filter.mp hmem).1))
  · intro st xs h x hx
    unfold GetStudySessions at h
    simp only at h
    split at h
    · cases h
    · cases h
      obtain ⟨row, hrow, rfl⟩ := List.mem_map.mp hx
      have h1 := List.mem_of_mem_drop (List.mem_of_mem_take hrow)
      exact scoreSpec_setEndTime s _ (scoreSpec_setScore s row
        (mem_sessionJoin s row ((mem_orderByCreatedAtDesc _ row).mp h1)))
  · intro st x h
    unfold GetLastStudySession at h
    split at h
    · cases h
    · split at h
      · cases h
      · rename_i row rest hrows
        cases h
        have hmem : row ∈ (orderByCreatedAtDesc (sessionJoin s)).take 1 :=
          hrows ▸ List.mem_cons_self _ _
        exact scoreSpec_setEndTime s _ (scoreSpec_setScore s row
          (mem_sessionJoin s row ((mem_orderByCreatedAtDesc _ row).mp
            (List.mem_of_mem_take hmem))))
  · intro st xs h x hx
    unfold GetGroupStudySessions at h
    split at h
    · cases h
    · simp only at h
      split at h
      · cases h
      · cases h
        obtain ⟨row, hrow, rfl⟩ := List.mem_map.mp hx
        have h1 := (mem_orderByCreatedAtDesc _ row).mp hrow
        exact scoreSpec_setScore s row (mem_sessionJoin s row (List.mem_filter.mp h1).1)
  · intro st xs h x hx
    unfold GetStudyActivitySessions at h
    split at h
    · cases h
    · simp only at h
      split at h
      · cases h
      · cases h
        obtain ⟨row, hrow, rfl⟩ := List.mem_map.mp hx
        have h1 := (mem_orderByCreatedAtDesc _ row).mp hrow
        exact scoreSpec_setScore s row (mem_sessionJoin s row (List.mem_filter.mp h1).1)

theorem wordInGroup_iff (s : Store) (wordID groupID : Int) :
    wordInGroup s wordID groupID = true ↔
      (∃ w ∈ s.words, w.id = wordID) ∧
        ({ word_id := wordID, group_id := groupID } : WordGroup) ∈ s.word_groups := by
  unfold wordInGroup
  rw [Bool.not_eq_true', List.isEmpty_eq_false, ← List.length_pos, List.length_pos_iff_exists_mem]
  constructor
  · rintro ⟨⟨w, wg⟩, hmem⟩
    simp only [List.mem_filter, List.mem_flatMap, List.mem_map, Bool.and_eq_true, beq_iff_eq,
      Prod.mk.injEq] at hmem
    obtain ⟨⟨w2, hw2, wg2, ⟨hwg2, hjoin⟩, rfl, rfl⟩, hwid, hgid⟩ := hmem
    refine ⟨⟨w2, hw2, hwid⟩, ?_⟩
    have : wg2 = { word_id := wordID, group_id := groupID } := by
      cases wg2
      simp only at hjoin hgid
      rw [← hwid, hjoin, hgid]
    rw [← this]
    exact hwg2
  · rintro ⟨⟨w, hw, hwid⟩, hlink⟩
    refine ⟨(w, { word_id := wordID, group_id := groupID }), ?_⟩
    simp only [List.mem_filter, List.mem_flatMap, List.mem_map, Bool.and_eq_true, beq_iff_eq,
      Prod.mk.injEq]
    exact ⟨⟨w, hw, _, ⟨hlink, hwid⟩, rfl, rfl⟩, hwid, trivial⟩

theorem sessions_filter_of_mem (s : Store) (ss : StudySession)
    (hpk : (s.study_sessions.map fun x => x.id).Nodup) (hss : ss ∈ s.study_sessions) :
    (s.study_sessions.filter fun x => x.id == ss.id) = [ss] :=
  filter_id_eq_singleton (fun x : StudySession => x.id) s.study_sessions ss hpk hss

theorem float64OfRat_nonpos (x rt : ℚ) (hx : x ≤ 0) (h : float64OfRat x = some rt) :
    rt ≤ 0 := by
  unfold float64OfRat at h
  by_cases h0 : x.num = 0
  · rw [if_pos h0] at h
    cases h
    exact le_refl _
  · rw [if_neg h0] at h
    have hneg : x.num < 0 := lt_of_le_of_ne (Rat.num_nonpos.mpr hx) h0
    simp only [hneg, if_true] at h
    split at h
    · cases h
    · cases h
      rw [Rat.mkRat_eq_div]
      apply div_nonpos_of_nonpos_of_nonneg
      · push_cast
        simp
      · positivity

/-- C3 (amended statement): on a healthy connection, for an existing session `ss` (session
ids are a primary key), a word `w` that exists and is linked to the session's group, and a
body whose `response_time` decodes into the 64-bit float `rt` with `rt > 0`,
`CreateWordReview` appends exactly one review row, carrying the word id, the study activity
of the session (not the session id), the submitted flag (false when the body has none) and
the response time `rt`; it leaves the six other tables as they were; and it answers 200
with the word id, the session id, the submitted flag, `rt` and `new_mastery_level` = the
fraction of the word's review rows, after the insert, whose flag is set (non-zero). -/
theorem CreateWordReview_records (s : Store) (env : Env) (idParam wordIdParam : String)
    (ss : StudySession) (w : Word) (json : ReviewJSON) (lit rt : ℚ)
    (hdb : ∀ k, env.fails k = false)
    (hpk : (s.study_sessions.map fun x => x.id).Nodup)
    (hss : ss ∈ s.study_sessions) (hid : Atoi idParam = some ss.id)
    (hw : w ∈ s.words) (hwid : Atoi wordIdParam = some w.id)
    (hlink : ({ word_id := w.id, group_id := ss.group_id } : WordGroup) ∈ s.word_groups)
    (hjson : json.response_time = some lit) (hdec : float64OfRat lit = some rt)
    (hrt : 0 < rt) :
    ∃ row : WordReviewItem,
      row.word_id = w.id ∧ row.study_activity_id = ss.study_activity_id ∧
      row.correct = (if json.correct.getD false then 1 else 0) ∧ row.response_time = rt ∧
      (CreateWordReview s env idParam wordIdParam (some json)).2.word_review_items
        = s.word_review_items ++ [row] ∧
      (CreateWordReview s env idParam wordIdParam (some json)).2.words = s.words ∧
      (CreateWordReview s env idParam wordIdParam (some json)).2.groups = s.groups ∧
      (CreateWordReview s env idParam wordIdParam (some json)).2.word_groups = s.word_groups ∧
      (CreateWordReview s env idParam wordIdParam (some json)).2.study_activities
        = s.study_activities ∧
      (CreateWordReview s env idParam wordIdParam (some json)).2.study_activity_groups
        = s.study_activity_groups ∧
      (CreateWordReview s env idParam wordIdParam (some json)).2.study_sessions
        = s.study_sessions ∧
      (CreateWordReview s env idParam wordIdParam (some json)).1 = .ok 200
        { word_id := w.id, session_id := ss.id, correct := json.correct.getD false
          response_time := rt
          new_mastery_level :=
            (((reviewsOfWord (CreateWordReview s env idParam wordIdParam (some json)).2
                w.id).filter fun x => x.correct != 0).length : ℚ)
              / ((reviewsOfWord (CreateWordReview s env idParam wordIdParam (some json)).2
                w.id).length : ℚ) } := by
  have hin : wordInGroup s w.id ss.group_id = true :=
    (wordInGroup_iff s w.id ss.group_id).mpr ⟨⟨w, hw, rfl⟩, hlink⟩
  have hnot : ¬ rt ≤ 0 := not_le.mpr hrt
  have hbind : (some json).bind bindReview
      = some { Correct := json.correct.getD false, ResponseTime := rt } := by
    simp only [Option.some_bind, bindReview, hjson, hdec]
  have hrun : CreateWordReview s env idParam wordIdParam (some json)
      = (.ok 200 { word_id := w.id, session_id := ss.id, correct := json.correct.getD false
                   response_time := rt
                   new_mastery_level := wordMastery (insertWordReview s env.now w.id
                     ss.study_activity_id (json.correct.getD false) rt) w.id },
         insertWordReview s env.now w.id ss.study_activity_id (json.correct.getD false) rt) := by
    unfold CreateWordReview
    rw [hid, hwid, hbind]
    simp only [hdb, Bool.false_eq_true, if_false, sessions_filter_of_mem s ss hpk hss, hin,
      Bool.not_true, hnot]
  rw [hrun]
  refine ⟨_, rfl, rfl, rfl, rfl, rfl, rfl, rfl, rfl, rfl, rfl, rfl, ?_⟩
  unfold wordMastery
  have hne : reviewsOfWord (insertWordReview s env.now w.id ss.study_activity_id
      (json.correct.getD false) rt) w.id ≠ [] := by
    unfold reviewsOfWord insertWordReview
    simp [List.filter_append]
  rw [AVG_caseCorrect _ hne]
  rfl

/-- C4: on a healthy connection, for an existing session `ss` (session ids are a primary
key) and a word id that is not linked to the session's group in `word_groups`, or that
matches no word, `CreateWordReview` answers 404 whatever the body is (a body that does not
parse included) and returns the store unchanged. -/
theorem CreateWordReview_word_not_in_group (s : Store) (env : Env)
    (idParam wordIdParam : String) (ss : StudySession) (wordID : Int)
    (body : Option ReviewJSON)
    (hdb0 : env.fails 0 = false) (hdb1 : env.fails 1 = false)
    (hpk : (s.study_sessions.map fun x => x.id).Nodup)
    (hss : ss ∈ s.study_sessions) (hid : Atoi idParam = some ss.id)
    (hwid : Atoi wordIdParam = some wordID)
    (hnot : ({ word_id := wordID, group_id := ss.group_id } : WordGroup) ∉ s.word_groups
      ∨ ∀ w ∈ s.words, w.id ≠ wordID) :
    CreateWordReview s env idParam wordIdParam body
      = (.error 404 "Word not found or does not belong to the group", s) := by
  have hin : wordInGroup s wordID ss.group_id = false := by
    rw [← Bool.not_eq_true, wordInGroup_iff]
    rintro ⟨⟨w, hw, hwid2⟩, hlink⟩
    rcases hnot with h | h
    · exact h hlink
    · exact h w hw hwid2
  unfold CreateWordReview
  rw [hid, hwid]
  simp only [hdb0, hdb1, Bool.false_eq_true, if_false, sessions_filter_of_mem s ss hpk hss, hin,
    Bool.not_false, if_true]

/-- C5 (amended statement): on a healthy connection, for an existing session `ss` and a
word `w` of its group, a body whose `response_time` is missing or not positive is answered
400 and the store is returned unchanged (no review row is inserted), with the message
`Response time must be positive` whenever the value decodes into a 64-bit float; and a body
whose `response_time` decodes into a 64-bit float that is positive is never answered
400. -/
theorem CreateWordReview_response_time_check (s : Store) (env : Env)
    (idParam wordIdParam : String) (ss : StudySession) (w : Word) (json : ReviewJSON)
    (hdb0 : env.fails 0 = false) (hdb1 : env.fails 1 = false)
    (hpk : (s.study_sessions.map fun x => x.id).Nodup)
    (hss : ss ∈ s.study_sessions) (hid : Atoi idParam = some ss.id)
    (hw : w ∈ s.words) (hwid : Atoi wordIdParam = some w.id)
    (hlink : ({ word_id := w.id, group_id := ss.group_id } : WordGroup) ∈ s.word_groups) :
    ((json.response_time = none ∨ ∃ lit, json.response_time = some lit ∧ lit ≤ 0) →
      (CreateWordReview s env idParam wordIdParam (some json)).1.status = 400 ∧
      (CreateWordReview s env idParam wordIdParam (some json)).2 = s) ∧
    ((json.response_time = none ∨
        ∃ lit rt, json.response_time = some lit ∧ float64OfRat lit = some rt ∧ rt ≤ 0) →
      CreateWordReview s env idParam wordIdParam (some json)
        = (.error 400 "Response time must be positive", s)) ∧
    ((∃ lit rt, json.response_time = some lit ∧ float64OfRat lit = some rt ∧ 0 < rt) →
      (CreateWordReview s env idParam wordIdParam (some json)).1.status ≠ 400) := by
  have hin : wordInGroup s w.id ss.group_id = true :=
    (wordInGroup_iff s w.id ss.group_id).mpr ⟨⟨w, hw, rfl⟩, hlink⟩
  have hzero : ∀ rv : ReviewRequest, (some json).bind bindReview = some rv →
      rv.ResponseTime ≤ 0 →
      CreateWordReview s env idParam wordIdParam (some json)
        = (.error 400 "Response time must be positive", s) := by
    intro rv hb hle
    unfold CreateWordReview
    rw [hid, hwid, hb]
    simp only [hdb0, hdb1, Bool.false_eq_true, if_false, sessions_filter_of_mem s ss hpk hss,
      hin, Bool.not_true, hle, if_true]
  have hnone : (some json).bind bindReview = none →
      CreateWordReview s env idParam wordIdParam (some json)
        = (.error 400 "Invalid request body", s) := by
    intro hb
    unfold CreateWordReview
    rw [hid, hwid, hb]
    simp only [hdb0, hdb1, Bool.false_eq_true, if_false, sessions_filter_of_mem s ss hpk hss,
      hin, Bool.not_true]
  have hmissing : json.response_time = none →
      CreateWordReview s env idParam wordIdParam (some json)
        = (.error 400 "Response time must be positive", s) := by
    intro h
    exact hzero { Correct := json.correct.getD false, ResponseTime := 0 }
      (by simp only [Option.some_bind, bindReview, h]) (le_refl _)
  have hdecoded : ∀ lit rt, json.response_time = some lit → float64OfRat lit = some rt →
      rt ≤ 0 →
      CreateWordReview s env idParam wordIdParam (some json)
        = (.error 400 "Response time must be positive", s) := by
    intro lit rt h hdec hle
    exact hzero { Correct := json.correct.getD false, ResponseTime := rt }
      (by simp only [Option.some_bind, bindReview, h, hdec]) hle
  refine ⟨?_, ?_, ?_⟩
  · rintro (h | ⟨lit, h, hle⟩)
    · rw [hmissing h]
      exact ⟨rfl, rfl⟩
    · cases hdec : float64OfRat lit with
      | none =>
        rw [hnone (by simp only [Option.some_bind, bindReview, h, hdec])]
        exact ⟨rfl, rfl⟩
      | some rt =>
        rw [hdecoded lit rt h hdec (float64OfRat_nonpos lit rt hle hdec)]
        exact ⟨rfl, rfl⟩
  · rintro (h | ⟨lit, rt, h, hdec, hle⟩)
    · exact hmissing h
    · exact hdecoded lit rt h hdec hle
  · rintro ⟨lit, rt, h, hdec, hrt⟩
    have hnot : ¬ rt ≤ 0 := not_le.mpr hrt
    have hb : (some json).bind bindReview
        = some { Correct := json.correct.getD false, ResponseTime := rt } := by
      simp only [Option.some_bind, bindReview, h, hdec]
    unfold CreateWordReview
    rw [hid, hwid, hb]
    simp only [hdb0, hdb1, Bool.false_eq_true, if_false, sessions_filter_of_mem s ss hpk hss,
      hin, Bool.not_true, hnot]
    by_cases h2 : env.fails 2 = true
    · simp [h2, Resp.status]
    · by_cases h3 : env.fails 3 = true
      · simp [h2, h3, Resp.status]
      · simp [h2, h3, Resp.status]

/-- C6: for a session id that is a well-formed integer matching no `study_sessions` row,
`CreateWordReview` answers 404 "Study session not found" for every integer word id and
every body (a body that does not parse included), the session lookup being the first
database call, and returns the store unchanged. -/
theorem CreateWordReview_session_not_found (s : Store) (env : Env)
    (idParam wordIdParam : String) (sessionID wordID : Int) (body : Option ReviewJSON)
    (hdb0 : env.fails 0 = false)
    (hid : Atoi idParam = some sessionID) (hwid : Atoi wordIdParam = some wordID)
    (hnone : ∀ ss ∈ s.study_sessions, ss.id ≠ sessionID) :
    CreateWordReview s env idParam wordIdParam body
      = (.error 404 "Study session not found", s) := by
  have hfilter : (s.study_sessions.filter fun x => x.id == sessionID) = [] := by
    rw [List.filter_eq_nil_iff]
    intro x hx hbeq
    exact hnone x hx (by simpa using hbeq)
  unfold CreateWordReview
  rw [hid, hwid]
  simp only [hdb0, Bool.false_eq_true, if_false, hfilter]

theorem le_foldl_max (l : List Int) (init : Int) :
    init ≤ l.foldl max init ∧ ∀ i ∈ l, i ≤ l.foldl max init := by
  induction l generalizing init with
  | nil => exact ⟨le_refl _, fun i hi => by cases hi⟩
  | cons a l ih =>
    have h := ih (max init a)
    refine ⟨le_trans (le_max_left _ _) h.1, ?_⟩
    intro i hi
    rcases List.mem_cons.mp hi with rfl | hmem
    · exact le_trans (le_max_right _ _) h.1
    · exact h.2 i hmem

theorem lt_nextRowId (ids : List Int) (seq : Nat) : ∀ i ∈ ids, i < nextRowId ids seq := by
  intro i hi
  unfold nextRowId
  cases ids with
  | nil => cases hi
  | cons a l =>
    have h := le_foldl_max l a
    have hle : i ≤ l.foldl max a := by
      rcases List.mem_cons.mp hi with rfl | hmem
      · exact h.1
      · exact h.2 i hmem
    simp only
    have := le_max_left (List.foldl max a l + 1) ((seq : Int) + 1)
    omega

theorem nextRowId_pos (ids : List Int) (seq : Nat) : 1 ≤ nextRowId ids seq := by
  unfold nextRowId
  have h1 := le_max_right (match ids with
    | [] => (1 : Int)
    | i :: is => is.foldl max i + 1) ((seq : Int) + 1)
  have h2 : (0 : Int) ≤ (seq : Int) := Int.ofNat_nonneg seq
  simp only at h1 ⊢
  omega

theorem linkGroups_eq_some (env : Env) (activityID : Int) (gs : List Int) :
    ∀ (k : Nat) (t t2 : Store), linkGroups env activityID k gs t = some t2 →
      t2 = { t with study_activity_groups := t.study_activity_groups ++
        (gs.map fun g => { study_activity_id := activityID, group_id := g }) } := by
  induction gs with
  | nil =>
    intro k t t2 h
    simp only [linkGroups, Option.some.injEq] at h
    simp [← h]
  | cons g gs ih =>
    intro k t t2 h
    unfold linkGroups at h
    split at h
    · cases h
    · have := ih _ _ _ h
      rw [this]
      simp

/-- C7 (amended statement): for every store, every name and description and every two
group ids (whether or not such groups exist), `CreateStudyActivity` is all-or-nothing: when
one of its five database calls fails (begin, the activity insert, the two link inserts,
commit), as the link insert for a missing group does on a store that rejects it, the call
answers 500 and returns the store unchanged; when none fails, it answers 201 and the store
gains the activity row and both link rows. -/
theorem CreateStudyActivity_two_groups_all_or_nothing (s : Store) (env : Env)
    (name description : String) (g1 g2 : Int) :
    if env.fails 0 || env.fails 1 || env.fails 2 || env.fails 3 || env.fails 4 then
      (CreateStudyActivity s env (some ⟨some name, some description, some [g1, g2]⟩)).1.status
        = 500 ∧
      (CreateStudyActivity s env (some ⟨some name, some description, some [g1, g2]⟩)).2 = s
    else
      ∃ id : Int,
        (CreateStudyActivity s env (some ⟨some name, some description, some [g1, g2]⟩)).1
          = .ok 201 { id := id, name := name, description := description
                      group_ids := [g1, g2] } ∧
        (CreateStudyActivity s env
            (some ⟨some name, some description, some [g1, g2]⟩)).2.study_activities
          = s.study_activities ++ [{ id := id, name := name, description := description
                                     created_at := env.now, updated_at := env.now }] ∧
        (CreateStudyActivity s env
            (some ⟨some name, some description, some [g1, g2]⟩)).2.study_activity_groups
          = s.study_activity_groups ++ [{ study_activity_id := id, group_id := g1 },
                                        { study_activity_id := id, group_id := g2 }] := by
  unfold CreateStudyActivity
  simp only [Option.getD_some, List.length_cons, List.length_nil]
  cases h0 : env.fails 0 <;> cases h1 : env.fails 1 <;> cases h2 : env.fails 2 <;>
    cases h3 : env.fails 3 <;> cases h4 : env.fails 4 <;>
    simp [linkGroups, h0, h1, h2, h3, h4, Resp.status, insertStudyActivity]

theorem CreateStudyActivity_success (s : Store) (env : Env) (json : ActivityJSON)
    (hok : (CreateStudyActivity s env (some json)).1.status = 201) :
    CreateStudyActivity s env (some json)
      = (.ok 201 { id := (insertStudyActivity s env.now (json.name.getD "")
                     (json.description.getD "")).2
                   name := json.name.getD "", description := json.description.getD ""
                   group_ids := json.group_ids.getD [] },
         { (insertStudyActivity s env.now (json.name.getD "") (json.description.getD "")).1 with
           study_activity_groups := s.study_activity_groups ++
             ((json.group_ids.getD []).map fun g =>
               { study_activity_id := (insertStudyActivity s env.now (json.name.getD "")
                   (json.description.getD "")).2, group_id := g }) }) := by
  unfold CreateStudyActivity at hok ⊢
  simp only at hok ⊢
  split at hok
  · simp [Resp.status] at hok
  · split at hok
    · simp [Resp.status] at hok
    · rename_i h0 h1
      rw [if_neg h0, if_neg h1]
      split at hok
      · simp [Resp.status] at hok
      · rename_i t hlink
        split at hok
        · simp [Resp.status] at hok
        · rename_i h2
          rw [if_neg h2, linkGroups_eq_some env _ _ _ _ _ hlink]
          rfl

/-- C8 (amended statement): every successful `CreateStudyActivity` (`group_ids` may be
empty or missing) answers 201 with a non-zero generated id and the submitted name,
description and group ids, and the store gains exactly one activity row and one link row
per submitted group id, every other table staying as it was; and when no link row and no
session row of the store before the call already refers to the generated id, a following
`GetStudyActivity` of that id on a healthy connection answers 200 with the same name and
description, `total_sessions = 0` and the submitted group ids. -/
theorem CreateStudyActivity_then_GetStudyActivity (s : Store) (env env2 : Env)
    (json : ActivityJSON) (idParam : String) (created : CreatedActivity)
    (hok : (CreateStudyActivity s env (some json)).1 = .ok 201 created)
    (hlinks : ∀ l ∈ s.study_activity_groups, l.study_activity_id ≠ created.id)
    (hsess : ∀ x ∈ s.study_sessions, x.study_activity_id ≠ created.id)
    (hid : Atoi idParam = some created.id)
    (hdb0 : env2.fails 0 = false) (hdb1 : env2.fails 1 = false) :
    created.id ≠ 0 ∧ created.name = json.name.getD "" ∧
    created.description = json.description.getD "" ∧
    created.group_ids = json.group_ids.getD [] ∧
    (CreateStudyActivity s env (some json)).2.study_activities
      = s.study_activities ++ [{ id := created.id, name := created.name
                                 description := created.description
                                 created_at := env.now, updated_at := env.now }] ∧
    (CreateStudyActivity s env (some json)).2.study_activity_groups
      = s.study_activity_groups ++
          (created.group_ids.map fun g => { study_activity_id := created.id, group_id := g }) ∧
    (CreateStudyActivity s env (some json)).2.words = s.words ∧
    (CreateStudyActivity s env (some json)).2.groups = s.groups ∧
    (CreateStudyActivity s env (some json)).2.word_groups = s.word_groups ∧
    (CreateStudyActivity s env (some json)).2.study_sessions = s.study_sessions ∧
    (CreateStudyActivity s env (some json)).2.word_review_items = s.word_review_items ∧
    GetStudyActivity (CreateStudyActivity s env (some json)).2 env2 idParam
      = .ok 200 { id := created.id, name := created.name, description := created.description
                  created_at := env.now, updated_at := env.now, total_sessions := 0
                  group_ids := created.group_ids } := by
  have hst : (CreateStudyActivity s env (some json)).1.status = 201 := by rw [hok]; rfl
  have hrun := CreateStudyActivity_success s env json hst
  rw [hrun] at hok
  simp only [Resp.ok.injEq, true_and] at hok
  subst hok
  rw [hrun]
  simp only at hlinks hsess hid
  set newid := (insertStudyActivity s env.now (json.name.getD "")
    (json.description.getD "")).2 with hnew
  have hfresh : ∀ a ∈ s.study_activities, a.id < newid := by
    intro a ha
    exact lt_nextRowId _ _ a.id (List.mem_map_of_mem (fun r : StudyActivity => r.id) ha)
  have hpos : 1 ≤ newid := nextRowId_pos _ _
  refine ⟨by show newid ≠ 0; omega, rfl, rfl, rfl, rfl, rfl, rfl, rfl, rfl, rfl, rfl, ?_⟩
  unfold GetStudyActivity
  rw [hid]
  simp only [hdb0, hdb1, Bool.false_eq_true, if_false]
  rw [leftJoin_filter_fst _ _ _ (fun sa : StudyActivity => sa.id == newid)]
  have hacts : (insertStudyActivity s env.now (json.name.getD "")
      (json.description.getD "")).1.study_activities.filter (fun sa => sa.id == newid)
      = [{ id := newid, name := json.name.getD "", description := json.description.getD ""
           created_at := env.now, updated_at := env.now }] := by
    have hold : s.study_activities.filter (fun sa => sa.id == newid) = [] := by
      rw [List.filter_eq_nil_iff]
      intro a ha hbeq
      have := hfresh a ha
      have : a.id = newid := by simpa using hbeq
      omega
    show (s.study_activities ++ [_]).filter _ = _
    rw [List.filter_append, hold]
    simp [List.filter_cons, hnew, insertStudyActivity]
  have hnosess : (insertStudyActivity s env.now (json.name.getD "")
      (json.description.getD "")).1.study_sessions.filter
        (fun ss => newid == ss.study_activity_id) = [] := by
    show s.study_sessions.filter _ = []
    rw [List.filter_eq_nil_iff]
    intro x hx hbeq
    exact hsess x hx (by simpa using (beq_iff_eq.mp hbeq).symm)
  have hgroups : activityGroupIDs
      { (insertStudyActivity s env.now (json.name.getD "") (json.description.getD "")).1 with
        study_activity_groups := s.study_activity_groups ++
          ((json.group_ids.getD []).map fun g =>
            ({ study_activity_id := newid, group_id := g } : StudyActivityGroup)) } newid
      = json.group_ids.getD [] := by
    unfold activityGroupIDs
    have hold : s.study_activity_groups.filter (fun l => l.study_activity_id == newid) = [] := by
      rw [List.filter_eq_nil_iff]
      intro l hl hbeq
      exact hlinks l hl (by simpa using hbeq)
    simp only [List.filter_append, hold, List.nil_append]
    rw [List.filter_eq_self.mpr]
    · simp [List.map_map, Function.comp_def]
    · intro l hl
      obtain ⟨g, _, rfl⟩ := List.mem_map.mp hl
      simp
  rw [hgroups]
  show (match leftJoin (List.filter (fun sa => sa.id == newid)
      (insertStudyActivity s env.now (json.name.getD "")
        (json.description.getD "")).1.study_activities)
      (insertStudyActivity s env.now (json.name.getD "")
        (json.description.getD "")).1.study_sessions
      (fun sa ss => sa.id == ss.study_activity_id) with
    | [] => _
    | (sa, _) :: _ => _) = _
  rw [hacts]
  unfold leftJoin
  rw [List.flatMap_cons, List.flatMap_nil, List.append_nil]
  simp only [hnosess]
  simp

/-- C10: a successful `ResetHistory` (status 200) leaves `word_review_items` and
`study_sessions` empty and leaves `words`, `groups`, `word_groups`, `study_activities` and
`study_activity_groups` exactly as they were before the call. -/
theorem ResetHistory_clears_history_only (s : Store) (env : Env)
    (hok : (ResetHistory s env).1.status = 200) :
    (ResetHistory s env).2.word_review_items = [] ∧
    (ResetHistory s env).2.study_sessions = [] ∧
    (ResetHistory s env).2.words = s.words ∧
    (ResetHistory s env).2.groups = s.groups ∧
    (ResetHistory s env).2.word_groups = s.word_groups ∧
    (ResetHistory s env).2.study_activities = s.study_activities ∧
    (ResetHistory s env).2.study_activity_groups = s.study_activity_groups := by
  unfold ResetHistory at hok ⊢
  cases h0 : env.fails 0 <;> cases h1 : env.fails 1 <;> cases h2 : env.fails 2 <;>
    cases h3 : env.fails 3 <;> simp [h0, h1, h2, h3, Resp.status] at hok ⊢

/-! ## Instances on the test fixture -/

/-- Instance of C1 on the test fixture: word 1 has one correct review and no incorrect one. -/
theorem GetWord_counts_and_mastery_witness :
    GetWord seedStore (Env.healthy 0) "1"
      = .ok 200 { word := ⟨1, "hello", "hola", "beginner", 0, 0⟩
                  correct_count := 1, incorrect_count := 0, mastery_level := 1 } := by
  have h := GetWord_counts_and_mastery seedStore (Env.healthy 0) "1"
    ⟨1, "hello", "hola", "beginner", 0, 0⟩ 1 0 rfl (by decide) (by decide) (by decide)
    (by decide) (by decide) (by decide)
  simpa using h

/-- Instance of C2 on the test fixture: session 1, whose activity has three reviews, two of
them correct, is answered by `GetStudySession` with score 66. -/
theorem session_reads_score_witness :
    SessionScoreSpec seedStore
      { id := 1, group_id := 0, study_activity_id := 0, created_at := 0
        activity_name := "Flashcards", group_name := "Test Group 1", start_time := 100
        end_time := 100 + 30 * Minute, review_items_count := 3, score := 66
        correct_count := 2, incorrect_count := 1 } :=
  (session_reads_score seedStore (Env.healthy 0) "1" "" "").1 200 _ (by decide)

/-- Instance of C3 (amended) on the test fixture: a correct review of word 2 in session 1,
with the response time 2, raises its mastery level to one half. -/
theorem CreateWordReview_records_witness :
    (CreateWordReview seedStore (Env.healthy 7) "1" "2" (some ⟨some true, some 2⟩)).1
      = .ok 200 { word_id := 2, session_id := 1, correct := true, response_time := 2
                  new_mastery_level := 1 / 2 } := by
  obtain ⟨row, _, _, _, _, _, _, _, _, _, _, _, h⟩ :=
    CreateWordReview_records seedStore (Env.healthy 7) "1" "2" ⟨1, 1, 1, 100, seedSessionText⟩
      ⟨2, "goodbye", "adios", "beginner", 0, 0⟩ ⟨some true, some 2⟩ 2 2 (fun _ => rfl)
      (by decide) (by decide) (by decide) (by decide) (by decide) (by decide) rfl
      (by decide) (by norm_num)
  rw [h]
  have hlen : (reviewsOfWord (CreateWordReview seedStore (Env.healthy 7) "1" "2"
      (some ⟨some true, some 2⟩)).2 2).length = 2 := by decide
  have hcor : ((reviewsOfWord (CreateWordReview seedStore (Env.healthy 7) "1" "2"
      (some ⟨some true, some 2⟩)).2 2).filter fun x => x.correct != 0).length = 1 := by decide
  rw [hlen, hcor]
  norm_num

set_option maxRecDepth 8000 in
/-- C3 (counterexample): on the test fixture, for session 1 and word 1 of its group, the
body with `correct = true` and `response_time = 1e-400`, which is greater than 0, is
answered 400 and no row is added: the number decodes into the 64-bit float 0. -/
theorem CreateWordReview_tiny_response_time_not_recorded :
    (0 : ℚ) < mkRat 1 (10 ^ 200 * 10 ^ 200) ∧
    CreateWordReview seedStore (Env.healthy 7) "1" "1"
        (some ⟨some true, some (mkRat 1 (10 ^ 200 * 10 ^ 200))⟩)
      = (.error 400 "Response time must be positive", seedStore) :=
  ⟨by decide, rfl⟩

/-- Instance of C4 on the test fixture: word 3 is not linked to group 1, the group of
session 1. -/
theorem CreateWordReview_word_not_in_group_witness :
    CreateWordReview seedStore (Env.healthy 7) "1" "3" none
      = (.error 404 "Word not found or does not belong to the group", seedStore) :=
  CreateWordReview_word_not_in_group seedStore (Env.healthy 7) "1" "3"
    ⟨1, 1, 1, 100, seedSessionText⟩ 3 none
    rfl rfl (by decide) (by decide) (by decide) (by decide) (Or.inl (by decide))

/-- Instance of C5 (amended) on the test fixture: a body without `response_time` is
answered 400, and a body with the response time 2 is not. -/
theorem CreateWordReview_response_time_check_witness :
    CreateWordReview seedStore (Env.healthy 7) "1" "1" (some ⟨some true, none⟩)
      = (.error 400 "Response time must be positive", seedStore) ∧
    (CreateWordReview seedStore (Env.healthy 7) "1" "1" (some ⟨some true, some 2⟩)).1.status
      ≠ 400 :=
  ⟨(CreateWordReview_response_time_check seedStore (Env.healthy 7) "1" "1"
      ⟨1, 1, 1, 100, seedSessionText⟩ ⟨1, "hello", "hola", "beginner", 0, 0⟩
      ⟨some true, none⟩ rfl rfl (by decide) (by decide) (by decide) (by decide) (by decide)
      (by decide)).2.1 (Or.inl rfl),
    (CreateWordReview_response_time_check seedStore (Env.healthy 7) "1" "1"
      ⟨1, 1, 1, 100, seedSessionText⟩ ⟨1, "hello", "hola", "beginner", 0, 0⟩
      ⟨some true, some 2⟩ rfl rfl (by decide) (by decide) (by decide) (by decide) (by decide)
      (by decide)).2.2 ⟨2, 2, rfl, by decide, by norm_num⟩⟩

set_option maxRecDepth 8000 in
/-- C5 (counterexample): on the test fixture, for session 1 and word 2 of its group, the
body with `response_time = 1e-324` has a response time greater than 0 and is rejected by
the check of the response time: the number lies below half the smallest positive 64-bit
float and decodes into 0. -/
theorem CreateWordReview_positive_response_time_rejected :
    (0 : ℚ) < mkRat 1 (10 ^ 200 * 10 ^ 124) ∧
    float64OfRat (mkRat 1 (10 ^ 200 * 10 ^ 124)) = some 0 ∧
    CreateWordReview seedStore (Env.healthy 7) "1" "2"
        (some ⟨some false, some (mkRat 1 (10 ^ 200 * 10 ^ 124))⟩)
      = (.error 400 "Response time must be positive", seedStore) :=
  ⟨by decide, by decide, rfl⟩

/-- Instance of C6 on the test fixture: there is no session 999. -/
theorem CreateWordReview_session_not_found_witness :
    CreateWordReview seedStore (Env.healthy 7) "999" "1" (some ⟨some false, some (5 / 2)⟩)
      = (.error 404 "Study session not found", seedStore) :=
  CreateWordReview_session_not_found seedStore (Env.healthy 7) "999" "1" 999 1 _ rfl
    (by decide) (by decide) (by decide)

/-- Counterexample to C7 as stated: in the test fixture group 1 exists and group 999 does
not, and on a healthy connection `CreateStudyActivity` with `group_ids = [1, 999]` answers
201 and the store afterwards holds the new activity row and both of its link rows. -/
theorem CreateStudyActivity_missing_group_is_created :
    (∃ g ∈ seedStore.groups, g.id = 1) ∧ (∀ g ∈ seedStore.groups, g.id ≠ 999) ∧
    (CreateStudyActivity seedStore (Env.healthy 7)
        (some ⟨some "New Activity", some "Test description", some [1, 999]⟩)).1
      = .ok 201 { id := 3, name := "New Activity", description := "Test description"
                  group_ids := [1, 999] } ∧
    (CreateStudyActivity seedStore (Env.healthy 7)
        (some ⟨some "New Activity", some "Test description",
          some [1, 999]⟩)).2.study_activities
      = seedStore.study_activities ++ [⟨3, "New Activity", "Test description", 7, 7⟩] ∧
    (CreateStudyActivity seedStore (Env.healthy 7)
        (some ⟨some "New Activity", some "Test description",
          some [1, 999]⟩)).2.study_activity_groups
      = seedStore.study_activity_groups ++ [⟨3, 1⟩, ⟨3, 999⟩] := by
  decide

/-- Instance of the amended C7 on the test fixture: when the insert of the link row for the
missing group 999 (database call 3) fails, the answer is 500 and the store is unchanged. -/
theorem CreateStudyActivity_two_groups_all_or_nothing_witness :
    (CreateStudyActivity seedStore ⟨fun k => k == 3, 7⟩
        (some ⟨some "New Activity", some "Test description", some [1, 999]⟩)).1.status = 500 ∧
    (CreateStudyActivity seedStore ⟨fun k => k == 3, 7⟩
        (some ⟨some "New Activity", some "Test description", some [1, 999]⟩)).2 = seedStore := by
  simpa using CreateStudyActivity_two_groups_all_or_nothing seedStore ⟨fun k => k == 3, 7⟩
    "New Activity" "Test description" 1 999

/-- The store reached from the test fixture by a full reset followed by one
`CreateStudySession` for activity 1. -/
theorem staleStore_reached :
    (CreateStudySession (FullReset seedStore (Env.healthy 7)).2 (Env.healthy 7)
      (some ⟨some 1, some goTime100⟩)).2 = staleStore := by
  decide

/-- Counterexample to C8 as stated: on the store reached from the test fixture by a full
reset and one session creation, a successful `CreateStudyActivity` without group ids gets
the id 1, to which the left-over link rows and the session row still refer, and the
following `GetStudyActivity` of id 1 answers `total_sessions = 1` and `group_ids = [1, 2]`
instead of 0 and the submitted empty list. -/
theorem CreateStudyActivity_then_get_sees_stale_rows :
    (CreateStudyActivity staleStore (Env.healthy 7)
        (some ⟨some "New Activity", some "Test description", none⟩)).1
      = .ok 201 { id := 1, name := "New Activity", description := "Test description"
                  group_ids := [] } ∧
    GetStudyActivity (CreateStudyActivity staleStore (Env.healthy 7)
        (some ⟨some "New Activity", some "Test description", none⟩)).2 (Env.healthy 8) "1"
      = .ok 200 { id := 1, name := "New Activity", description := "Test description"
                  created_at := 7, updated_at := 7, total_sessions := 1
                  group_ids := [1, 2] } := by
  decide

/-- Instance of C8 on the test fixture: creating an activity linked to group 1 yields id 3,
and reading it back gives no session and the group id 1. -/
theorem CreateStudyActivity_then_GetStudyActivity_witness :
    GetStudyActivity (CreateStudyActivity seedStore (Env.healthy 7)
        (some ⟨some "Spanish Basics", some "Learn basic Spanish words", some [1]⟩)).2
        (Env.healthy 8) "3"
      = .ok 200 { id := 3, name := "Spanish Basics"
                  description := "Learn basic Spanish words"
                  created_at := 7, updated_at := 7, total_sessions := 0
                  group_ids := [1] } :=
  (CreateStudyActivity_then_GetStudyActivity seedStore (Env.healthy 7) (Env.healthy 8)
    ⟨some "Spanish Basics", some "Learn basic Spanish words", some [1]⟩ "3"
    ⟨3, "Spanish Basics", "Learn basic Spanish words", [1]⟩ (by decide) (by decide)
    (by decide) (by decide) rfl rfl).2.2.2.2.2.2.2.2.2.2.2

/-- Instance of C10 on the test fixture. -/
theorem ResetHistory_clears_history_only_witness :
    (ResetHistory seedStore (Env.healthy 7)).2.word_review_items = [] ∧
    (ResetHistory seedStore (Env.healthy 7)).2.study_sessions = [] ∧
    (ResetHistory seedStore (Env.healthy 7)).2.words = seedStore.words ∧
    (ResetHistory seedStore (Env.healthy 7)).2.groups = seedStore.groups ∧
    (ResetHistory seedStore (Env.healthy 7)).2.word_groups = seedStore.word_groups ∧
    (ResetHistory seedStore (Env.healthy 7)).2.study_activities
      = seedStore.study_activities ∧
    (ResetHistory seedStore (Env.healthy 7)).2.study_activity_groups
      = seedStore.study_activity_groups :=
  ResetHistory_clears_history_only seedStore (Env.healthy 7) (by decide)

/-! ## Dashboard and reset contracts -/

theorem dedup_length_eq_of_mem_iff {l1 l2 : List Int} (h : ∀ x, x ∈ l1 ↔ x ∈ l2) :
    l1.dedup.length = l2.dedup.length := by
  rw [← List.card_toFinset, ← List.card_toFinset]
  congr 1
  ext x
  simp [h x]

theorem ResetHistory_cases (s : Store) (env : Env) :
    ((∃ k, k ≤ 3 ∧ env.fails k = true) ∧ (ResetHistory s env).1.status = 500 ∧
      (ResetHistory s env).2 = s) ∨
    ((∀ k, k ≤ 3 → env.fails k = false) ∧ (ResetHistory s env).1.status = 200 ∧
      (ResetHistory s env).2 = { s with word_review_items := [], study_sessions := [] }) := by
  unfold ResetHistory
  cases h0 : env.fails 0
  · cases h1 : env.fails 1
    · cases h2 : env.fails 2
      · cases h3 : env.fails 3
        · right
          refine ⟨?_, by simp [Resp.status], by simp⟩
          intro k hk
          interval_cases k <;> assumption
        · left
          exact ⟨⟨3, le_refl _, h3⟩, by simp [Resp.status], by simp⟩
      · left
        exact ⟨⟨2, by omega, h2⟩, by simp [Resp.status], by simp⟩
    · left
      exact ⟨⟨1, by omega, h1⟩, by simp [Resp.status], by simp⟩
  · left
    exact ⟨⟨0, by omega, h0⟩, by simp [Resp.status], by simp⟩

theorem ResetHistory_success_store (s : Store) (env : Env)
    (hok : (ResetHistory s env).1.status = 200) :
    (ResetHistory s env).2 = { s with word_review_items := [], study_sessions := [] } := by
  rcases ResetHistory_cases s env with ⟨_, h500, _⟩ | ⟨_, _, h⟩
  · rw [h500] at hok
    exact absurd hok (by decide)
  · exact h

/-- C11: when `ResetHistory` succeeds (status 200) and the statistics queries go through,
`GetQuickStats` on the store it leaves answers `total_sessions = 0`, `total_reviews = 0`,
`words_studied = 0` and `average_mastery = 0`, with the `total_words` that `GetQuickStats`
answered before the reset. -/
theorem GetQuickStats_after_ResetHistory (s : Store) (env env1 env2 : Env)
    (hok : (ResetHistory s env).1.status = 200)
    (hdb1 : env1.fails 0 = false) (hdb2 : env2.fails 0 = false) :
    ∃ before after : QuickStats,
      GetQuickStats s env1 = .ok 200 before ∧
      GetQuickStats (ResetHistory s env).2 env2 = .ok 200 after ∧
      after.total_sessions = 0 ∧ after.total_reviews = 0 ∧ after.words_studied = 0 ∧
      after.average_mastery = 0 ∧ after.total_words = before.total_words := by
  have hframe := ResetHistory_success_store s env hok
  have h1 : GetQuickStats s env1 = .ok 200
      { total_sessions := (s.study_sessions.length : Int)
        total_reviews := (s.word_review_items.length : Int)
        total_words := (s.words.length : Int)
        words_studied := wordsStudied s
        average_mastery := overallMastery s } := by
    simp only [GetQuickStats, hdb1, Bool.false_eq_true, if_false]
  have h2 : GetQuickStats (ResetHistory s env).2 env2 = .ok 200
      { total_sessions := 0, total_reviews := 0, total_words := (s.words.length : Int)
        words_studied := 0, average_mastery := 0 } := by
    rw [hframe]
    simp [GetQuickStats, hdb2, wordsStudied, overallMastery, COUNT_DISTINCT, AVG, COALESCE]
  exact ⟨_, _, h1, h2, rfl, rfl, rfl, rfl, rfl⟩

theorem deleteTables_cases (env : Env) (ts : List String) :
    ∀ (k : Nat) (t : Store),
      ((∃ i, i < ts.length ∧ env.fails (k + i) = true) ∧
        ∃ tb, deleteTables env k ts t = .error tb) ∨
      ((∀ i, i < ts.length → env.fails (k + i) = false) ∧
        deleteTables env k ts t = .ok (ts.foldl deleteFrom t)) := by
  induction ts with
  | nil =>
    intro k t
    right
    exact ⟨fun i hi => absurd hi (by simp), rfl⟩
  | cons tb ts ih =>
    intro k t
    unfold deleteTables
    cases h0 : env.fails k
    · rcases ih (k + 1) (deleteFrom t tb) with ⟨⟨i, hi, hf⟩, e, he⟩ | ⟨hall, hok⟩
      · left
        refine ⟨⟨i + 1, by simp; omega, ?_⟩, e, by simpa using he⟩
        rw [show k + (i + 1) = k + 1 + i by omega]
        exact hf
      · right
        refine ⟨?_, by simpa using hok⟩
        intro i hi
        cases i with
        | zero => simpa using h0
        | succ j =>
          rw [show k + (j + 1) = k + 1 + j by omega]
          exact hall j (by simp at hi; omega)
    · left
      exact ⟨⟨0, by simp, by simpa using h0⟩, tb, by simp⟩

theorem resetSequences_cases (env : Env) (ts : List String) :
    ∀ (k : Nat) (t : Store),
      ((∃ i, i < ts.length ∧ env.fails (k + i) = true) ∧
        ∃ tb, resetSequences env k ts t = .error tb) ∨
      ((∀ i, i < ts.length → env.fails (k + i) = false) ∧
        resetSequences env k ts t = .ok (ts.foldl (fun u tb =>
          { u with sqlite_sequence := u.sqlite_sequence.filter fun p => p.1 != tb }) t)) := by
  induction ts with
  | nil =>
    intro k t
    right
    exact ⟨fun i hi => absurd hi (by simp), rfl⟩
  | cons tb ts ih =>
    intro k t
    unfold resetSequences
    cases h0 : env.fails k
    · rcases ih (k + 1)
        { t with sqlite_sequence := t.sqlite_sequence.filter fun p => p.1 != tb } with
        ⟨⟨i, hi, hf⟩, e, he⟩ | ⟨hall, hok⟩
      · left
        refine ⟨⟨i + 1, by simp; omega, ?_⟩, e, by simpa using he⟩
        rw [show k + (i + 1) = k + 1 + i by omega]
        exact hf
      · right
        refine ⟨?_, by simpa using hok⟩
        intro i hi
        cases i with
        | zero => simpa using h0
        | succ j =>
          rw [show k + (j + 1) = k + 1 + j by omega]
          exact hall j (by simp at hi; omega)
    · left
      exact ⟨⟨0, by simp, by simpa using h0⟩, tb, by simp⟩

theorem FullReset_cases (s : Store) (env : Env) :
    ((∃ k, k ≤ 13 ∧ env.fails k = true) ∧ (FullReset s env).1.status = 500 ∧
      (FullReset s env).2 = s) ∨
    ((∀ k, k ≤ 13 → env.fails k = false) ∧ (FullReset s env).1.status = 200 ∧
      (FullReset s env).2 = fullResetTables.foldl (fun u tb =>
          { u with sqlite_sequence := u.sqlite_sequence.filter fun p => p.1 != tb })
        (fullResetTables.foldl deleteFrom s)) := by
  have hlen : fullResetTables.length = 6 := rfl
  unfold FullReset
  cases h0 : env.fails 0
  · simp only [Bool.false_eq_true, if_false]
    rcases deleteTables_cases env fullResetTables 1 s with ⟨⟨i, hi, hf⟩, e, he⟩ | ⟨hall1, hok1⟩
    · left
      rw [he]
      exact ⟨⟨1 + i, by omega, hf⟩, rfl, rfl⟩
    · rw [hok1]
      simp only
      rcases resetSequences_cases env fullResetTables (1 + fullResetTables.length)
        (fullResetTables.foldl deleteFrom s) with ⟨⟨i, hi, hf⟩, e, he⟩ | ⟨hall2, hok2⟩
      · left
        rw [he]
        exact ⟨⟨1 + fullResetTables.length + i, by omega, hf⟩, rfl, rfl⟩
      · rw [hok2]
        simp only
        cases h13 : env.fails (1 + fullResetTables.length + fullResetTables.length)
        · right
          refine ⟨?_, rfl, rfl⟩
          intro k hk
          by_cases hk0 : k = 0
          · subst hk0; exact h0
          · by_cases hk6 : k ≤ 6
            · have := hall1 (k - 1) (by omega)
              rwa [show 1 + (k - 1) = k by omega] at this
            · by_cases hk12 : k ≤ 12
              · have := hall2 (k - 7) (by omega)
                rwa [show 1 + fullResetTables.length + (k - 7) = k by omega] at this
              · have hk13 : k = 13 := by omega
                subst hk13
                simpa [hlen] using h13
        · left
          exact ⟨⟨13, le_refl _, by simpa [hlen] using h13⟩, rfl, rfl⟩
  · left
    exact ⟨⟨0, by omega, h0⟩, by simp [Resp.status], by simp⟩

/-- C12: `ResetHistory` and `FullReset` are all-or-nothing: for every store, when one of
the database calls of the operation fails (begin, one of the deletes, commit; calls 0 to 3
of `ResetHistory`, calls 0 to 13 of `FullReset`), for instance the `study_sessions` delete
after the `word_review_items` delete went through, the answer is 500 and the store
afterwards equals the store before the call. -/
theorem resets_all_or_nothing (s : Store) (env : Env) :
    ((∃ k, k ≤ 3 ∧ env.fails k = true) →
      (ResetHistory s env).1.status = 500 ∧ (ResetHistory s env).2 = s) ∧
    ((∃ k, k ≤ 13 ∧ env.fails k = true) →
      (FullReset s env).1.status = 500 ∧ (FullReset s env).2 = s) := by
  constructor
  · rintro ⟨k, hk, hf⟩
    rcases ResetHistory_cases s env with ⟨_, h⟩ | ⟨hall, _⟩
    · exact h
    · rw [hall k hk] at hf
      exact absurd hf (by decide)
  · rintro ⟨k, hk, hf⟩
    rcases FullReset_cases s env with ⟨_, h⟩ | ⟨hall, _⟩
    · exact h
    · rw [hall k hk] at hf
      exact absurd hf (by decide)

/-- C13 at the test fixture: `FullReset` succeeds, and the four rows of
`study_activity_groups` are still in the store, because the `tables` slice of the handler
does not name that table; the six tables it names are empty. -/
theorem FullReset_keeps_study_activity_groups :
    (FullReset seedStore (Env.healthy 7)).1.status = 200 ∧
    (FullReset seedStore (Env.healthy 7)).2.study_activity_groups
      = [⟨1, 1⟩, ⟨1, 2⟩, ⟨2, 1⟩, ⟨2, 2⟩] ∧
    (FullReset seedStore (Env.healthy 7)).2.words = [] ∧
    (FullReset seedStore (Env.healthy 7)).2.groups = [] ∧
    (FullReset seedStore (Env.healthy 7)).2.word_groups = [] ∧
    (FullReset seedStore (Env.healthy 7)).2.study_activities = [] ∧
    (FullReset seedStore (Env.healthy 7)).2.study_sessions = [] ∧
    (FullReset seedStore (Env.healthy 7)).2.word_review_items = [] := by
  decide

/-- C16: when the statistics query goes through, `GetStudyProgress` answers `total_words` =
the number of word rows, `words_studied` = the number of distinct word ids in the review
rows, whatever their groups, and `average_mastery` = the fraction of all review rows whose
flag is set (non-zero), 0 without review rows; `GetQuickStats` answers the same three
values with `total_sessions` and `total_reviews` = the numbers of session and review
rows. -/
theorem dashboard_statistics (s : Store) (env : Env) (hdb : env.fails 0 = false) :
    GetStudyProgress s env = .ok 200
      { total_words := (s.words.length : Int)
        words_studied := (((s.word_review_items.map fun r => r.word_id).toFinset.card : Nat) : Int)
        average_mastery :=
          if s.word_review_items.length = 0 then 0
          else (((s.word_review_items.filter fun r => r.correct != 0).length : ℚ)
            / (s.word_review_items.length : ℚ)) } ∧
    GetQuickStats s env = .ok 200
      { total_sessions := (s.study_sessions.length : Int)
        total_reviews := (s.word_review_items.length : Int)
        total_words := (s.words.length : Int)
        words_studied := (((s.word_review_items.map fun r => r.word_id).toFinset.card : Nat) : Int)
        average_mastery :=
          if s.word_review_items.length = 0 then 0
          else (((s.word_review_items.filter fun r => r.correct != 0).length : ℚ)
            / (s.word_review_items.length : ℚ)) } := by
  have hstud : wordsStudied s
      = (((s.word_review_items.map fun r => r.word_id).toFinset.card : Nat) : Int) := by
    unfold wordsStudied COUNT_DISTINCT
    rw [List.card_toFinset]
    congr 3
    induction s.word_review_items with
    | nil => rfl
    | cons r R ih => simp [ih]
  have hmast : overallMastery s
      = if s.word_review_items.length = 0 then 0
        else (((s.word_review_items.filter fun r => r.correct != 0).length : ℚ)
          / (s.word_review_items.length : ℚ)) := by
    unfold overallMastery
    cases hR : s.word_review_items with
    | nil => simp [AVG, COALESCE]
    | cons r R =>
      rw [AVG_caseCorrect (r :: R) (by simp)]
      simp [COALESCE]
  constructor
  · simp only [GetStudyProgress, hdb, Bool.false_eq_true, if_false, hstud, hmast]
  · simp only [GetQuickStats, hdb, Bool.false_eq_true, if_false, hstud, hmast]

/-- C17 at the test fixture: the session object that `GetGroupStudySessions` answers for
group 1 and the one that `GetStudyActivitySessions` answers for activity 1 start at 100
and carry the zero end time, not 100 plus thirty minutes: these two handlers never assign
`EndTime`, which `GetStudySession` does for the same session. -/
theorem group_and_activity_sessions_have_zero_end_time :
    (∃ x, GetGroupStudySessions seedStore (Env.healthy 7) "1" = .ok 200 [x] ∧
      x.start_time = 100 ∧ x.end_time = 0) ∧
    (∃ x, GetStudyActivitySessions seedStore (Env.healthy 7) "1" = .ok 200 [x] ∧
      x.start_time = 100 ∧ x.end_time = 0) ∧
    (∃ x, GetStudySession seedStore (Env.healthy 7) "1" = .ok 200 x ∧
      x.start_time = 100 ∧ x.end_time = 100 + 30 * Minute) := by
  refine ⟨⟨_, rfl, by decide, by decide⟩, ⟨_, rfl, by decide, by decide⟩,
    ⟨_, rfl, by decide, by decide⟩⟩

/-- C18: when the query goes through, `GetStudySessions` answers exactly
`min L (n - O)` sessions (with `n - O` read as 0 when `O > n`), where `n` is the number of
listable sessions (rows of the join), `L` is the parsed `limit` when it is a positive
integer and 20 otherwise (parameter absent, not numeric, or not positive) and `O` is the
parsed `offset` when it is a non-negative integer and 0 otherwise; so the default call
answers 20 sessions when `n ≥ 20` and `limit=25` answers 25 sessions when `n ≥ 25`. -/
theorem GetStudySessions_page_size (s : Store) (env : Env) (limitStr offsetStr : String)
    (hdb : env.fails 0 = false) :
    (∃ xs, GetStudySessions s env limitStr offsetStr = .ok 200 xs ∧
      xs.length = min
        (match Atoi limitStr with
          | some v => if 0 < v then v.toNat else 20
          | none => 20)
        ((sessionJoin s).length -
          (match Atoi offsetStr with
            | some v => v.toNat
            | none => 0))) ∧
    (20 ≤ (sessionJoin s).length →
      ∃ xs, GetStudySessions s env "" "" = .ok 200 xs ∧ xs.length = 20) ∧
    (25 ≤ (sessionJoin s).length →
      ∃ xs, GetStudySessions s env "25" "" = .ok 200 xs ∧ xs.length = 25) := by
  have hsort : (orderByCreatedAtDesc (sessionJoin s)).length = (sessionJoin s).length := by
    unfold orderByCreatedAtDesc
    exact List.length_insertionSort _ _
  have hgen : ∀ l o : String, ∃ xs, GetStudySessions s env l o = .ok 200 xs ∧
      xs.length = min (parseLimit l).toNat ((sessionJoin s).length - (parseOffset o).toNat) := by
    intro l o
    have hrun : GetStudySessions s env l o = .ok 200
        ((((orderByCreatedAtDesc (sessionJoin s)).drop (parseOffset o).toNat).take
          (parseLimit l).toNat).map fun row => setEndTime (setScore (scanSession s row))) := by
      simp only [GetStudySessions, hdb, Bool.false_eq_true, if_false]
    refine ⟨_, hrun, ?_⟩
    simp [List.length_take, List.length_drop, hsort]
  have hlimit : (parseLimit limitStr).toNat
      = (match Atoi limitStr with
          | some v => if 0 < v then v.toNat else 20
          | none => 20) := by
    unfold parseLimit
    by_cases he : limitStr = ""
    · subst he
      have : Atoi "" = none := by decide
      simp [this]
    · cases hA : Atoi limitStr with
      | none => simp [he]
      | some v =>
        by_cases hv : 0 < v
        · simp [he, hv]
        · simp [he, hv]
  have hoffset : (parseOffset offsetStr).toNat
      = (match Atoi offsetStr with
          | some v => v.toNat
          | none => 0) := by
    unfold parseOffset
    by_cases he : offsetStr = ""
    · subst he
      have : Atoi "" = none := by decide
      simp [this]
    · cases hA : Atoi offsetStr with
      | none => simp [he]
      | some v =>
        by_cases hv : 0 ≤ v
        · simp [he, hv]
        · have : v.toNat = 0 := by omega
          simp [he, hv, this]
  refine ⟨?_, ?_, ?_⟩
  · obtain ⟨xs, h1, h2⟩ := hgen limitStr offsetStr
    exact ⟨xs, h1, by rw [h2, hlimit, hoffset]⟩
  · intro hn
    obtain ⟨xs, h1, h2⟩ := hgen "" ""
    refine ⟨xs, h1, ?_⟩
    have hl : (parseLimit "").toNat = 20 := by decide
    have ho : (parseOffset "").toNat = 0 := by decide
    rw [h2, hl, ho]
    omega
  · intro hn
    obtain ⟨xs, h1, h2⟩ := hgen "25" ""
    refine ⟨xs, h1, ?_⟩
    have hl : (parseLimit "25").toNat = 25 := by decide
    have ho : (parseOffset "").toNat = 0 := by decide
    rw [h2, hl, ho]
    omega

/-- C20 at the test fixture, where no group and no activity has the id 999: `GetGroup`,
`GetGroupWords` and `GetStudyActivity` answer 404, while `GetGroupStudySessions` and
`GetStudyActivitySessions` answer 200 with an empty list, because they run their session
query without looking up the group or the activity first. -/
theorem session_lists_of_unknown_id_answer_200 :
    (∀ g ∈ seedStore.groups, g.id ≠ 999) ∧
    (∀ a ∈ seedStore.study_activities, a.id ≠ 999) ∧
    GetGroup seedStore (Env.healthy 7) "999" = .error 404 "Group not found" ∧
    GetGroupWords seedStore (Env.healthy 7) "999" = .error 404 "Group not found" ∧
    GetStudyActivity seedStore (Env.healthy 7) "999"
      = .error 404 "Study activity not found" ∧
    GetGroupStudySessions seedStore (Env.healthy 7) "999" = .ok 200 [] ∧
    GetStudyActivitySessions seedStore (Env.healthy 7) "999" = .ok 200 [] := by
  decide


/-! ## Word list pagination -/

theorem AtoiGo_syntax_value (str : String) (h : (AtoiGo str).2 = some NumError.ErrSyntax) :
    (AtoiGo str).1 = 0 := by
  unfold AtoiGo at h ⊢
  simp only at h ⊢
  split
  · rfl
  · rename_i hne
    rw [if_neg hne] at h
    split
    · rfl
    · rename_i hr
      rw [hr] at h
      simp at h
    · rename_i un hu
      rw [hu] at h
      simp only at h
      split at h
      · simp at h
      · split at h
        · simp at h
        · simp at h

theorem AtoiGo_error_value (str : String) (h : (AtoiGo str).2 ≠ none) :
    (AtoiGo str).1 = 0 ∨ (AtoiGo str).1 = 2 ^ 63 - 1 ∨ (AtoiGo str).1 = -(2 : Int) ^ 63 := by
  unfold AtoiGo at h ⊢
  simp only at h ⊢
  split
  · exact Or.inl rfl
  · rename_i hne
    rw [if_neg hne] at h
    split
    · exact Or.inl rfl
    · split
      · exact Or.inr (Or.inr rfl)
      · exact Or.inr (Or.inl rfl)
    · rename_i un hu
      rw [hu] at h
      simp only at h
      split
      · exact Or.inr (Or.inl rfl)
      · rename_i h1
        rw [if_neg h1] at h
        split
        · exact Or.inr (Or.inr rfl)
        · rename_i h2
          rw [if_neg h2] at h
          exact absurd rfl h

theorem tdiv_eq_ceil (t p : Int) (ht : 0 ≤ t) (hp : 1 ≤ p) :
    Int.tdiv (t + p - 1) p = Int.ceil (((t : Int) : ℚ) / ((p : Int) : ℚ)) := by
  rw [Int.tdiv_eq_ediv (by omega) (by omega)]
  symm
  rw [Int.ceil_eq_iff]
  have hp0 : (0 : ℚ) < (p : ℚ) := by exact_mod_cast (by omega : (0 : Int) < p)
  have h1 : (t + p - 1) / p * p ≤ t + p - 1 := Int.ediv_mul_le _ (by omega)
  have h2 : t + p - 1 < ((t + p - 1) / p + 1) * p := Int.lt_ediv_add_one_mul_self _ (by omega)
  constructor
  · rw [lt_div_iff₀ hp0]
    have : ((t + p - 1) / p - 1) * p < t := by nlinarith
    exact_mod_cast this
  · rw [div_le_iff₀ hp0]
    have : t ≤ (t + p - 1) / p * p := by nlinarith
    exact_mod_cast this

/-- C19: when both queries go through, `GetWords` answers 200 for every `page` and
`per_page` query value.  The effective `per_page` lies in 1..100: it is the parsed value
when that lies in 1..100 and 100 otherwise (parameter absent, any conversion error, value
below 1 or above 100).  The effective page is at least 1: it is 1 when the parameter is
absent, when the conversion reports a syntax error or when the value is below 1, and the
value otherwise.  At most `per_page` words are answered, and the pagination block carries
the effective page and `per_page`, `total_items` = the number of word rows and
`total_pages` = the ceiling of `total_items / per_page`. -/
theorem GetWords_pagination (s : Store) (env : Env) (pageQuery perPageQuery : Option String)
    (hdb0 : env.fails 0 = false) (hdb1 : env.fails 1 = false) :
    ∃ body, GetWords s env pageQuery perPageQuery = .ok 200 body ∧
      1 ≤ body.pagination.per_page ∧ body.pagination.per_page ≤ 100 ∧
      (1 ≤ (AtoiGo (perPageQuery.getD "100")).1 → (AtoiGo (perPageQuery.getD "100")).1 ≤ 100 →
        body.pagination.per_page = (AtoiGo (perPageQuery.getD "100")).1) ∧
      ((perPageQuery = none ∨ (AtoiGo (perPageQuery.getD "100")).2 ≠ none ∨
          (AtoiGo (perPageQuery.getD "100")).1 < 1 ∨
          100 < (AtoiGo (perPageQuery.getD "100")).1) →
        body.pagination.per_page = 100) ∧
      1 ≤ body.pagination.current_page ∧
      ((pageQuery = none ∨ (AtoiGo (pageQuery.getD "1")).2 = some NumError.ErrSyntax ∨
          (AtoiGo (pageQuery.getD "1")).1 < 1) →
        body.pagination.current_page = 1) ∧
      (1 ≤ (AtoiGo (pageQuery.getD "1")).1 →
        body.pagination.current_page = (AtoiGo (pageQuery.getD "1")).1) ∧
      (body.words.length : Int) ≤ body.pagination.per_page ∧
      body.pagination.total_items = (s.words.length : Int) ∧
      body.pagination.total_pages
        = Int.ceil ((body.pagination.total_items : ℚ) / (body.pagination.per_page : ℚ)) := by
  have hrun : GetWords s env pageQuery perPageQuery = .ok 200
      { words := (((groupByWordId (leftJoin s.words s.word_review_items
            (fun w wri => w.id == wri.word_id))).insertionSort
              fun a b => a.word.id ≤ b.word.id).drop
            (wrapInt64 (((if (AtoiGo (pageQuery.getD "1")).1 < 1 then 1
                else (AtoiGo (pageQuery.getD "1")).1) - 1)
              * (if (AtoiGo (perPageQuery.getD "100")).1 < 1 ∨
                    (AtoiGo (perPageQuery.getD "100")).1 > 100 then 100
                  else (AtoiGo (perPageQuery.getD "100")).1))).toNat).take
          (if (AtoiGo (perPageQuery.getD "100")).1 < 1 ∨
              (AtoiGo (perPageQuery.getD "100")).1 > 100 then (100 : Int)
            else (AtoiGo (perPageQuery.getD "100")).1).toNat
        pagination :=
          { current_page := if (AtoiGo (pageQuery.getD "1")).1 < 1 then 1
              else (AtoiGo (pageQuery.getD "1")).1
            total_pages := Int.tdiv ((s.words.length : Int)
              + (if (AtoiGo (perPageQuery.getD "100")).1 < 1 ∨
                    (AtoiGo (perPageQuery.getD "100")).1 > 100 then 100
                  else (AtoiGo (perPageQuery.getD "100")).1) - 1)
              (if (AtoiGo (perPageQuery.getD "100")).1 < 1 ∨
                  (AtoiGo (perPageQuery.getD "100")).1 > 100 then 100
                else (AtoiGo (perPageQuery.getD "100")).1)
            total_items := (s.words.length : Int)
            per_page := if (AtoiGo (perPageQuery.getD "100")).1 < 1 ∨
                (AtoiGo (perPageQuery.getD "100")).1 > 100 then 100
              else (AtoiGo (perPageQuery.getD "100")).1 } } := by
    simp only [GetWords, hdb0, hdb1, Bool.false_eq_true, if_false]
  refine ⟨_, hrun, ?_⟩
  simp only
  generalize hQ : (AtoiGo (perPageQuery.getD "100")).1 = Q
  generalize hP : (AtoiGo (pageQuery.getD "1")).1 = P
  have hpp : 1 ≤ (if Q < 1 ∨ Q > 100 then (100 : Int) else Q) ∧
      (if Q < 1 ∨ Q > 100 then (100 : Int) else Q) ≤ 100 := by
    by_cases h : Q < 1 ∨ Q > 100
    · rw [if_pos h]; omega
    · rw [if_neg h]; omega
  refine ⟨hpp.1, hpp.2, ?_, ?_, ?_, ?_, ?_, ?_, trivial, ?_⟩
  · intro h1 h2
    rw [if_neg (by omega)]
  · intro h
    rcases h with h | h | h | h
    · subst h
      have : Q = 100 := by rw [← hQ]; decide
      rw [this]; simp
    · have hv := AtoiGo_error_value _ h
      rw [hQ] at hv
      have : Q < 1 ∨ Q > 100 := by omega
      rw [if_pos this]
    · rw [if_pos (Or.inl h)]
    · rw [if_pos (Or.inr h)]
  · by_cases h : P < 1
    · rw [if_pos h]
    · rw [if_neg h]; omega
  · intro h
    rcases h with h | h | h
    · subst h
      have : P = 1 := by rw [← hP]; decide
      rw [this]; simp
    · have hv := AtoiGo_syntax_value _ h
      rw [hP] at hv
      rw [hv]; simp
    · rw [if_pos h]
  · intro h
    rw [if_neg (by omega)]
  · refine le_trans (Int.ofNat_le.mpr (List.length_take_le _ _)) ?_
    rw [Int.toNat_of_nonneg (by have := hpp.1; omega)]
  · exact tdiv_eq_ceil _ _ (by positivity) hpp.1

theorem le_foldl_digits (cs : List Char) (n : Nat) :
    n ≤ cs.foldl (fun acc c => acc * 10 + (c.toNat - 48)) n := by
  induction cs generalizing n with
  | nil => exact le_refl _
  | cons c cs ih =>
    simp only [List.foldl_cons]
    exact le_trans (by omega) (ih _)

theorem parseUintDigits_of_digits (cs : List Char) (n : Nat)
    (h : cs.all Char.isDigit = true) (hn : n ≤ 2 ^ 64 - 1) :
    parseUintDigits cs n
      = if cs.foldl (fun acc c => acc * 10 + (c.toNat - 48)) n ≤ 2 ^ 64 - 1 then
          .ok (cs.foldl (fun acc c => acc * 10 + (c.toNat - 48)) n)
        else .error NumError.ErrRange := by
  induction cs generalizing n with
  | nil =>
    unfold parseUintDigits
    simp only [List.foldl_nil]
    rw [if_pos hn]
  | cons c cs ih =>
    simp only [List.all_cons, Bool.and_eq_true] at h
    unfold parseUintDigits
    simp only [h.1, Bool.not_true, Bool.false_eq_true, if_false, List.foldl_cons]
    by_cases hov : n * 10 + (c.toNat - 48) > 2 ^ 64 - 1
    · rw [if_pos hov]
      have := le_foldl_digits cs (n * 10 + (c.toNat - 48))
      rw [if_neg (by omega)]
    · rw [if_neg hov]
      exact ih _ h.2 (by omega)

theorem parseUintDigits_of_not_digits (cs : List Char) (n : Nat)
    (h : cs.all Char.isDigit = false) : ∃ e, parseUintDigits cs n = .error e := by
  induction cs generalizing n with
  | nil => simp at h
  | cons c cs ih =>
    unfold parseUintDigits
    by_cases hc : c.isDigit = true
    · simp only [hc, Bool.not_true, Bool.false_eq_true, if_false]
      by_cases hov : n * 10 + (c.toNat - 48) > 2 ^ 64 - 1
      · exact ⟨_, by rw [if_pos hov]⟩
      · rw [if_neg hov]
        apply ih
        simpa [hc] using h
    · exact ⟨NumError.ErrSyntax, by simp [hc]⟩

theorem Atoi_eq_AtoiGo (str : String) :
    Atoi str = if (AtoiGo str).2 = none then some (AtoiGo str).1 else none := by
  unfold Atoi AtoiGo
  simp only
  generalize (match str.toList with
    | '-' :: r => r
    | '+' :: r => r
    | r => r) = ds
  generalize (str.toList.head? == some '-') = neg
  by_cases hempty : ds.isEmpty = true
  · simp [hempty]
  · by_cases hall : ds.all Char.isDigit = true
    · have hp := parseUintDigits_of_digits ds 0 hall (by norm_num)
      simp only [hempty, hall, Bool.not_true, Bool.or_false, Bool.false_eq_true, if_false]
      rw [hp]
      unfold digitsValue
      generalize ds.foldl (fun acc c => acc * 10 + (c.toNat - 48)) 0 = un
      by_cases hle : un ≤ 2 ^ 64 - 1
      · rw [if_pos hle]
        simp only
        have hnn : (0 : Int) ≤ (un : Int) := Int.ofNat_nonneg un
        cases neg
        · by_cases h63 : un ≥ 9223372036854775808
          · have h63i : (9223372036854775808 : Int) ≤ (un : Int) := by exact_mod_cast h63
            simp [h63]
            omega
          · have h63i : (un : Int) < 9223372036854775808 := by
              exact_mod_cast (not_le.mp h63)
            simp [h63]
            omega
        · by_cases h63 : un > 9223372036854775808
          · have h63i : (9223372036854775808 : Int) < (un : Int) := by exact_mod_cast h63
            simp [h63]
          · have h63i : (un : Int) ≤ 9223372036854775808 := by
              exact_mod_cast (not_lt.mp h63)
            simp [h63]
            omega
      · rw [if_neg hle]
        have hbig : 18446744073709551615 < un := by
          have := not_le.mp hle
          norm_num at this
          exact this
        have hbigi : (18446744073709551615 : Int) < (un : Int) := by exact_mod_cast hbig
        cases neg
        · simp
          omega
        · simp
          omega
    · have hall2 : ds.all Char.isDigit = false := by simpa using hall
      obtain ⟨e, he⟩ := parseUintDigits_of_not_digits ds 0 hall2
      simp only [hempty, hall2, Bool.not_false, Bool.or_true, if_true, Bool.false_eq_true,
        if_false, he]
      cases e <;> simp


/-! ## Group statistics -/

theorem mem_leftJoin {α β : Type} (xs : List α) (ys : List β) (cond : α → β → Bool)
    (p : α × Option β) :
    p ∈ leftJoin xs ys cond ↔
      p.1 ∈ xs ∧ ((∃ y, p.2 = some y ∧ y ∈ ys ∧ cond p.1 y = true) ∨
        (p.2 = none ∧ ∀ y ∈ ys, cond p.1 y = false)) := by
  unfold leftJoin
  rw [List.mem_flatMap]
  constructor
  · rintro ⟨x, hx, hp⟩
    cases hm : ys.filter (cond x) with
    | nil =>
      rw [hm] at hp
      simp only [List.mem_singleton] at hp
      subst hp
      refine ⟨hx, Or.inr ⟨rfl, ?_⟩⟩
      intro y hy
      have := List.filter_eq_nil_iff.mp hm y hy
      simpa using this
    | cons m ms =>
      rw [hm] at hp
      simp only at hp
      obtain ⟨y, hy, rfl⟩ := List.mem_map.mp hp
      rw [← hm] at hy
      have := List.mem_filter.mp hy
      exact ⟨hx, Or.inl ⟨y, rfl, this.1, this.2⟩⟩
  · rintro ⟨hx, h⟩
    refine ⟨p.1, hx, ?_⟩
    rcases h with ⟨y, hy, hmem, hc⟩ | ⟨hnone, hall⟩
    · have hyf : y ∈ ys.filter (cond p.1) := List.mem_filter.mpr ⟨hmem, hc⟩
      cases hm : ys.filter (cond p.1) with
      | nil => rw [hm] at hyf; cases hyf
      | cons m ms =>
        simp only
        rw [← hm]
        exact List.mem_map.mpr ⟨y, hyf, by rw [← hy]⟩
    · have hm : ys.filter (cond p.1) = [] := by
        rw [List.filter_eq_nil_iff]
        intro y hy
        simp [hall y hy]
      rw [hm]
      simp only [List.mem_singleton]
      rw [← hnone]

theorem exists_mem_leftJoin {α β : Type} (xs : List α) (ys : List β) (cond : α → β → Bool)
    (x : α) (hx : x ∈ xs) : ∃ o, (x, o) ∈ leftJoin xs ys cond := by
  by_cases h : ∃ y ∈ ys, cond x y = true
  · obtain ⟨y, hy, hc⟩ := h
    exact ⟨some y, (mem_leftJoin xs ys cond _).mpr ⟨hx, Or.inl ⟨y, rfl, hy, hc⟩⟩⟩
  · refine ⟨none, (mem_leftJoin xs ys cond _).mpr ⟨hx, Or.inr ⟨rfl, ?_⟩⟩⟩
    intro y hy
    by_contra hc
    exact h ⟨y, hy, by simpa using hc⟩

theorem mem_group_word_ids (s : Store) (groupID x : Int) :
    x ∈ (((groupJoin s).filter fun r => r.1.1.1.id == groupID).map
        fun r => r.1.1.2.map fun wg => wg.word_id).filterMap id ↔
      (∃ g ∈ s.groups, g.id = groupID) ∧
        x ∈ (s.word_groups.filter fun l => l.group_id == groupID).map fun l => l.word_id := by
  simp only [List.mem_filterMap, List.mem_map, List.mem_filter, id, beq_iff_eq]
  constructor
  · rintro ⟨o, ⟨row, ⟨hrow, hid⟩, rfl⟩, ho⟩
    unfold groupJoin at hrow
    have h3 := ((mem_leftJoin _ _ _ row).mp hrow).1
    have h2 := ((mem_leftJoin _ _ _ row.1).mp h3).1
    have h1 := (mem_leftJoin _ _ _ row.1.1).mp h2
    cases hwg : row.1.1.2 with
    | none => rw [hwg] at ho; cases ho
    | some wg =>
      rw [hwg] at ho
      simp only [Option.map_some', Option.some.injEq] at ho
      rcases h1.2 with ⟨y, hy, hmem, hc⟩ | ⟨hn, _⟩
      · rw [hwg] at hy
        cases hy
        refine ⟨⟨row.1.1.1, h1.1, hid⟩, wg, ⟨hmem, ?_⟩, ho⟩
        have : row.1.1.1.id = wg.group_id := by simpa using hc
        rw [← this, hid]
      · rw [hwg] at hn; cases hn
  · rintro ⟨⟨g, hg, hgid⟩, wg, ⟨hwg, hwgid⟩, hx⟩
    have m1 : (g, some wg) ∈ leftJoin s.groups s.word_groups
        (fun g wg => g.id == wg.group_id) :=
      (mem_leftJoin _ _ _ _).mpr ⟨hg, Or.inl ⟨wg, rfl, hwg, by simp [hgid, hwgid]⟩⟩
    obtain ⟨o2, m2⟩ := exists_mem_leftJoin _ s.words (fun (p : Group × Option WordGroup) w =>
      match p.2 with
      | some wg => wg.word_id == w.id
      | none => false) _ m1
    obtain ⟨o3, m3⟩ := exists_mem_leftJoin _ s.word_review_items
      (fun (p : (Group × Option WordGroup) × Option Word) wri =>
        match p.2 with
        | some w => w.id == wri.word_id
        | none => false) _ m2
    exact ⟨some x, ⟨(((g, some wg), o2), o3), ⟨m3, hgid⟩, by simp [hx]⟩, rfl⟩

theorem mem_group_flag_word_ids (s : Store) (groupID v x : Int) :
    x ∈ (((groupJoin s).filter fun r => r.1.1.1.id == groupID).map
        (caseCorrectEqThenWordId v)).filterMap id ↔
      (∃ g ∈ s.groups, g.id = groupID) ∧
        x ∈ (wordsOfGroupReviewed s groupID v).map fun w => w.id := by
  simp only [wordsOfGroupReviewed, List.mem_filterMap, List.mem_map, List.mem_filter, id,
    beq_iff_eq, Bool.and_eq_true, List.any_eq_true]
  constructor
  · rintro ⟨o, ⟨row, ⟨hrow, hid⟩, rfl⟩, ho⟩
    unfold groupJoin at hrow
    have h3 := (mem_leftJoin _ _ _ row).mp hrow
    have h2 := (mem_leftJoin _ _ _ row.1).mp h3.1
    have h1 := (mem_leftJoin _ _ _ row.1.1).mp h2.1
    unfold caseCorrectEqThenWordId at ho
    cases hr : row.2 with
    | none => rw [hr] at ho; cases ho
    | some r =>
      rw [hr] at ho
      simp only at ho
      by_cases hv : r.correct = v
      · rw [if_pos hv] at ho
        cases hw : row.1.2 with
        | none => rw [hw] at ho; cases ho
        | some w =>
          rw [hw] at ho
          simp only [Option.map_some', Option.some.injEq] at ho
          have hrmem : r ∈ s.word_review_items ∧ w.id = r.word_id := by
            rcases h3.2 with ⟨y, hy, hmem, hc⟩ | ⟨hn, _⟩
            · rw [hr] at hy
              cases hy
              rw [hw] at hc
              exact ⟨hmem, by simpa using hc⟩
            · rw [hr] at hn; cases hn
          have hwmem : w ∈ s.words ∧ ∃ wg, row.1.1.2 = some wg ∧ wg.word_id = w.id := by
            rcases h2.2 with ⟨y, hy, hmem, hc⟩ | ⟨hn, _⟩
            · rw [hw] at hy
              cases hy
              cases hwg : row.1.1.2 with
              | none => rw [hwg] at hc; simp at hc
              | some wg =>
                rw [hwg] at hc
                exact ⟨hmem, wg, rfl, by simpa using hc⟩
            · rw [hw] at hn; cases hn
          obtain ⟨hwm, wg, hwg, hwgw⟩ := hwmem
          have hlink : wg ∈ s.word_groups ∧ wg.group_id = groupID := by
            rcases h1.2 with ⟨y, hy, hmem, hc⟩ | ⟨hn, _⟩
            · rw [hwg] at hy
              cases hy
              have : row.1.1.1.id = wg.group_id := by simpa using hc
              exact ⟨hmem, by rw [← this, hid]⟩
            · rw [hwg] at hn; cases hn
          exact ⟨⟨row.1.1.1, h1.1, hid⟩, w,
            ⟨hwm, ⟨wg, hlink.1, hlink.2, hwgw⟩, ⟨r, hrmem.1, hrmem.2.symm, hv⟩⟩, ho⟩
      · rw [if_neg hv] at ho; cases ho
  · rintro ⟨⟨g, hg, hgid⟩, w, ⟨hw, ⟨wg, hwg, hwgid, hwgw⟩, ⟨r, hr, hrw, hrv⟩⟩, hx⟩
    have m1 : (g, some wg) ∈ leftJoin s.groups s.word_groups
        (fun g wg => g.id == wg.group_id) :=
      (mem_leftJoin _ _ _ _).mpr ⟨hg, Or.inl ⟨wg, rfl, hwg, by simp [hgid, hwgid]⟩⟩
    have m2 : ((g, some wg), some w) ∈ leftJoin
        (leftJoin s.groups s.word_groups (fun g wg => g.id == wg.group_id)) s.words
        (fun (p : Group × Option WordGroup) w =>
          match p.2 with
          | some wg => wg.word_id == w.id
          | none => false) :=
      (mem_leftJoin _ _ _ _).mpr ⟨m1, Or.inl ⟨w, rfl, hw, by simp [hwgw]⟩⟩
    have m3 : (((g, some wg), some w), some r) ∈ groupJoin s :=
      (mem_leftJoin _ _ _ _).mpr ⟨m2, Or.inl ⟨r, rfl, hr, by simp [hrw]⟩⟩
    exact ⟨some x, ⟨(((g, some wg), some w), some r), ⟨m3, hgid⟩,
      by simp [caseCorrectEqThenWordId, hrv, hx]⟩, rfl⟩

theorem groupStatsOfGroup_counts (s : Store) (groupID : Int) (e : GroupWithStats)
    (h : groupStatsOfGroup ((groupJoin s).filter fun r => r.1.1.1.id == groupID) = some e) :
    e.group.id = groupID ∧ e.group ∈ s.groups ∧ GroupCountsSpec s groupID e.statistics := by
  unfold groupStatsOfGroup at h
  split at h
  · cases h
  · rename_i row rest hrows
    have hmem : row ∈ (groupJoin s).filter fun r => r.1.1.1.id == groupID := by
      rw [hrows]; exact List.mem_cons_self _ _
    obtain ⟨hjoin, hid⟩ := List.mem_filter.mp hmem
    have hid2 : row.1.1.1.id = groupID := by simpa using hid
    have hg : row.1.1.1 ∈ s.groups := by
      unfold groupJoin at hjoin
      have h3 := ((mem_leftJoin _ _ _ row).mp hjoin).1
      have h2 := ((mem_leftJoin _ _ _ row.1).mp h3).1
      exact ((mem_leftJoin _ _ _ row.1.1).mp h2).1
    have hex : ∃ g ∈ s.groups, g.id = groupID := ⟨_, hg, hid2⟩
    simp only [Option.some.injEq] at h
    subst h
    refine ⟨hid2, hg, ?_, ?_, ?_⟩
    · simp only [COUNT_DISTINCT]
      congr 1
      apply dedup_length_eq_of_mem_iff
      intro x
      rw [mem_group_word_ids]
      simp [hex]
    · simp only [COUNT_DISTINCT]
      congr 1
      apply dedup_length_eq_of_mem_iff
      intro x
      rw [mem_group_flag_word_ids]
      simp [hex]
    · simp only [COUNT_DISTINCT]
      congr 1
      apply dedup_length_eq_of_mem_iff
      intro x
      rw [mem_group_flag_word_ids]
      simp [hex]

theorem group_rows_ne_nil (s : Store) (g : Group) (hg : g ∈ s.groups) :
    ((groupJoin s).filter fun r => r.1.1.1.id == g.id) ≠ [] := by
  obtain ⟨o1, m1⟩ := exists_mem_leftJoin s.groups s.word_groups
    (fun g wg => g.id == wg.group_id) g hg
  obtain ⟨o2, m2⟩ := exists_mem_leftJoin _ s.words (fun (p : Group × Option WordGroup) w =>
    match p.2 with
    | some wg => wg.word_id == w.id
    | none => false) _ m1
  obtain ⟨o3, m3⟩ := exists_mem_leftJoin _ s.word_review_items
    (fun (p : (Group × Option WordGroup) × Option Word) wri =>
      match p.2 with
      | some w => w.id == wri.word_id
      | none => false) _ m2
  intro hnil
  have : (((g, o1), o2), o3) ∈ (groupJoin s).filter fun r => r.1.1.1.id == g.id :=
    List.mem_filter.mpr ⟨m3, by simp⟩
  rw [hnil] at this
  cases this

/-- C14: when the query goes through, for every group `g` of the store `GetGroup` answers
200 with `total_word_count` = the number of distinct word ids linked to `g`,
`mastered_words` = the number of distinct words of `g` (word rows linked to `g`) that have
at least one review flagged 1 and `in_progress_words` = the number of distinct words of `g`
that have at least one review flagged 0, so that a word with both kinds of review is
counted in both; `GetGroups` answers an entry for `g`, and each of its entries carries
these three counts for its group. -/
theorem GetGroup_word_counts (s : Store) (env : Env) (idParam : String) (g : Group)
    (hdb : env.fails 0 = false) (hg : g ∈ s.groups) (hid : Atoi idParam = some g.id) :
    (∃ body, GetGroup s env idParam = .ok 200 body ∧ body.group.id = g.id ∧
      GroupCountsSpec s g.id body.statistics) ∧
    (∃ entries, GetGroups s env = .ok 200 entries ∧
      (∃ e ∈ entries, e.group.id = g.id) ∧
      ∀ e ∈ entries, GroupCountsSpec s e.group.id e.statistics) := by
  constructor
  · unfold GetGroup
    rw [hid]
    simp only [hdb, Bool.false_eq_true, if_false]
    cases hst : groupStatsOfGroup ((groupJoin s).filter fun r => r.1.1.1.id == g.id) with
    | none =>
      exfalso
      unfold groupStatsOfGroup at hst
      split at hst
      · rename_i hnil
        exact group_rows_ne_nil s g hg hnil
      · cases hst
    | some e =>
      have := groupStatsOfGroup_counts s g.id e hst
      exact ⟨e, rfl, this.1, this.2.2⟩
  · have hrun : GetGroups s env = .ok 200
        ((((s.groups.map fun g => g.id).dedup).filterMap fun i =>
            groupStatsOfGroup ((groupJoin s).filter fun r => r.1.1.1.id == i)).insertionSort
          fun a b => textLe a.group.name.toList b.group.name.toList = true) := by
      simp only [GetGroups, hdb, Bool.false_eq_true, if_false]
    refine ⟨_, hrun, ?_, ?_⟩
    · cases hst : groupStatsOfGroup ((groupJoin s).filter fun r => r.1.1.1.id == g.id) with
      | none =>
        exfalso
        unfold groupStatsOfGroup at hst
        split at hst
        · rename_i hnil
          exact group_rows_ne_nil s g hg hnil
        · cases hst
      | some e =>
        refine ⟨e, ?_, (groupStatsOfGroup_counts s g.id e hst).1⟩
        rw [(List.perm_insertionSort _ _).mem_iff, List.mem_filterMap]
        exact ⟨g.id, List.mem_dedup.mpr (List.mem_map_of_mem (fun g : Group => g.id) hg), hst⟩
    · intro e he
      rw [(List.perm_insertionSort _ _).mem_iff, List.mem_filterMap] at he
      obtain ⟨i, _, hst⟩ := he
      have := groupStatsOfGroup_counts s i e hst
      rw [this.1]
      exact this.2.2


theorem leftJoin_cons {α β : Type} (x : α) (xs : List α) (ys : List β)
    (cond : α → β → Bool) :
    leftJoin (x :: xs) ys cond = leftJoin [x] ys cond ++ leftJoin xs ys cond := by
  unfold leftJoin
  rw [List.flatMap_cons, List.flatMap_cons, List.flatMap_nil, List.append_nil]

theorem leftJoin_singleton {α β : Type} (x : α) (ys : List β) (cond : α → β → Bool) :
    leftJoin [x] ys cond =
      match ys.filter (cond x) with
      | [] => [(x, none)]
      | m :: ms => (m :: ms).map fun y => (x, some y) := by
  unfold leftJoin
  rw [List.flatMap_cons, List.flatMap_nil, List.append_nil]

theorem leftJoin_map_sum {α β : Type} (xs : List α) (ys : List β) (cond : α → β → Bool)
    (F : α × Option β → Nat) :
    ((leftJoin xs ys cond).map F).sum
      = (xs.map fun x =>
          match ys.filter (cond x) with
          | [] => F (x, none)
          | m :: ms => ((m :: ms).map fun y => F (x, some y)).sum).sum := by
  induction xs with
  | nil => rfl
  | cons x xs ih =>
    rw [leftJoin_cons, List.map_append, List.sum_append, ih, List.map_cons, List.sum_cons,
      leftJoin_singleton]
    congr 1
    cases ys.filter (cond x) with
    | nil => simp
    | cons m ms => simp [List.map_map, Function.comp_def]

theorem length_eq_sum_ones {α : Type} (l : List α) : l.length = (l.map fun _ => 1).sum := by
  induction l with
  | nil => rfl
  | cons a l ih =>
    rw [List.length_cons, List.map_cons, List.sum_cons, ← ih]
    omega

theorem filter_length_eq_sum {α : Type} (q : α → Bool) (l : List α) :
    (l.filter q).length = (l.map fun a => if q a then 1 else 0).sum := by
  induction l with
  | nil => rfl
  | cons a l ih =>
    by_cases h : q a
    · simp [List.filter_cons, h, ih]; omega
    · simp [List.filter_cons, h, ih]

theorem AVG_caseCorrect_rows (os : List (Option WordReviewItem)) (hne : os ≠ []) :
    AVG (os.map caseCorrect)
      = some (((os.filter fun o =>
          match o with
          | some r => r.correct != 0
          | none => false).length : ℚ) / (os.length : ℚ)) := by
  have hvals : (os.map caseCorrect).filterMap id
      = os.map fun o => if (match o with
          | some r => r.correct != 0
          | none => false) then (1 : ℚ) else 0 := by
    induction os with
    | nil => rfl
    | cons o os ih =>
      have hrec : (os.map caseCorrect).filterMap id
          = os.map fun o => if (match o with
              | some r => r.correct != 0
              | none => false) then (1 : ℚ) else 0 := by
        cases os with
        | nil => rfl
        | cons o2 os2 => exact ih (by simp)
      cases o with
      | none => simp [caseCorrect, hrec]
      | some r =>
        by_cases h : r.correct = 0
        · simp [caseCorrect, h, hrec]
        · simp [caseCorrect, h, hrec]
  have hsum : ∀ l : List (Option WordReviewItem),
      (l.map fun o => if (match o with
          | some r => r.correct != 0
          | none => false) then (1 : ℚ) else 0).sum
        = ((l.filter fun o =>
            match o with
            | some r => r.correct != 0
            | none => false).length : ℚ) := by
    intro l
    induction l with
    | nil => simp
    | cons o l ih =>
      by_cases h : (match o with
          | some r => r.correct != 0
          | none => false) = true
      · simp only [List.map_cons, List.sum_cons, if_pos h, ih, List.filter_cons, List.length_cons]
        push_cast
        ring
      · simp only [List.map_cons, List.sum_cons, if_neg h, ih, List.filter_cons]
        simp
  have hemp : (os.map fun o => if (match o with
          | some r => r.correct != 0
          | none => false) then (1 : ℚ) else 0).isEmpty = false := by
    cases os with
    | nil => exact absurd rfl hne
    | cons o os => rfl
  simp only [AVG, hvals, hemp, Bool.false_eq_true, if_false, hsum, List.length_map]

theorem filter_false_eq_nil {α : Type} (l : List α) : l.filter (fun _ => false) = [] := by
  induction l with
  | nil => rfl
  | cons a l ih => simp

theorem group_rows_eq (s : Store) (g : Group)
    (hpkg : (s.groups.map fun x => x.id).Nodup) (hg : g ∈ s.groups) :
    ((groupJoin s).filter fun r => r.1.1.1.id == g.id)
      = leftJoin
          (leftJoin
            (leftJoin [g] s.word_groups fun g wg => g.id == wg.group_id)
            s.words fun p w =>
              match p.2 with
              | some wg => wg.word_id == w.id
              | none => false)
          s.word_review_items fun p wri =>
            match p.2 with
            | some w => w.id == wri.word_id
            | none => false := by
  unfold groupJoin
  have h3 := leftJoin_filter_fst
    (leftJoin (leftJoin s.groups s.word_groups fun g wg => g.id == wg.group_id) s.words
      fun p w =>
        match p.2 with
        | some wg => wg.word_id == w.id
        | none => false)
    s.word_review_items
    (fun (p : (Group × Option WordGroup) × Option Word) wri =>
      match p.2 with
      | some w => w.id == wri.word_id
      | none => false)
    (fun q => q.1.1.id == g.id)
  have h2 := leftJoin_filter_fst
    (leftJoin s.groups s.word_groups fun g wg => g.id == wg.group_id) s.words
    (fun (p : Group × Option WordGroup) w =>
      match p.2 with
      | some wg => wg.word_id == w.id
      | none => false)
    (fun q => q.1.id == g.id)
  have h1 := leftJoin_filter_fst s.groups s.word_groups (fun g wg => g.id == wg.group_id)
    (fun x => x.id == g.id)
  have h0 := filter_id_eq_singleton (fun x : Group => x.id) s.groups g hpkg hg
  simp only at h3 h2 h1 h0
  rw [h3, h2, h1, h0]

theorem group_rows_sum (s : Store) (g : Group)
    (hpkg : (s.groups.map fun x => x.id).Nodup) (hpkw : (s.words.map fun x => x.id).Nodup)
    (hg : g ∈ s.groups) (f : Option WordReviewItem → Nat) :
    (((groupJoin s).filter fun r => r.1.1.1.id == g.id).map fun r => f r.2).sum
      = match s.word_groups.filter (fun l => l.group_id == g.id) with
        | [] => f none
        | l :: ls => ((l :: ls).map fun l =>
            match reviewsOfLink s l with
            | [] => f none
            | m :: ms => ((m :: ms).map fun r => f (some r)).sum).sum := by
  have hlinks : s.word_groups.filter (fun wg => g.id == wg.group_id)
      = s.word_groups.filter (fun l => l.group_id == g.id) := by
    apply List.filter_congr
    intro l _
    by_cases h : g.id = l.group_id
    · simp [h]
    · have h2 : ¬ l.group_id = g.id := fun e => h e.symm
      simp [h, h2]
  rw [group_rows_eq s g hpkg hg, leftJoin_map_sum _ _ _ (fun p => f p.2),
    leftJoin_map_sum, leftJoin_singleton, hlinks]
  cases hL : s.word_groups.filter (fun l => l.group_id == g.id) with
  | nil =>
    simp only [List.map_cons, List.map_nil, List.sum_cons, List.sum_nil, add_zero,
      filter_false_eq_nil]
  | cons l0 ls =>
    simp only
    rw [List.map_map]
    congr 1
    apply List.map_congr_left
    intro l _
    simp only [Function.comp_def]
    unfold reviewsOfLink
    by_cases hany : (s.words.any fun w => w.id == l.word_id) = true
    · rw [if_pos hany]
      obtain ⟨w, hw, hwid⟩ := List.any_eq_true.mp hany
      have hwid2 : w.id = l.word_id := by simpa using hwid
      have hW : s.words.filter (fun w' => l.word_id == w'.id) = [w] := by
        have := filter_id_eq_singleton (fun x : Word => x.id) s.words w hpkw hw
        rw [← this]
        apply List.filter_congr
        intro w' _
        show (l.word_id == w'.id) = (w'.id == w.id)
        rw [hwid2]
        by_cases h : l.word_id = w'.id
        · simp [h]
        · have h2 : ¬ w'.id = l.word_id := fun e => h e.symm
          simp [h, h2]
      have hR : s.word_review_items.filter (fun wri => w.id == wri.word_id)
          = reviewsOfWord s l.word_id := by
        unfold reviewsOfWord
        apply List.filter_congr
        intro r _
        rw [hwid2]
        by_cases h : l.word_id = r.word_id
        · simp [h]
        · have h2 : ¬ r.word_id = l.word_id := fun e => h e.symm
          simp [h, h2]
      rw [hW]
      simp only [List.map_cons, List.map_nil, List.sum_cons, List.sum_nil, add_zero, hR]
      cases reviewsOfWord s l.word_id <;> rfl
    · rw [if_neg hany]
      have hW : s.words.filter (fun w' => l.word_id == w'.id) = [] := by
        rw [List.filter_eq_nil_iff]
        intro w' hw' hbeq
        apply hany
        exact List.any_eq_true.mpr ⟨w', hw', by simpa using (beq_iff_eq.mp hbeq).symm⟩
      rw [hW]
      simp only [filter_false_eq_nil]

theorem sum_link_rows {α β : Type} (revs : α → List β) (L : List α) :
    (L.map fun l =>
        match revs l with
        | [] => 1
        | m :: ms => ((m :: ms).map fun _ => 1).sum).sum
      = (L.map fun l => (revs l).length).sum + (L.filter fun l => (revs l).isEmpty).length := by
  induction L with
  | nil => rfl
  | cons a L ih =>
    rw [List.map_cons, List.sum_cons, List.map_cons, List.sum_cons, List.filter_cons, ih]
    cases h : revs a with
    | nil => simp; omega
    | cons m ms =>
      simp only [List.isEmpty_cons, Bool.false_eq_true, if_false]
      rw [← length_eq_sum_ones]
      omega

theorem sum_link_set_rows {α β : Type} (revs : α → List β) (q : β → Bool) (L : List α) :
    (L.map fun l =>
        match revs l with
        | [] => 0
        | m :: ms => ((m :: ms).map fun r => if q r then 1 else 0).sum).sum
      = (L.map fun l => ((revs l).filter q).length).sum := by
  induction L with
  | nil => rfl
  | cons a L ih =>
    rw [List.map_cons, List.sum_cons, List.map_cons, List.sum_cons, ih]
    cases h : revs a with
    | nil => simp
    | cons m ms =>
      simp only []
      rw [← filter_length_eq_sum]

theorem groupAverage_eq (s : Store) (g : Group)
    (hpkg : (s.groups.map fun x => x.id).Nodup) (hpkw : (s.words.map fun x => x.id).Nodup)
    (hg : g ∈ s.groups) :
    COALESCE (AVG (((groupJoin s).filter fun r => r.1.1.1.id == g.id).map
        fun r => caseCorrect r.2)) 0
      = GroupAverageSpec s g.id := by
  have hne := group_rows_ne_nil s g hg
  have hne2 : (((groupJoin s).filter fun r => r.1.1.1.id == g.id).map fun r => r.2) ≠ [] := by
    intro h
    exact hne (List.map_eq_nil_iff.mp h)
  have havg := AVG_caseCorrect_rows _ hne2
  rw [List.map_map] at havg
  have hcomp : (caseCorrect ∘ fun (r : GroupRow) => r.2) = fun r => caseCorrect r.2 := rfl
  rw [hcomp] at havg
  rw [havg, filter_length_eq_sum, length_eq_sum_ones, List.map_map, List.map_map]
  have hN := group_rows_sum s g hpkg hpkw hg (fun o => if (match o with
      | some r => r.correct != 0
      | none => false) then 1 else 0)
  have hD := group_rows_sum s g hpkg hpkw hg (fun _ => 1)
  have hN2 : (((groupJoin s).filter fun r => r.1.1.1.id == g.id).map
      ((fun (o : Option WordReviewItem) => if (match o with
        | some r => r.correct != 0
        | none => false) = true then 1 else 0) ∘ fun (r : GroupRow) => r.2)).sum
      = ((linksOfGroup s g.id).map fun l =>
          ((reviewsOfLink s l).filter fun r => r.correct != 0).length).sum := by
    rw [← sum_link_set_rows]
    refine Eq.trans hN ?_
    unfold linksOfGroup
    cases s.word_groups.filter (fun l => l.group_id == g.id) with
    | nil => rfl
    | cons l ls =>
      show ((l :: ls).map _).sum = ((l :: ls).map _).sum
      congr 1
      apply List.map_congr_left
      intro a _
      cases reviewsOfLink s a <;> rfl
  have hD2 : (((groupJoin s).filter fun r => r.1.1.1.id == g.id).map
      ((fun (_ : Option WordReviewItem) => 1) ∘ fun (r : GroupRow) => r.2)).sum
      = if (linksOfGroup s g.id).isEmpty then 1
        else ((linksOfGroup s g.id).map fun l => (reviewsOfLink s l).length).sum
          + ((linksOfGroup s g.id).filter fun l => (reviewsOfLink s l).isEmpty).length := by
    rw [← sum_link_rows]
    refine Eq.trans hD ?_
    unfold linksOfGroup
    cases s.word_groups.filter (fun l => l.group_id == g.id) with
    | nil => rfl
    | cons l ls =>
      show ((l :: ls).map _).sum = ((l :: ls).map _).sum
      congr 1
      apply List.map_congr_left
      intro a _
      cases reviewsOfLink s a <;> rfl
  rw [hN2, hD2]
  unfold GroupAverageSpec COALESCE
  cases hl : linksOfGroup s g.id with
  | nil => simp
  | cons l ls =>
    simp only [List.isEmpty_cons, Bool.false_eq_true, if_false, Option.getD_some]
    push_cast
    rfl

theorem GetGroup_average_of_rows (s : Store) (env : Env) (idParam : String) (g : Group)
    (hdb : env.fails 0 = false) (hg : g ∈ s.groups) (hid : Atoi idParam = some g.id) :
    ∃ body, GetGroup s env idParam = .ok 200 body ∧ body.group.id = g.id ∧
      body.statistics.average_mastery
        = COALESCE (AVG (((groupJoin s).filter fun r => r.1.1.1.id == g.id).map
            fun r => caseCorrect r.2)) 0 := by
  unfold GetGroup
  rw [hid]
  simp only [hdb, Bool.false_eq_true, if_false]
  cases hst : groupStatsOfGroup ((groupJoin s).filter fun r => r.1.1.1.id == g.id) with
  | none =>
    exfalso
    unfold groupStatsOfGroup at hst
    split at hst
    · rename_i hnil
      exact group_rows_ne_nil s g hg hnil
    · cases hst
  | some e =>
    refine ⟨e, rfl, (groupStatsOfGroup_counts s g.id e hst).1, ?_⟩
    unfold groupStatsOfGroup at hst
    split at hst
    · cases hst
    · cases hst
      rfl

/-- The store `dilutedStore` is reached from the test fixture through the handlers. -/
theorem dilutedStore_reached :
    (CreateWordReview
      (CreateStudySession (ResetHistory seedStore (Env.healthy 7)).2 (Env.healthy 7)
        (some ⟨some 1, some goTime200⟩)).2
      (Env.healthy 7) "3" "1" (some ⟨some true, some 2⟩)).2 = dilutedStore := by
  decide

/-- C15 (amended statement): over a store whose group ids and word ids are unique, when the
query goes through, for every group `g` of the store `GetGroup` answers 200 with
`average_mastery` = (number of review rows with a set flag of the words linked to `g`) /
(number of review rows of the words linked to `g` + number of links of `g` whose word has
no review row), counted over the link rows of `g`, and 0 when `g` has no link row; a linked
word that was never reviewed adds 1 to the denominator.  When every link of `g` reads at
least one review row the value is the number of set-flag review rows over the number of
review rows. -/
theorem GetGroup_average_mastery (s : Store) (env : Env) (idParam : String) (g : Group)
    (hpkg : (s.groups.map fun x => x.id).Nodup) (hpkw : (s.words.map fun x => x.id).Nodup)
    (hdb : env.fails 0 = false) (hg : g ∈ s.groups) (hid : Atoi idParam = some g.id) :
    ∃ body, GetGroup s env idParam = .ok 200 body ∧ body.group.id = g.id ∧
      body.statistics.average_mastery = GroupAverageSpec s g.id ∧
      (((linksOfGroup s g.id).filter fun l => (reviewsOfLink s l).isEmpty) = [] →
        body.statistics.average_mastery
          = ((((linksOfGroup s g.id).map fun l =>
              ((reviewsOfLink s l).filter fun r => r.correct != 0).length).sum : Nat) : ℚ)
            / ((((linksOfGroup s g.id).map fun l =>
              (reviewsOfLink s l).length).sum : Nat) : ℚ)) := by
  obtain ⟨body, hrun, hgid, havg⟩ := GetGroup_average_of_rows s env idParam g hdb hg hid
  rw [groupAverage_eq s g hpkg hpkw hg] at havg
  refine ⟨body, hrun, hgid, havg, ?_⟩
  intro hU
  rw [havg]
  unfold GroupAverageSpec
  rw [hU]
  cases hl : linksOfGroup s g.id with
  | nil => simp
  | cons l ls => simp

/-- C15 (counterexample): in `dilutedStore` group 1 links word 1 and word 2; word 1 has one
review row, flagged correct, and word 2 was never reviewed.  One review row of the words
of the group is correct out of one, a ratio of 1, but `GetGroup` reports
`average_mastery = 1/2`: the never-reviewed word 2 changes the value. -/
theorem GetGroup_average_counts_unreviewed_word :
    (∃ body, GetGroup dilutedStore (Env.healthy 7) "1" = .ok 200 body ∧
      body.statistics.average_mastery = 1 / 2) ∧
    (dilutedStore.word_review_items.filter fun r =>
      (dilutedStore.word_groups.any fun l => l.group_id == 1 && l.word_id == r.word_id)
        && r.correct == 1).length = 1 ∧
    (dilutedStore.word_review_items.filter fun r =>
      dilutedStore.word_groups.any fun l => l.group_id == 1 && l.word_id == r.word_id).length
      = 1 := by
  refine ⟨?_, by decide, by decide⟩
  obtain ⟨body, hrun, -, havg⟩ := GetGroup_average_of_rows dilutedStore (Env.healthy 7) "1"
    ⟨1, "Test Group 1", 0, 0⟩ (by decide) (by decide) (by decide)
  rw [groupAverage_eq dilutedStore ⟨1, "Test Group 1", 0, 0⟩ (by decide) (by decide)
    (by decide)] at havg
  refine ⟨body, hrun, ?_⟩
  rw [havg]
  have hE : (linksOfGroup dilutedStore 1).isEmpty = false := by decide
  have hC : ((linksOfGroup dilutedStore 1).map fun l =>
      ((reviewsOfLink dilutedStore l).filter fun r => r.correct != 0).length).sum = 1 := by
    decide
  have hR : ((linksOfGroup dilutedStore 1).map fun l =>
      (reviewsOfLink dilutedStore l).length).sum = 1 := by decide
  have hU : ((linksOfGroup dilutedStore 1).filter fun l =>
      (reviewsOfLink dilutedStore l).isEmpty).length = 1 := by decide
  show GroupAverageSpec dilutedStore 1 = 1 / 2
  unfold GroupAverageSpec
  rw [hE, hC, hR, hU]
  norm_num

/-- Instance of C15 on the test fixture: group 1 links words 1 and 2, each with one review
row, one of them flagged correct. -/
theorem GetGroup_average_mastery_witness :
    ∃ body, GetGroup seedStore (Env.healthy 7) "1" = .ok 200 body ∧ body.group.id = 1 ∧
      body.statistics.average_mastery = GroupAverageSpec seedStore 1 :=
  let ⟨body, h1, h2, h3, _⟩ := GetGroup_average_mastery seedStore (Env.healthy 7) "1"
    ⟨1, "Test Group 1", 0, 0⟩ (by decide) (by decide) (by decide) (by decide) (by decide)
  ⟨body, h1, h2, h3⟩

/-- Instance of C11 on the test fixture: the history reset succeeds and the quick
statistics after it read zero sessions and reviews and the three words of before. -/
theorem GetQuickStats_after_ResetHistory_witness :
    ∃ before after : QuickStats,
      GetQuickStats seedStore (Env.healthy 7) = .ok 200 before ∧
      GetQuickStats (ResetHistory seedStore (Env.healthy 7)).2 (Env.healthy 8)
        = .ok 200 after ∧
      after.total_sessions = 0 ∧ after.total_reviews = 0 ∧ after.words_studied = 0 ∧
      after.average_mastery = 0 ∧ after.total_words = before.total_words :=
  GetQuickStats_after_ResetHistory seedStore (Env.healthy 7) (Env.healthy 7) (Env.healthy 8)
    (by decide) (by decide) (by decide)

/-- Instance of C12 on the test fixture: the third database call fails, the
`study_sessions` delete of `ResetHistory` after its `word_review_items` delete went
through; both resets answer 500 and leave the fixture as it was. -/
theorem resets_all_or_nothing_witness :
    ((ResetHistory seedStore ⟨fun k => k == 2, 7⟩).1.status = 500 ∧
      (ResetHistory seedStore ⟨fun k => k == 2, 7⟩).2 = seedStore) ∧
    ((FullReset seedStore ⟨fun k => k == 2, 7⟩).1.status = 500 ∧
      (FullReset seedStore ⟨fun k => k == 2, 7⟩).2 = seedStore) :=
  ⟨(resets_all_or_nothing seedStore ⟨fun k => k == 2, 7⟩).1 ⟨2, by decide, rfl⟩,
    (resets_all_or_nothing seedStore ⟨fun k => k == 2, 7⟩).2 ⟨2, by decide, rfl⟩⟩

/-- Instance of C14 on the test fixture: group 1 of the fixture. -/
theorem GetGroup_word_counts_witness :
    (∃ body, GetGroup seedStore (Env.healthy 7) "1" = .ok 200 body ∧ body.group.id = 1 ∧
      GroupCountsSpec seedStore 1 body.statistics) ∧
    (∃ entries, GetGroups seedStore (Env.healthy 7) = .ok 200 entries ∧
      (∃ e ∈ entries, e.group.id = 1) ∧
      ∀ e ∈ entries, GroupCountsSpec seedStore e.group.id e.statistics) :=
  GetGroup_word_counts seedStore (Env.healthy 7) "1" ⟨1, "Test Group 1", 0, 0⟩
    (by decide) (by decide) (by decide)

/-- Instance of C16 on the test fixture: three words, three distinct reviewed word ids
and three review rows. -/
theorem dashboard_statistics_witness :
    (∃ body, GetStudyProgress seedStore (Env.healthy 7) = .ok 200 body ∧
      body.total_words = 3 ∧ body.words_studied = 3) ∧
    (∃ body, GetQuickStats seedStore (Env.healthy 7) = .ok 200 body ∧
      body.total_sessions = 2 ∧ body.total_reviews = 3 ∧ body.total_words = 3 ∧
      body.words_studied = 3) :=
  ⟨⟨_, (dashboard_statistics seedStore (Env.healthy 7) (by decide)).1, by decide, by decide⟩,
    ⟨_, (dashboard_statistics seedStore (Env.healthy 7) (by decide)).2, by decide, by decide,
      by decide, by decide⟩⟩

/-- Instance of C18 on a store with 32 listable sessions: the default call answers 20
sessions and `limit=25` answers 25. -/
theorem GetStudySessions_page_size_witness :
    (∃ xs, GetStudySessions pagedStore (Env.healthy 7) "" "" = .ok 200 xs ∧
      xs.length = 20) ∧
    (∃ xs, GetStudySessions pagedStore (Env.healthy 7) "25" "" = .ok 200 xs ∧
      xs.length = 25) :=
  ⟨(GetStudySessions_page_size pagedStore (Env.healthy 7) "" "" (by decide)).2.1 (by decide),
    (GetStudySessions_page_size pagedStore (Env.healthy 7) "" "" (by decide)).2.2
      (by decide)⟩

/-- Instance of C19 on the test fixture: `page=2` and `per_page=2` over the three words
of the fixture. -/
theorem GetWords_pagination_witness :
    ∃ body, GetWords seedStore (Env.healthy 7) (some "2") (some "2") = .ok 200 body ∧
      body.pagination.per_page = 2 ∧ body.pagination.current_page = 2 ∧
      (body.words.length : Int) ≤ body.pagination.per_page ∧
      body.pagination.total_items = 3 ∧
      body.pagination.total_pages
        = Int.ceil ((body.pagination.total_items : ℚ) / (body.pagination.per_page : ℚ)) :=
  let ⟨body, hrun, _, _, hpp, _, _, _, hpg, hlen, hti, htp⟩ :=
    GetWords_pagination seedStore (Env.healthy 7) (some "2") (some "2") (by decide)
      (by decide)
  ⟨body, hrun, (hpp (by decide) (by decide)).trans (by decide),
    (hpg (by decide)).trans (by decide), hlen, hti.trans (by decide), htp⟩

/-! ## Identifier validation -/

theorem Atoi_of_not_base10 (str : String) (h : isBase10Integer str = false) :
    Atoi str = none := by
  unfold isBase10Integer at h
  unfold Atoi
  simp only at h ⊢
  have hcond : ((match str.toList with
      | '-' :: r => r
      | '+' :: r => r
      | r => r).isEmpty || !(match str.toList with
      | '-' :: r => r
      | '+' :: r => r
      | r => r).all Char.isDigit) = true := by
    cases hE : (match str.toList with
      | '-' :: r => r
      | '+' :: r => r
      | r => r).isEmpty
    · rw [hE] at h
      simp only [Bool.not_false, Bool.true_and] at h
      rw [h]
      rfl
    · rfl
  rw [if_pos hcond]

/-- C21: for every parameter string `p` that is not a base-10 integer, each of the nine
handlers with an `:id` or `:word_id` path parameter answers 400, whatever the store and
whatever the environment are (also when every database call would fail: the answer is
given before the first one); `CreateWordReview` answers 400 when either of its two
parameters is such a string and returns the store unchanged. -/
theorem malformed_id_answers_400 (p : String) (h : isBase10Integer p = false)
    (s : Store) (env : Env) (q : String) (body : Option ReviewJSON) :
    GetWord s env p = .error 400 "Invalid word ID" ∧
    GetGroup s env p = .error 400 "Invalid group ID" ∧
    GetGroupWords s env p = .error 400 "Invalid group ID" ∧
    GetGroupStudySessions s env p = .error 400 "Invalid group ID" ∧
    GetStudyActivity s env p = .error 400 "Invalid activity ID" ∧
    GetStudyActivitySessions s env p = .error 400 "Invalid activity ID" ∧
    GetStudySession s env p = .error 400 "Invalid session ID" ∧
    GetStudySessionWords s env p = .error 400 "Invalid session ID" ∧
    CreateWordReview s env p q body = (.error 400 "Invalid session ID", s) ∧
    (CreateWordReview s env q p body).1.status = 400 ∧
    (CreateWordReview s env q p body).2 = s := by
  have hp := Atoi_of_not_base10 p h
  refine ⟨?_, ?_, ?_, ?_, ?_, ?_, ?_, ?_, ?_, ?_, ?_⟩
  · simp only [GetWord, hp]
  · simp only [GetGroup, hp]
  · simp only [GetGroupWords, hp]
  · simp only [GetGroupStudySessions, hp]
  · simp only [GetStudyActivity, hp]
  · simp only [GetStudyActivitySessions, hp]
  · simp only [GetStudySession, hp]
  · simp only [GetStudySessionWords, hp]
  · simp only [CreateWordReview, hp]
  · unfold CreateWordReview
    cases hq : Atoi q with
    | none => rfl
    | some v => simp only [hp]; rfl
  · unfold CreateWordReview
    cases hq : Atoi q with
    | none => rfl
    | some v => simp only [hp]

/-- Instance of C21: the parameter `abc`, on the test fixture with a failing database. -/
theorem malformed_id_answers_400_witness :
    GetWord seedStore ⟨fun _ => true, 7⟩ "abc" = .error 400 "Invalid word ID" ∧
    GetStudySessionWords seedStore ⟨fun _ => true, 7⟩ "abc"
      = .error 400 "Invalid session ID" ∧
    CreateWordReview seedStore ⟨fun _ => true, 7⟩ "abc" "1" none
      = (.error 400 "Invalid session ID", seedStore) ∧
    (CreateWordReview seedStore ⟨fun _ => true, 7⟩ "1" "abc" none).1.status = 400 :=
  ⟨(malformed_id_answers_400 "abc" (by decide) seedStore ⟨fun _ => true, 7⟩ "1" none).1,
    (malformed_id_answers_400 "abc" (by decide) seedStore
      ⟨fun _ => true, 7⟩ "1" none).2.2.2.2.2.2.2.1,
    (malformed_id_answers_400 "abc" (by decide) seedStore
      ⟨fun _ => true, 7⟩ "1" none).2.2.2.2.2.2.2.2.1,
    (malformed_id_answers_400 "abc" (by decide) seedStore
      ⟨fun _ => true, 7⟩ "1" none).2.2.2.2.2.2.2.2.2.1⟩

/-! ## Session statistics -/

theorem SessionRead_row (s : Store) (x : StudySessionWithStats) (h : SessionRead s x) :
    ∃ row ∈ sessionJoin s,
      x = setScore (scanSession s row) ∨ x = setEndTime (setScore (scanSession s row)) := by
  rcases h with ⟨env, idParam, st, h⟩ | ⟨env, l, o, st, xs, h, hx⟩ | ⟨env, st, h⟩ |
    ⟨env, idParam, st, xs, h, hx⟩ | ⟨env, idParam, st, xs, h, hx⟩
  · unfold GetStudySession at h
    split at h
    · cases h
    · split at h
      · cases h
      · split at h
        · cases h
        · rename_i row rest hrows
          cases h
          have hmem : row ∈ (sessionJoin s).filter _ := hrows ▸ List.mem_cons_self _ _
          exact ⟨row, (List.mem_filter.mp hmem).1, Or.inr rfl⟩
  · unfold GetStudySessions at h
    simp only at h
    split at h
    · cases h
    · cases h
      obtain ⟨row, hrow, rfl⟩ := List.mem_map.mp hx
      have h1 := List.mem_of_mem_drop (List.mem_of_mem_take hrow)
      exact ⟨row, (mem_orderByCreatedAtDesc _ row).mp h1, Or.inr rfl⟩
  · unfold GetLastStudySession at h
    split at h
    · cases h
    · split at h
      · cases h
      · rename_i row rest hrows
        cases h
        have hmem : row ∈ (orderByCreatedAtDesc (sessionJoin s)).take 1 :=
          hrows ▸ List.mem_cons_self _ _
        exact ⟨row, (mem_orderByCreatedAtDesc _ row).mp (List.mem_of_mem_take hmem),
          Or.inr rfl⟩
  · unfold GetGroupStudySessions at h
    split at h
    · cases h
    · simp only at h
      split at h
      · cases h
      · cases h
        obtain ⟨row, hrow, rfl⟩ := List.mem_map.mp hx
        have h1 := (mem_orderByCreatedAtDesc _ row).mp hrow
        exact ⟨row, (List.mem_filter.mp h1).1, Or.inl rfl⟩
  · unfold GetStudyActivitySessions at h
    split at h
    · cases h
    · simp only at h
      split at h
      · cases h
      · cases h
        obtain ⟨row, hrow, rfl⟩ := List.mem_map.mp hx
        have h1 := (mem_orderByCreatedAtDesc _ row).mp hrow
        exact ⟨row, (List.mem_filter.mp h1).1, Or.inl rfl⟩

theorem SessionRead_fields (s : Store) (x : StudySessionWithStats) (h : SessionRead s x) :
    ∃ ss ∈ s.study_sessions, x.id = ss.id ∧
      x.review_items_count = ((s.word_review_items.filter fun wri =>
        wri.study_activity_id == ss.study_activity_id).length : Int) ∧
      x.correct_count = ((s.word_review_items.filter fun wri =>
        wri.study_activity_id == ss.study_activity_id && wri.correct == 1).length : Int) ∧
      x.incorrect_count = ((s.word_review_items.filter fun wri =>
        wri.study_activity_id == ss.study_activity_id && wri.correct == 0).length : Int) ∧
      x.score = if x.review_items_count > 0
        then Int.tdiv (x.correct_count * 100) x.review_items_count else 0 := by
  obtain ⟨row, hrow, hx⟩ := SessionRead_row s x h
  refine ⟨row.1, mem_sessionJoin s row hrow, ?_⟩
  have hbase : (setScore (scanSession s row)).id = row.1.id ∧
      (setScore (scanSession s row)).review_items_count
        = ((s.word_review_items.filter fun wri =>
          wri.study_activity_id == row.1.study_activity_id).length : Int) ∧
      (setScore (scanSession s row)).correct_count
        = ((s.word_review_items.filter fun wri =>
          wri.study_activity_id == row.1.study_activity_id && wri.correct == 1).length : Int) ∧
      (setScore (scanSession s row)).incorrect_count
        = ((s.word_review_items.filter fun wri =>
          wri.study_activity_id == row.1.study_activity_id && wri.correct == 0).length : Int) ∧
      (setScore (scanSession s row)).score
        = if (setScore (scanSession s row)).review_items_count > 0
          then Int.tdiv ((setScore (scanSession s row)).correct_count * 100)
            (setScore (scanSession s row)).review_items_count else 0 := by
    unfold setScore
    by_cases hpos : (scanSession s row).review_items_count > 0
    · rw [if_pos hpos]
      refine ⟨rfl, rfl, rfl, rfl, ?_⟩
      exact (if_pos hpos).symm
    · rw [if_neg hpos]
      refine ⟨rfl, rfl, rfl, rfl, ?_⟩
      exact (if_neg hpos).symm
  rcases hx with rfl | rfl
  · exact hbase
  · exact hbase

theorem eq_of_mem_of_id_eq {α : Type} (key : α → Int) (xs : List α) (a b : α)
    (hpk : (xs.map key).Nodup) (ha : a ∈ xs) (hb : b ∈ xs) (h : key a = key b) : a = b := by
  have h1 := filter_id_eq_singleton key xs b hpk hb
  have h2 : a ∈ xs.filter (fun x => key x == key b) :=
    List.mem_filter.mpr ⟨ha, by simp [h]⟩
  rw [h1] at h2
  exact List.mem_singleton.mp h2

/-- C22: on a store whose session ids are unique (primary key), for two stored sessions
with the same `study_activity_id`, the session objects that the session reads answer for
them carry the same `review_items_count`, `correct_count`, `incorrect_count` and
`score`: the counts range over the review rows of the study activity, whichever session a
review was posted through. -/
theorem sessions_of_one_activity_share_counts (s : Store) (ss1 ss2 : StudySession)
    (x1 x2 : StudySessionWithStats)
    (hpk : (s.study_sessions.map fun x => x.id).Nodup)
    (h1 : ss1 ∈ s.study_sessions) (h2 : ss2 ∈ s.study_sessions)
    (hact : ss1.study_activity_id = ss2.study_activity_id)
    (hr1 : SessionRead s x1) (hr2 : SessionRead s x2)
    (hx1 : x1.id = ss1.id) (hx2 : x2.id = ss2.id) :
    x1.review_items_count = x2.review_items_count ∧ x1.correct_count = x2.correct_count ∧
    x1.incorrect_count = x2.incorrect_count ∧ x1.score = x2.score := by
  obtain ⟨t1, ht1, hid1, hn1, hc1, hi1, hs1⟩ := SessionRead_fields s x1 hr1
  obtain ⟨t2, ht2, hid2, hn2, hc2, hi2, hs2⟩ := SessionRead_fields s x2 hr2
  have e1 : t1 = ss1 :=
    eq_of_mem_of_id_eq (fun x : StudySession => x.id) _ t1 ss1 hpk ht1 h1 (hid1.symm.trans hx1)
  have e2 : t2 = ss2 :=
    eq_of_mem_of_id_eq (fun x : StudySession => x.id) _ t2 ss2 hpk ht2 h2 (hid2.symm.trans hx2)
  subst e1 e2
  rw [hact] at hn1 hc1 hi1
  have hn : x1.review_items_count = x2.review_items_count := hn1.trans hn2.symm
  have hc : x1.correct_count = x2.correct_count := hc1.trans hc2.symm
  refine ⟨hn, hc, hi1.trans hi2.symm, ?_⟩
  rw [hs1, hs2, hn, hc]

/-- C26: when the store holds no study session, `GetLastStudySession` answers 500 with the
message `Failed to fetch last study session` (the no-row result of the scan takes the same
branch as a store failure), whatever the environment is; this is the answer on the store
that a successful `ResetHistory` leaves. -/
theorem GetLastStudySession_without_sessions (s : Store) (env env0 : Env) :
    (s.study_sessions = [] →
      GetLastStudySession s env = .error 500 "Failed to fetch last study session") ∧
    ((ResetHistory s env0).1.status = 200 →
      GetLastStudySession (ResetHistory s env0).2 env
        = .error 500 "Failed to fetch last study session") := by
  have hgen : ∀ t : Store, t.study_sessions = [] →
      GetLastStudySession t env = .error 500 "Failed to fetch last study session" := by
    intro t ht
    have hjoin : sessionJoin t = [] := by
      unfold sessionJoin
      rw [ht]
      rfl
    unfold GetLastStudySession
    rw [hjoin]
    by_cases hf : env.fails 0 = true
    · rw [if_pos hf]
    · rw [if_neg hf]
      rfl
  refine ⟨hgen s, ?_⟩
  intro hok
  apply hgen
  rw [ResetHistory_success_store s env0 hok]

/-- C27: on a store in which the flag of every review row is 0 or 1, every session object
answered by a session read has `review_items_count = correct_count + incorrect_count` and
a score between 0 and 100; the score is 100 exactly when there is at least one review and
no incorrect one, and it is 0 whenever `correct_count = 0`. -/
theorem session_counts_and_score_bounds (s : Store) (x : StudySessionWithStats)
    (hflags : ∀ r ∈ s.word_review_items, r.correct = 1 ∨ r.correct = 0)
    (h : SessionRead s x) :
    x.review_items_count = x.correct_count + x.incorrect_count ∧
    0 ≤ x.score ∧ x.score ≤ 100 ∧
    (x.score = 100 ↔ (x.review_items_count > 0 ∧ x.incorrect_count = 0)) ∧
    (x.correct_count = 0 → x.score = 0) := by
  obtain ⟨ss, _, _, hn, hc, hi, hs⟩ := SessionRead_fields s x h
  have hsum : x.review_items_count = x.correct_count + x.incorrect_count := by
    have hlen := length_eq_of_flags
      (s.word_review_items.filter fun wri => wri.study_activity_id == ss.study_activity_id)
      (fun r hr => hflags r (List.mem_filter.mp hr).1)
    rw [List.filter_filter, List.filter_filter] at hlen
    have e1 : (s.word_review_items.filter fun a =>
        (a.correct == 1 && a.study_activity_id == ss.study_activity_id))
        = s.word_review_items.filter fun wri =>
          wri.study_activity_id == ss.study_activity_id && wri.correct == 1 :=
      List.filter_congr fun r _ => Bool.and_comm _ _
    have e0 : (s.word_review_items.filter fun a =>
        (a.correct == 0 && a.study_activity_id == ss.study_activity_id))
        = s.word_review_items.filter fun wri =>
          wri.study_activity_id == ss.study_activity_id && wri.correct == 0 :=
      List.filter_congr fun r _ => Bool.and_comm _ _
    rw [e1, e0] at hlen
    rw [hn, hc, hi, hlen]
    push_cast
    rfl
  have hc0 : 0 ≤ x.correct_count := by rw [hc]; exact Int.ofNat_nonneg _
  have hi0 : 0 ≤ x.incorrect_count := by rw [hi]; exact Int.ofNat_nonneg _
  refine ⟨hsum, ?_⟩
  by_cases hpos : x.review_items_count > 0
  · rw [if_pos hpos] at hs
    rw [Int.tdiv_eq_ediv (by positivity) (le_of_lt hpos)] at hs
    have hle : x.score ≤ 100 := by
      rw [hs]
      apply Int.ediv_le_of_le_mul hpos
      nlinarith
    have hge : 0 ≤ x.score := by
      rw [hs]
      exact Int.ediv_nonneg (by positivity) (le_of_lt hpos)
    refine ⟨hge, hle, ?_, ?_⟩
    · constructor
      · intro h100
        refine ⟨hpos, ?_⟩
        have : 100 ≤ x.correct_count * 100 / x.review_items_count := by rw [← hs, h100]
        have h2 := (Int.le_ediv_iff_mul_le hpos).mp this
        nlinarith
      · rintro ⟨_, hzero⟩
        rw [hs, hsum, hzero, add_zero]
        have hcpos : 0 < x.correct_count := by omega
        rw [mul_comm]
        exact Int.mul_ediv_cancel _ (ne_of_gt hcpos)
    · intro hzero
      rw [hs, hzero]
      simp
  · rw [if_neg hpos] at hs
    refine ⟨by omega, by omega, ?_, fun _ => hs⟩
    constructor
    · intro h100
      omega
    · rintro ⟨hp, _⟩
      exact absurd hp hpos

/-- Instance of C22: sessions 1 and 3 of the store with thirty further sessions both
belong to activity 1, and `GetStudySession` answers the same counts and score for them. -/
theorem sessions_of_one_activity_share_counts_witness :
    ∃ x1 x2, GetStudySession pagedStore (Env.healthy 7) "1" = .ok 200 x1 ∧
      GetStudySession pagedStore (Env.healthy 7) "3" = .ok 200 x2 ∧
      x1.review_items_count = x2.review_items_count ∧ x1.correct_count = x2.correct_count ∧
      x1.incorrect_count = x2.incorrect_count ∧ x1.score = x2.score := by
  refine ⟨_, _, rfl, rfl, ?_⟩
  exact sessions_of_one_activity_share_counts pagedStore ⟨1, 1, 1, 100, seedSessionText⟩
    ⟨3, 1, 1, 200, goTime200.sqliteText⟩ _ _
    (by decide) (by decide) (by decide) rfl
    (Or.inl ⟨Env.healthy 7, "1", 200, rfl⟩) (Or.inl ⟨Env.healthy 7, "3", 200, rfl⟩)
    (by decide) (by decide)

/-- Instance of C26: the test fixture after a history reset. -/
theorem GetLastStudySession_without_sessions_witness :
    GetLastStudySession (ResetHistory seedStore (Env.healthy 7)).2 (Env.healthy 8)
      = .error 500 "Failed to fetch last study session" :=
  (GetLastStudySession_without_sessions seedStore (Env.healthy 8) (Env.healthy 7)).2
    (by decide)

/-- Instance of C27: session 1 of the test fixture, whose activity has three review rows,
two of them correct. -/
theorem session_counts_and_score_bounds_witness :
    ∃ x, GetStudySession seedStore (Env.healthy 7) "1" = .ok 200 x ∧
      x.review_items_count = x.correct_count + x.incorrect_count ∧
      0 ≤ x.score ∧ x.score ≤ 100 ∧
      (x.score = 100 ↔ (x.review_items_count > 0 ∧ x.incorrect_count = 0)) ∧
      (x.correct_count = 0 → x.score = 0) := by
  refine ⟨_, rfl, ?_⟩
  exact session_counts_and_score_bounds seedStore _ (by decide)
    (Or.inl ⟨Env.healthy 7, "1", 200, rfl⟩)

/-- C25 at the test fixture.  The two seeded sessions hold `created_at` as the text of the
seed, with a `T` between date and time.  A session posted with a start time one hour later
is stored with a blank there, which compares below the `T`, and `GetStudySessions` lists
it last: the entries start at 100, 100 and one hour after 100.  After a history reset, a
session posted for 06:00 in UTC and one posted for 23:00 of the day before at offset -08:00,
which is one hour later, are listed in that order, the earlier one first, because the text
of the first compares above the text of the second. -/
theorem GetStudySessions_orders_stored_text :
    (∃ xs, GetStudySessions
        (CreateStudySession seedStore (Env.healthy 7) (some ⟨some 1, some hourLater⟩)).2
        (Env.healthy 8) "" "" = .ok 200 xs ∧
      xs.map (fun x => (x.id, x.start_time)) = [(1, 100), (2, 100), (3, 100 + 60 * Minute)]) ∧
    zuluSix.instant < pacificEleven.instant ∧
    (∃ xs, GetStudySessions
        (CreateStudySession
          (CreateStudySession (ResetHistory seedStore (Env.healthy 7)).2 (Env.healthy 7)
            (some ⟨some 1, some zuluSix⟩)).2
          (Env.healthy 7) (some ⟨some 1, some pacificEleven⟩)).2
        (Env.healthy 8) "" "" = .ok 200 xs ∧
      xs.map (fun x => (x.id, x.start_time))
        = [(3, zuluSix.instant), (4, pacificEleven.instant)]) := by
  refine ⟨⟨_, rfl, by decide⟩, by decide, ⟨_, rfl, by decide⟩⟩

/-! ## Route table -/

/-- C23 (counterexample): the interface lists `POST /study_sessions/:id/words/:word_id/reviews`
for `CreateWordReview`, and `setupRoutes` registers no route with that path: it registers
`CreateWordReview` under the path ending in `/review`.  It registers no `POST /api/groups`
and no `POST /api/study_sessions` either. -/
theorem setupRoutes_misses_listed_routes :
    (⟨"POST", "/api/study_sessions/:id/words/:word_id/reviews", .CreateWordReview⟩ : Route)
      ∈ interfaceRoutes ∧
    (∀ r ∈ setupRoutes, r.path ≠ "/api/study_sessions/:id/words/:word_id/reviews") ∧
    (setupRoutes.filter fun r => r.handler == .CreateWordReview)
      = [⟨"POST", "/api/study_sessions/:id/words/:word_id/review", .CreateWordReview⟩] ∧
    (⟨"POST", "/api/groups", .CreateGroup⟩ : Route) ∈ interfaceRoutes ∧
    (∀ r ∈ setupRoutes, ¬ (r.method = "POST" ∧ r.path = "/api/groups")) ∧
    (⟨"POST", "/api/study_sessions", .CreateStudySession⟩ : Route) ∈ interfaceRoutes ∧
    (∀ r ∈ setupRoutes, ¬ (r.method = "POST" ∧ r.path = "/api/study_sessions")) := by
  decide

/-- C23 (amended statement): `setupRoutes` registers, under the `/api` prefix and with the
listed verb, path and handler, every endpoint the interface lists other than the three
served by `CreateGroup`, `CreateStudySession` and `CreateWordReview`; and it registers
`CreateWordReview` as `POST /api/study_sessions/:id/words/:word_id/review`. -/
theorem setupRoutes_registers :
    (∀ r ∈ interfaceRoutes, r.handler ≠ .CreateGroup → r.handler ≠ .CreateStudySession →
      r.handler ≠ .CreateWordReview → r ∈ setupRoutes) ∧
    (⟨"POST", "/api/study_sessions/:id/words/:word_id/review", .CreateWordReview⟩ : Route)
      ∈ setupRoutes := by
  decide

/-- Instance of C23 (amended): the session list and the review recorder. -/
theorem setupRoutes_registers_witness :
    (⟨"GET", "/api/study_sessions", .GetStudySessions⟩ : Route) ∈ setupRoutes ∧
    (⟨"POST", "/api/study_sessions/:id/words/:word_id/review", .CreateWordReview⟩ : Route)
      ∈ setupRoutes :=
  ⟨setupRoutes_registers.1 ⟨"GET", "/api/study_sessions", .GetStudySessions⟩ (by decide)
    (by decide) (by decide) (by decide), setupRoutes_registers.2⟩

/-! ## Words of a session -/

theorem mem_groupByWordId (rows : List (Word × Option WordReviewItem)) (x : WordWithStats)
    (h : x ∈ groupByWordId rows) : ∃ p ∈ rows, x.word = p.1 := by
  unfold groupByWordId at h
  obtain ⟨i, _, hst⟩ := List.mem_filterMap.mp h
  unfold wordStatsOfGroup at hst
  split at hst
  · cases hst
  · rename_i w o rest hrows
    cases hst
    have hmem : (w, o) ∈ rows.filter fun p => p.1.id == i :=
      hrows ▸ List.mem_cons_self _ _
    exact ⟨(w, o), (List.mem_filter.mp hmem).1, rfl⟩

theorem exists_mem_groupByWordId (rows : List (Word × Option WordReviewItem))
    (p : Word × Option WordReviewItem) (hp : p ∈ rows) :
    ∃ x ∈ groupByWordId rows, x.word.id = p.1.id := by
  unfold groupByWordId
  have hi : p.1.id ∈ (rows.map fun p => p.1.id).dedup :=
    List.mem_dedup.mpr (List.mem_map_of_mem (fun p : Word × Option WordReviewItem => p.1.id) hp)
  have hmem : p ∈ rows.filter fun q => q.1.id == p.1.id :=
    List.mem_filter.mpr ⟨hp, by simp⟩
  cases hst : wordStatsOfGroup (rows.filter fun q => q.1.id == p.1.id) with
  | none =>
    exfalso
    unfold wordStatsOfGroup at hst
    split at hst
    · rename_i hnil
      rw [hnil] at hmem
      cases hmem
    · cases hst
  | some x =>
    refine ⟨x, List.mem_filterMap.mpr ⟨p.1.id, hi, hst⟩, ?_⟩
    unfold wordStatsOfGroup at hst
    split at hst
    · cases hst
    · rename_i w o rest hrows
      cases hst
      have hq : (w, o) ∈ rows.filter fun q => q.1.id == p.1.id :=
        hrows ▸ List.mem_cons_self _ _
      simpa using (List.mem_filter.mp hq).2

theorem mem_sessionWordRows (s : Store) (studyActivityID groupID : Int)
    (p : Word × Option WordReviewItem) (h : p ∈ sessionWordRows s studyActivityID groupID) :
    p.1 ∈ s.words ∧ ∃ l ∈ s.word_groups, l.word_id = p.1.id ∧ l.group_id = groupID := by
  unfold sessionWordRows at h
  obtain ⟨r, hr, rfl⟩ := List.mem_map.mp h
  obtain ⟨hjoin, hg⟩ := List.mem_filter.mp hr
  have h1 := ((mem_leftJoin _ _ _ r).mp hjoin).1
  obtain ⟨w, hw, hl⟩ := List.mem_flatMap.mp h1
  obtain ⟨l, hl2, hr1⟩ := List.mem_map.mp hl
  obtain ⟨hl3, hcond⟩ := List.mem_filter.mp hl2
  rw [← hr1] at hg
  refine ⟨by rw [← hr1]; exact hw, l, hl3, ?_, by simpa using hg⟩
  rw [← hr1]
  have : w.id = l.word_id := by simpa using hcond
  exact this.symm

theorem exists_mem_sessionWordRows (s : Store) (studyActivityID groupID : Int) (w : Word)
    (l : WordGroup) (hw : w ∈ s.words) (hl : l ∈ s.word_groups) (hwid : l.word_id = w.id)
    (hg : l.group_id = groupID) :
    ∃ o, (w, o) ∈ sessionWordRows s studyActivityID groupID := by
  have hpair : (w, l) ∈ s.words.flatMap fun w =>
      (s.word_groups.filter fun wg => w.id == wg.word_id).map fun wg => (w, wg) :=
    List.mem_flatMap.mpr ⟨w, hw, List.mem_map.mpr ⟨l, List.mem_filter.mpr
      ⟨hl, by simp [hwid]⟩, rfl⟩⟩
  obtain ⟨o, ho⟩ := exists_mem_leftJoin _ s.word_review_items
    (fun (p : Word × WordGroup) wri =>
      p.1.id == wri.word_id && wri.study_activity_id == studyActivityID) (w, l) hpair
  refine ⟨o, ?_⟩
  unfold sessionWordRows
  exact List.mem_map.mpr ⟨((w, l), o), List.mem_filter.mpr ⟨ho, by simp [hg]⟩, rfl⟩

/-- C24 (counterexample): on the test fixture session 1 belongs to activity 1 and group 1;
word 3 has a review row recorded for activity 1 and is not among the words that
`GetStudySessionWords` answers for session 1 (words 2 and 1, the words of group 1).  On
`dilutedStore` word 2 has no review row at all and is among the words answered for
session 3. -/
theorem GetStudySessionWords_follows_the_group :
    (seedStore.study_sessions.filter fun ss => ss.id == 1)
      = [⟨1, 1, 1, 100, seedSessionText⟩] ∧
    (seedStore.word_review_items.filter fun r =>
      r.word_id == 3 && r.study_activity_id == 1).length = 1 ∧
    (∃ body, GetStudySessionWords seedStore (Env.healthy 7) "1" = .ok 200 body ∧
      body.map (fun x => x.word.id) = [2, 1]) ∧
    (dilutedStore.word_review_items.filter fun r => r.word_id == 2) = [] ∧
    (∃ body, GetStudySessionWords dilutedStore (Env.healthy 7) "3" = .ok 200 body ∧
      body.map (fun x => x.word.id) = [2, 1]) := by
  refine ⟨by decide, by decide, ⟨_, rfl, by decide⟩, by decide, ⟨_, rfl, by decide⟩⟩

/-- C24 (amended statement): on a store whose session ids are unique, when both queries go
through, for every existing session `ss` `GetStudySessionWords` answers 200 with the words
of the group of `ss`, reviewed or not: every answered word is a word row linked to that
group in `word_groups`, and every word row linked to that group has an entry. -/
theorem GetStudySessionWords_lists_group_words (s : Store) (env : Env) (idParam : String)
    (ss : StudySession)
    (hdb0 : env.fails 0 = false) (hdb1 : env.fails 1 = false)
    (hpk : (s.study_sessions.map fun x => x.id).Nodup)
    (hss : ss ∈ s.study_sessions) (hid : Atoi idParam = some ss.id) :
    ∃ body, GetStudySessionWords s env idParam = .ok 200 body ∧
      (∀ x ∈ body, x.word ∈ s.words ∧
        ∃ l ∈ s.word_groups, l.word_id = x.word.id ∧ l.group_id = ss.group_id) ∧
      (∀ w ∈ s.words, (∃ l ∈ s.word_groups, l.word_id = w.id ∧ l.group_id = ss.group_id) →
        ∃ x ∈ body, x.word.id = w.id) := by
  have hrun : GetStudySessionWords s env idParam = .ok 200
      ((groupByWordId (sessionWordRows s ss.study_activity_id ss.group_id)).insertionSort
        fun a b => textLe a.word.english.toList b.word.english.toList = true) := by
    unfold GetStudySessionWords
    rw [hid]
    simp only [hdb0, hdb1, Bool.false_eq_true, if_false, sessions_filter_of_mem s ss hpk hss]
  refine ⟨_, hrun, ?_, ?_⟩
  · intro x hx
    rw [(List.perm_insertionSort _ _).mem_iff] at hx
    obtain ⟨p, hp, hxp⟩ := mem_groupByWordId _ x hx
    rw [hxp]
    exact mem_sessionWordRows s _ _ p hp
  · rintro w hw ⟨l, hl, hwid, hg⟩
    obtain ⟨o, ho⟩ := exists_mem_sessionWordRows s ss.study_activity_id ss.group_id w l hw hl
      hwid hg
    obtain ⟨x, hx, hxid⟩ := exists_mem_groupByWordId _ (w, o) ho
    exact ⟨x, (List.perm_insertionSort _ _).mem_iff.mpr hx, hxid⟩

/-- Instance of C24 (amended): session 1 of the test fixture, whose group links word 1. -/
theorem GetStudySessionWords_lists_group_words_witness :
    ∃ body, GetStudySessionWords seedStore (Env.healthy 7) "1" = .ok 200 body ∧
      ∃ x ∈ body, x.word.id = 1 :=
  let ⟨body, hrun, _, hall⟩ := GetStudySessionWords_lists_group_words seedStore
    (Env.healthy 7) "1" ⟨1, 1, 1, 100, seedSessionText⟩ (by decide) (by decide) (by decide) (by decide)
    (by decide)
  ⟨body, hrun, hall ⟨1, "hello", "hola", "beginner", 0, 0⟩ (by decide)
    ⟨⟨1, 1⟩, by decide, rfl, rfl⟩⟩

/-! ## Mastery after a review -/

theorem GetWord_mastery_eq_wordMastery (s : Store) (env : Env) (idParam : String) (w : Word)
    (hdb : env.fails 0 = false) (hpk : (s.words.map fun x => x.id).Nodup)
    (hw : w ∈ s.words) (hid : Atoi idParam = some w.id) :
    ∃ body, GetWord s env idParam = .ok 200 body ∧ body.word = w ∧
      body.mastery_level = wordMastery s w.id := by
  unfold GetWord
  rw [hid]
  simp only [hdb, Bool.false_eq_true, if_false]
  rw [wordReviewRows_of_mem s w hpk hw]
  unfold wordMastery
  cases hR : reviewsOfWord s w.id with
  | nil =>
    refine ⟨_, rfl, rfl, ?_⟩
    simp [AVG, caseCorrect, COALESCE]
  | cons r R =>
    refine ⟨_, rfl, rfl, ?_⟩
    show COALESCE (AVG (((r :: R).map fun y => (w, some y)).map fun p => caseCorrect p.2)) 0
      = COALESCE (AVG ((r :: R).map fun r => caseCorrect (some r))) 0
    rw [List.map_map]
    rfl

theorem wordMastery_eq (s : Store) (wordID : Int) :
    wordMastery s wordID
      = if (reviewsOfWord s wordID).length = 0 then 0
        else (((reviewsOfWord s wordID).filter fun r => r.correct != 0).length : ℚ)
          / ((reviewsOfWord s wordID).length : ℚ) := by
  unfold wordMastery
  cases hR : reviewsOfWord s wordID with
  | nil => simp [AVG, COALESCE]
  | cons r R =>
    rw [AVG_caseCorrect (r :: R) (by simp)]
    simp [COALESCE]

theorem reviewsOfWord_insert (s : Store) (now : Time) (wordID activityID : Int) (c : Bool)
    (rt : ℚ) :
    ∃ row : WordReviewItem, row.correct = (if c then 1 else 0) ∧
      reviewsOfWord (insertWordReview s now wordID activityID c rt) wordID
        = reviewsOfWord s wordID ++ [row] := by
  refine ⟨{ id := nextRowId (s.word_review_items.map fun r => r.id)
                (seqOf s.sqlite_sequence "word_review_items")
            word_id := wordID, study_activity_id := activityID
            correct := if c then 1 else 0, response_time := rt, created_at := now }, rfl, ?_⟩
  unfold reviewsOfWord insertWordReview
  simp only [List.filter_append]
  congr 1
  simp only [List.filter_cons, beq_self_eq_true, if_true, List.filter_nil]

theorem mastery_step (C n : Nat) (hC : C ≤ n) :
    (0 : ℚ) ≤ (C : ℚ) / ((n : ℚ) + 1) ∧ ((C : ℚ) + 1) / ((n : ℚ) + 1) ≤ 1 ∧
    (if n = 0 then (0 : ℚ) else (C : ℚ) / (n : ℚ)) ≤ ((C : ℚ) + 1) / ((n : ℚ) + 1) ∧
    (C : ℚ) / ((n : ℚ) + 1) ≤ (if n = 0 then (0 : ℚ) else (C : ℚ) / (n : ℚ)) := by
  have hn1 : (0 : ℚ) < (n : ℚ) + 1 := by positivity
  have hCq : (C : ℚ) ≤ (n : ℚ) := by exact_mod_cast hC
  have hC0 : (0 : ℚ) ≤ (C : ℚ) := by positivity
  refine ⟨by positivity, ?_, ?_, ?_⟩
  · rw [div_le_one hn1]
    linarith
  · by_cases h0 : n = 0
    · rw [if_pos h0]
      positivity
    · rw [if_neg h0]
      have hn : (0 : ℚ) < (n : ℚ) := by
        have : 0 < n := Nat.pos_of_ne_zero h0
        exact_mod_cast this
      rw [div_le_div_iff₀ hn hn1]
      nlinarith
  · by_cases h0 : n = 0
    · rw [if_pos h0]
      have : C = 0 := by omega
      subst this
      simp
    · rw [if_neg h0]
      have hn : (0 : ℚ) < (n : ℚ) := by
        have : 0 < n := Nat.pos_of_ne_zero h0
        exact_mod_cast this
      rw [div_le_div_iff₀ hn1 hn]
      nlinarith

theorem CreateWordReview_ok_inv (s : Store) (env : Env) (idParam wordIdParam : String)
    (body : Option ReviewJSON) (st : Nat) (res : WordReviewResult) (s1 : Store)
    (hok : CreateWordReview s env idParam wordIdParam body = (.ok st res, s1)) :
    ∃ wordID activityID groupID rt,
      Atoi wordIdParam = some wordID ∧ wordInGroup s wordID groupID = true ∧
      s1 = insertWordReview s env.now wordID activityID res.correct rt ∧
      res.new_mastery_level = wordMastery s1 wordID ∧ st = 200 := by
  unfold CreateWordReview at hok
  split at hok
  · cases hok
  · split at hok
    · cases hok
    · rename_i sessionID _ wordID hwid
      split at hok
      · cases hok
      · split at hok
        · cases hok
        · rename_i ss rest hrows
          try simp only at hok
          split at hok
          · cases hok
          · split at hok
            · cases hok
            · rename_i hin
              split at hok
              · cases hok
              · rename_i review _
                try simp only at hok
                split at hok
                · cases hok
                · split at hok
                  · cases hok
                  · split at hok
                    · cases hok
                    · cases hok
                      refine ⟨wordID, ss.study_activity_id, ss.group_id,
                        review.ResponseTime, hwid, ?_, rfl, rfl, rfl⟩
                      simpa using hin

/-- C28: on a store whose word ids are unique, when `CreateWordReview` succeeds (which
includes that the session exists and the word belongs to its group) and the two `GetWord`
queries go through, the answered `new_mastery_level` lies between 0 and 1, is at least the
`mastery_level` that `GetWord` answers for the word before the call when the review is
correct and at most that level when it is incorrect, and equals the `mastery_level` that
`GetWord` answers for the word on the store the call leaves. -/
theorem CreateWordReview_mastery (s : Store) (env env1 env2 : Env)
    (idParam wordIdParam : String) (body : Option ReviewJSON) (st : Nat)
    (res : WordReviewResult) (s1 : Store)
    (hpk : (s.words.map fun x => x.id).Nodup)
    (hok : CreateWordReview s env idParam wordIdParam body = (.ok st res, s1))
    (hdb1 : env1.fails 0 = false) (hdb2 : env2.fails 0 = false) :
    ∃ before after : WordWithStats,
      GetWord s env1 wordIdParam = .ok 200 before ∧
      GetWord s1 env2 wordIdParam = .ok 200 after ∧
      0 ≤ res.new_mastery_level ∧ res.new_mastery_level ≤ 1 ∧
      (res.correct = true → before.mastery_level ≤ res.new_mastery_level) ∧
      (res.correct = false → res.new_mastery_level ≤ before.mastery_level) ∧
      after.mastery_level = res.new_mastery_level := by
  obtain ⟨wordID, a, g, rt, hwid, hin, hs1, hnml, _⟩ :=
    CreateWordReview_ok_inv s env idParam wordIdParam body st res s1 hok
  obtain ⟨⟨w, hw, hwidw⟩, _⟩ := (wordInGroup_iff s wordID g).mp hin
  subst hwidw
  have hwords1 : s1.words = s.words := by rw [hs1]; rfl
  obtain ⟨before, hb, _, hbm⟩ :=
    GetWord_mastery_eq_wordMastery s env1 wordIdParam w hdb1 hpk hw hwid
  obtain ⟨after, ha, _, ham⟩ :=
    GetWord_mastery_eq_wordMastery s1 env2 wordIdParam w hdb2 (by rw [hwords1]; exact hpk)
      (by rw [hwords1]; exact hw) hwid
  obtain ⟨row, hrow, hrev⟩ := reviewsOfWord_insert s env.now w.id a res.correct rt
  rw [← hs1] at hrev
  have hC : ((reviewsOfWord s w.id).filter fun r => r.correct != 0).length
      ≤ (reviewsOfWord s w.id).length := List.length_filter_le _ _
  obtain ⟨m1, m2, m3, m4⟩ := mastery_step _ _ hC
  have hlen1 : (reviewsOfWord s1 w.id).length = (reviewsOfWord s w.id).length + 1 := by
    rw [hrev, List.length_append]
    rfl
  have hold : before.mastery_level
      = if (reviewsOfWord s w.id).length = 0 then 0
        else (((reviewsOfWord s w.id).filter fun r => r.correct != 0).length : ℚ)
          / ((reviewsOfWord s w.id).length : ℚ) := by
    rw [hbm, wordMastery_eq]
  have hnew : res.new_mastery_level
      = (((reviewsOfWord s1 w.id).filter fun r => r.correct != 0).length : ℚ)
        / (((reviewsOfWord s w.id).length : ℚ) + 1) := by
    rw [hnml, wordMastery_eq, hlen1, if_neg (Nat.succ_ne_zero _)]
    push_cast
    rfl
  refine ⟨before, after, hb, ha, ?_, ?_, ?_, ?_, ham.trans hnml.symm⟩
  · rw [hnew]
    positivity
  · rw [hnew, div_le_one (by positivity)]
    have : ((reviewsOfWord s1 w.id).filter fun r => r.correct != 0).length
        ≤ (reviewsOfWord s1 w.id).length := List.length_filter_le _ _
    rw [hlen1] at this
    exact_mod_cast this
  · intro hc
    rw [hc] at hrow
    have hC1 : ((reviewsOfWord s1 w.id).filter fun r => r.correct != 0).length
        = ((reviewsOfWord s w.id).filter fun r => r.correct != 0).length + 1 := by
      rw [hrev, List.filter_append, List.length_append]
      simp [List.filter_cons, hrow]
    rw [hnew, hold, hC1]
    push_cast
    exact m3
  · intro hc
    rw [hc] at hrow
    have hC1 : ((reviewsOfWord s1 w.id).filter fun r => r.correct != 0).length
        = ((reviewsOfWord s w.id).filter fun r => r.correct != 0).length := by
      rw [hrev, List.filter_append, List.length_append]
      simp [List.filter_cons, hrow]
    rw [hnew, hold, hC1]
    exact m4

/-- Instance of C28 on the test fixture: a correct review of word 1 through session 1. -/
theorem CreateWordReview_mastery_witness :
    ∃ res before after,
      (CreateWordReview seedStore (Env.healthy 7) "1" "1" (some ⟨some true, some 2⟩)).1
        = .ok 200 res ∧
      GetWord seedStore (Env.healthy 7) "1" = .ok 200 before ∧
      GetWord (CreateWordReview seedStore (Env.healthy 7) "1" "1"
        (some ⟨some true, some 2⟩)).2 (Env.healthy 8) "1" = .ok 200 after ∧
      0 ≤ res.new_mastery_level ∧ res.new_mastery_level ≤ 1 ∧
      before.mastery_level ≤ res.new_mastery_level ∧
      after.mastery_level = res.new_mastery_level := by
  have hrun : CreateWordReview seedStore (Env.healthy 7) "1" "1" (some ⟨some true, some 2⟩)
      = (.ok 200 { word_id := 1, session_id := 1, correct := true, response_time := 2
                   new_mastery_level := wordMastery (insertWordReview seedStore 7 1 1 true 2) 1 },
        insertWordReview seedStore 7 1 1 true 2) := rfl
  obtain ⟨before, after, h1, h2, h3, h4, h5, _, h7⟩ :=
    CreateWordReview_mastery seedStore (Env.healthy 7) (Env.healthy 7) (Env.healthy 8) "1" "1"
      (some ⟨some true, some 2⟩) 200 _ _ (by decide) hrun (by decide) (by decide)
  rw [hrun]
  exact ⟨_, before, after, rfl, h1, h2, h3, h4, h5 rfl, h7⟩

/-! ## Pages beyond the last one -/

/-- C29 at the test fixture (three words), with `per_page=4`, so `total_pages = 1`: for
`page=4611686018427387905` the product `(page - 1) * perPage` is `2 ^ 64`, which the
64-bit `offset` holds as 0, and `GetWords` answers the three words of page 1 instead of an
empty list; for `page=9223372036854775807` the `offset` wraps to -8, which SQLite reads as
0, with the same answer.  Page 2 is answered with the empty list. -/
theorem GetWords_page_beyond_total_pages_wraps :
    wrapInt64 ((4611686018427387905 - 1) * 4) = 0 ∧
    (∃ body, GetWords seedStore (Env.healthy 7) (some "4611686018427387905") (some "4")
        = .ok 200 body ∧
      body.pagination.current_page = 4611686018427387905 ∧
      body.pagination.per_page = 4 ∧ body.pagination.total_pages = 1 ∧
      body.words.map (fun x => x.word.id) = [1, 2, 3]) ∧
    wrapInt64 ((9223372036854775807 - 1) * 4) = -8 ∧
    (∃ body, GetWords seedStore (Env.healthy 7) (some "9223372036854775807") (some "4")
        = .ok 200 body ∧
      body.pagination.current_page = 9223372036854775807 ∧
      body.pagination.per_page = 4 ∧ body.pagination.total_pages = 1 ∧
      body.words.map (fun x => x.word.id) = [1, 2, 3]) ∧
    (∃ body, GetWords seedStore (Env.healthy 7) (some "2") (some "4") = .ok 200 body ∧
      body.pagination.total_pages = 1 ∧ body.words = []) := by
  refine ⟨by decide, ⟨_, rfl, by decide, by decide, by decide, by decide⟩, by decide,
    ⟨_, rfl, by decide, by decide, by decide, by decide⟩, ⟨_, rfl, by decide, by decide⟩⟩

/-! ## Invariants of the group statistics -/

theorem dedup_length_le_of_subset {l1 l2 : List Int} (h : l1 ⊆ l2) :
    l1.dedup.length ≤ l2.dedup.length := by
  apply List.Subperm.length_le
  apply (List.nodup_dedup l1).subperm
  intro x hx
  exact List.mem_dedup.mpr (h (List.mem_dedup.mp hx))

theorem dedup_length_le_add {l l1 l2 : List Int} (h : l ⊆ l1 ++ l2) :
    l.dedup.length ≤ l1.dedup.length + l2.dedup.length := by
  rw [← List.length_append]
  apply List.Subperm.length_le
  apply (List.nodup_dedup l).subperm
  intro x hx
  rcases List.mem_append.mp (h (List.mem_dedup.mp hx)) with h1 | h2
  · exact List.mem_append.mpr (Or.inl (List.mem_dedup.mpr h1))
  · exact List.mem_append.mpr (Or.inr (List.mem_dedup.mpr h2))

theorem GetGroup_ok_body (s : Store) (env : Env) (idParam : String) (g : Group)
    (hdb : env.fails 0 = false) (hg : g ∈ s.groups) (hid : Atoi idParam = some g.id) :
    ∃ body, GetGroup s env idParam = .ok 200 body ∧
      GroupCountsSpec s g.id body.statistics ∧
      body.statistics.average_mastery
        = COALESCE (AVG (((groupJoin s).filter fun r => r.1.1.1.id == g.id).map
            fun r => caseCorrect r.2)) 0 := by
  unfold GetGroup
  rw [hid]
  simp only [hdb, Bool.false_eq_true, if_false]
  cases hst : groupStatsOfGroup ((groupJoin s).filter fun r => r.1.1.1.id == g.id) with
  | none =>
    exfalso
    unfold groupStatsOfGroup at hst
    split at hst
    · rename_i hnil
      exact group_rows_ne_nil s g hg hnil
    · cases hst
  | some e =>
    refine ⟨e, rfl, (groupStatsOfGroup_counts s g.id e hst).2.2, ?_⟩
    unfold groupStatsOfGroup at hst
    split at hst
    · cases hst
    · cases hst
      rfl

theorem group_average_rows (rows : List GroupRow) (hne : rows ≠ []) :
    COALESCE (AVG (rows.map fun r => caseCorrect r.2)) 0
      = ((rows.filter fun r =>
          match r.2 with
          | some rv => rv.correct != 0
          | none => false).length : ℚ) / (rows.length : ℚ) := by
  have hne2 : (rows.map fun r => r.2) ≠ [] := fun h => hne (List.map_eq_nil_iff.mp h)
  have havg := AVG_caseCorrect_rows _ hne2
  rw [List.map_map] at havg
  have hcomp : (caseCorrect ∘ fun (r : GroupRow) => r.2) = fun r => caseCorrect r.2 := rfl
  rw [hcomp] at havg
  rw [havg, List.filter_map, List.length_map, List.length_map]
  rfl

theorem group_row_review (s : Store) (row : GroupRow) (rv : WordReviewItem)
    (hrow : row ∈ groupJoin s) (hrv : row.2 = some rv) :
    rv ∈ s.word_review_items ∧ ∃ w, row.1.2 = some w ∧ w.id = rv.word_id := by
  unfold groupJoin at hrow
  rcases ((mem_leftJoin _ _ _ row).mp hrow).2 with ⟨y, hy, hmem, hcond⟩ | ⟨hnone, _⟩
  · rw [hrv] at hy
    cases hy
    refine ⟨hmem, ?_⟩
    cases hw : row.1.2 with
    | none =>
      rw [hw] at hcond
      cases hcond
    | some w =>
      rw [hw] at hcond
      exact ⟨w, rfl, by simpa using hcond⟩
  · rw [hrv] at hnone
    cases hnone

theorem wordsOfGroupReviewed_ids_subset (s : Store) (groupID v : Int) :
    ((wordsOfGroupReviewed s groupID v).map fun w => w.id)
      ⊆ (s.word_groups.filter fun l => l.group_id == groupID).map fun l => l.word_id := by
  intro x hx
  obtain ⟨w, hw, rfl⟩ := List.mem_map.mp hx
  unfold wordsOfGroupReviewed at hw
  have hcond := (List.mem_filter.mp hw).2
  rw [Bool.and_eq_true] at hcond
  obtain ⟨l, hl, hlc⟩ := List.any_eq_true.mp hcond.1
  rw [Bool.and_eq_true] at hlc
  refine List.mem_map.mpr ⟨l, List.mem_filter.mpr ⟨hl, hlc.1⟩, by simpa using hlc.2⟩

theorem reviewedWordsOfGroup_ids_subset (s : Store) (groupID : Int)
    (hflags : ∀ r ∈ s.word_review_items, r.correct = 1 ∨ r.correct = 0) :
    ((reviewedWordsOfGroup s groupID).map fun w => w.id)
      ⊆ ((wordsOfGroupReviewed s groupID 1).map fun w => w.id)
        ++ ((wordsOfGroupReviewed s groupID 0).map fun w => w.id) := by
  intro x hx
  obtain ⟨w, hw, rfl⟩ := List.mem_map.mp hx
  unfold reviewedWordsOfGroup at hw
  obtain ⟨hmem, hcond⟩ := List.mem_filter.mp hw
  rw [Bool.and_eq_true] at hcond
  obtain ⟨r, hr, hrw⟩ := List.any_eq_true.mp hcond.2
  have hin : ∀ v, r.correct = v → w ∈ wordsOfGroupReviewed s groupID v := by
    intro v hv
    unfold wordsOfGroupReviewed
    refine List.mem_filter.mpr ⟨hmem, ?_⟩
    rw [Bool.and_eq_true]
    refine ⟨hcond.1, List.any_eq_true.mpr ⟨r, hr, ?_⟩⟩
    rw [Bool.and_eq_true]
    exact ⟨hrw, by simp [hv]⟩
  rcases hflags r hr with h1 | h0
  · exact List.mem_append.mpr (Or.inl (List.mem_map_of_mem _ (hin 1 h1)))
  · exact List.mem_append.mpr (Or.inr (List.mem_map_of_mem _ (hin 0 h0)))

/-- C30: when the query goes through, for every group `g` of the store the statistics
that `GetGroup` answers satisfy `mastered_words ≤ total_word_count`, `in_progress_words ≤
total_word_count` and `0 ≤ average_mastery ≤ 1`; and on a store in which the flag of
every review row is 0 or 1 (the values the review recorder writes), `mastered_words +
in_progress_words` is at least the number of distinct words of `g` with at least one
review, and `average_mastery > 0` exactly when `mastered_words > 0`. -/
theorem GetGroup_statistics_bounds (s : Store) (env : Env) (idParam : String) (g : Group)
    (hdb : env.fails 0 = false) (hg : g ∈ s.groups) (hid : Atoi idParam = some g.id) :
    ∃ body, GetGroup s env idParam = .ok 200 body ∧
      body.statistics.mastered_words ≤ body.statistics.total_word_count ∧
      body.statistics.in_progress_words ≤ body.statistics.total_word_count ∧
      0 ≤ body.statistics.average_mastery ∧ body.statistics.average_mastery ≤ 1 ∧
      ((∀ r ∈ s.word_review_items, r.correct = 1 ∨ r.correct = 0) →
        ((((reviewedWordsOfGroup s g.id).map fun w => w.id).dedup.length : Nat) : Int)
            ≤ body.statistics.mastered_words + body.statistics.in_progress_words ∧
        (0 < body.statistics.average_mastery ↔ 0 < body.statistics.mastered_words)) := by
  obtain ⟨body, hrun, ⟨htot, hmas, hinp⟩, havg⟩ := GetGroup_ok_body s env idParam g hdb hg hid
  have hne := group_rows_ne_nil s g hg
  rw [group_average_rows _ hne] at havg
  have hD : (0 : ℚ) < ((((groupJoin s).filter fun r => r.1.1.1.id == g.id).length : Nat) : ℚ) := by
    have : 0 < ((groupJoin s).filter fun r => r.1.1.1.id == g.id).length :=
      List.length_pos.mpr hne
    exact_mod_cast this
  refine ⟨body, hrun, ?_, ?_, ?_, ?_, ?_⟩
  · rw [hmas, htot]
    exact_mod_cast dedup_length_le_of_subset (wordsOfGroupReviewed_ids_subset s g.id 1)
  · rw [hinp, htot]
    exact_mod_cast dedup_length_le_of_subset (wordsOfGroupReviewed_ids_subset s g.id 0)
  · rw [havg]
    positivity
  · rw [havg, div_le_one hD]
    exact_mod_cast List.length_filter_le _ _
  · intro hflags
    constructor
    · rw [hmas, hinp]
      exact_mod_cast dedup_length_le_add (reviewedWordsOfGroup_ids_subset s g.id hflags)
    · rw [havg, hmas]
      constructor
      · intro hpos
        have hN : 0 < (((groupJoin s).filter fun r => r.1.1.1.id == g.id).filter fun r =>
            match r.2 with
            | some rv => rv.correct != 0
            | none => false).length := by
          by_contra hzero
          have h0 : (((groupJoin s).filter fun r => r.1.1.1.id == g.id).filter fun r =>
            match r.2 with
            | some rv => rv.correct != 0
            | none => false).length = 0 := by omega
          rw [h0] at hpos
          simp at hpos
        obtain ⟨row, hrow⟩ := List.exists_mem_of_length_pos hN
        obtain ⟨hrows, htruthy⟩ := List.mem_filter.mp hrow
        cases hrv : row.2 with
        | none =>
          rw [hrv] at htruthy
          cases htruthy
        | some rv =>
          rw [hrv] at htruthy
          obtain ⟨hmem, w, hw, _⟩ := group_row_review s row rv (List.mem_filter.mp hrows).1 hrv
          have hone : rv.correct = 1 := by
            rcases hflags rv hmem with h1 | h0
            · exact h1
            · have htr : (rv.correct != 0) = true := htruthy
              rw [h0] at htr
              cases htr
          have hx : w.id ∈ ((((groupJoin s).filter fun r => r.1.1.1.id == g.id).map
              (caseCorrectEqThenWordId 1)).filterMap id) :=
            List.mem_filterMap.mpr ⟨some w.id, List.mem_map.mpr ⟨row, hrows, by
              simp [caseCorrectEqThenWordId, hrv, hone, hw]⟩, rfl⟩
          have hx2 := ((mem_group_flag_word_ids s g.id 1 w.id).mp hx).2
          have : 0 < (((wordsOfGroupReviewed s g.id 1).map fun w => w.id).dedup).length :=
            List.length_pos_of_mem (List.mem_dedup.mpr hx2)
          exact_mod_cast this
      · intro hpos
        have hlen : 0 < (((wordsOfGroupReviewed s g.id 1).map fun w => w.id).dedup).length := by
          exact_mod_cast hpos
        obtain ⟨x, hx⟩ := List.exists_mem_of_length_pos hlen
        have hx2 := (mem_group_flag_word_ids s g.id 1 x).mpr
          ⟨⟨g, hg, rfl⟩, List.mem_dedup.mp hx⟩
        obtain ⟨o, ho, hox⟩ := List.mem_filterMap.mp hx2
        obtain ⟨row, hrows, hcase⟩ := List.mem_map.mp ho
        have htruthy : (match row.2 with
            | some rv => rv.correct != 0
            | none => false) = true := by
          unfold caseCorrectEqThenWordId at hcase
          cases hrv : row.2 with
          | none =>
            rw [hrv] at hcase
            rw [← hcase] at hox
            cases hox
          | some rv =>
            rw [hrv] at hcase
            by_cases h1 : rv.correct = 1
            · simp [h1]
            · simp only [h1, if_false] at hcase
              rw [← hcase] at hox
              cases hox
        have hN : 0 < (((groupJoin s).filter fun r => r.1.1.1.id == g.id).filter fun r =>
            match r.2 with
            | some rv => rv.correct != 0
            | none => false).length :=
          List.length_pos_of_mem (List.mem_filter.mpr ⟨hrows, htruthy⟩)
        apply div_pos _ hD
        exact_mod_cast hN

/-- Instance of C30 on the test fixture: group 1, whose two words have one review each. -/
theorem GetGroup_statistics_bounds_witness :
    ∃ body, GetGroup seedStore (Env.healthy 7) "1" = .ok 200 body ∧
      body.statistics.mastered_words ≤ body.statistics.total_word_count ∧
      body.statistics.in_progress_words ≤ body.statistics.total_word_count ∧
      0 ≤ body.statistics.average_mastery ∧ body.statistics.average_mastery ≤ 1 ∧
      (2 : Int) ≤ body.statistics.mastered_words + body.statistics.in_progress_words ∧
      (0 < body.statistics.average_mastery ↔ 0 < body.statistics.mastered_words) :=
  let ⟨body, h1, h2, h3, h4, h5, h6⟩ := GetGroup_statistics_bounds seedStore (Env.healthy 7)
    "1" ⟨1, "Test Group 1", 0, 0⟩ (by decide) (by decide) (by decide)
  ⟨body, h1, h2, h3, h4, h5, le_trans (by decide) (h6 (by decide)).1, (h6 (by decide)).2⟩

end LangPortal
